import Mathlib

/-!
# openrw: collision response, contact damage and the garage door controller

A shallow embedding of `rwengine/src/engine/GameWorld.cpp` (the collision
dispatcher, the contact callback and the object registry) and
`rwengine/src/engine/Garage.cpp` (the garage state machine), followed by the
properties proved about them.

Conventions of the embedding:

* a C++ `float` is a rational number (`ℚ`), with exact arithmetic; the
  division by the inverse mass of a body, which is zero for a static body, is
  given its IEEE result explicitly (see `Impulse`); the garage constructor
  divides by the door height without a test, and at a door height of exactly
  zero its `step` is an infinity or NaN, a value the rational `step` of the
  embedding cannot hold: the embedding builds no garage there (see `Fault`), so
  what is proved of constructed garages is proved for door heights other than
  zero;
* the square root of `getDistanceToGarage` is not taken: its comparisons with
  a constant are made on the squares (see `distanceAtLeast`);
* a pointer that may be null is an `Option`; dereferencing a null pointer is
  the error branch of `Except Fault`;
* `takeDamage` calls and the setters called on the player and the player's
  vehicle are recorded in the returned state (a list of deliveries, the new
  world), in the order the source makes them.
-/

namespace OpenRW

/-! ## Geometry -/

/-- The type `glm::vec3` (and `btVector3`): three float components. -/
structure Vec3 where
  x : ℚ
  y : ℚ
  z : ℚ
  deriving DecidableEq, Repr

/-- Componentwise sum, `operator+` of `glm::vec3`. -/
def Vec3.add (a b : Vec3) : Vec3 := ⟨a.x + b.x, a.y + b.y, a.z + b.z⟩

/-- One collision sphere of a collision model: `sphere.center`, `sphere.radius`. -/
structure Sphere where
  center : Vec3
  radius : ℚ
  deriving DecidableEq, Repr

/-! ## World objects -/

/-- Modelled from the spec: the type tag `GameObject::type()` returns; the
enumeration is declared in `GameObject.hpp`, the sources name `Instance`,
`Vehicle` and `Cutscene`, the spec lists the five tags. -/
inductive ObjectType where
  | Instance
  | Vehicle
  | Character
  | Pickup
  | Cutscene
  deriving DecidableEq, Repr

/-- The record `DynamicObjectData` as far as it is read here: `uprootForce`. -/
structure DynamicObjectData where
  uprootForce : ℚ
  deriving DecidableEq, Repr

/-- A `GameObject` as the embedded functions read it: its address (pointer
identity), `type()`, `getPosition()`, the spheres of
`getModelInfo()->getCollision()` (`none` when the collision pointer is null)
and, for an `InstanceObject`, the `dynamics` pointer. -/
structure GameObject where
  addr : Nat
  type : ObjectType
  position : Vec3
  collision : Option (List Sphere)
  dynamics : Option DynamicObjectData
  deriving DecidableEq, Repr

/-! ## Collision response and contact damage (`GameWorld.cpp`) -/

/-- The value of the float division `length / invMass`: a finite quotient, or
what IEEE arithmetic gives for a zero divisor (`+inf` for a non-zero length,
NaN for `0 / 0`). -/
inductive Impulse where
  | finite (q : ℚ)
  | infinite
  | undefined
  deriving DecidableEq, Repr

/-- The division `dV.length() / otherBody->getInvMass()`. -/
def Impulse.div (length invMass : ℚ) : Impulse :=
  if invMass = 0 then (if length = 0 then Impulse.undefined else Impulse.infinite)
  else Impulse.finite (length / invMass)

/-- The comparison `uprootForce <= impulse` on floats: true against `+inf`,
false against NaN. -/
def Impulse.reaches (uprootForce : ℚ) : Impulse → Bool
  | Impulse.finite q => decide (uprootForce ≤ q)
  | Impulse.infinite => true
  | Impulse.undefined => false

/-- The comparison `impulse < uprootForce` on floats: false against `+inf`
and against NaN. -/
def Impulse.below (uprootForce : ℚ) : Impulse → Bool
  | Impulse.finite q => decide (q < uprootForce)
  | Impulse.infinite => false
  | Impulse.undefined => false

/-- A `btCollisionObject` / `btRigidBody` as the callbacks read it:
`getUserPointer()`, `isStaticObject()`, `getLinearVelocity().length()` and
`getInvMass()`. -/
structure CollisionObject where
  userPointer : Option GameObject
  isStaticObject : Bool
  linearVelocityLength : ℚ
  invMass : ℚ
  deriving DecidableEq, Repr

/-- The enumeration `GameObject::DamageInfo::DamageType`. -/
inductive DamageType where
  | Explosion
  | Burning
  | Bullet
  | Physics
  deriving DecidableEq, Repr

/-- The record `GameObject::DamageInfo`. It is declared in `GameObject.hpp`;
the members are kept in the order of the brace initialisers of the contact
callback: the damaged location, the source location, a scalar that both
contact paths set to `0.f`, the cause and the impulse of the contact. For a
physics contact the impulse member is what the spec calls the damage amount. -/
structure DamageInfo where
  damageLocation : Vec3
  damageSource : Vec3
  hitpoints : ℚ
  type : DamageType
  impulse : Impulse
  deriving DecidableEq, Repr

/-- The contact point `btManifoldPoint`: `getPositionWorldOnA()`,
`getPositionWorldOnB()` and `getAppliedImpulse()`. -/
structure ManifoldPoint where
  positionWorldOnA : Vec3
  positionWorldOnB : Vec3
  appliedImpulse : ℚ
  deriving DecidableEq, Repr

/-- Which body of the pair an object is attached to. -/
inductive Side where
  | A
  | B
  deriving DecidableEq, Repr

/-- One call `object->takeDamage(info)`: the side whose object receives it and
the event. -/
structure Delivery where
  side : Side
  info : DamageInfo
  deriving DecidableEq, Repr

/-- The method `WorldCollisionDispatcher::needsResponse`. The first argument is
the policy of the base class, `btCollisionDispatcher::needsResponse`, which
belongs to the physics library. -/
def needsResponse (base : CollisionObject → CollisionObject → Bool)
    (obA obB : CollisionObject) : Bool :=
  match obA.userPointer, obB.userPointer with
  | some a, some b =>
    let valA := a.type == ObjectType.Instance
    let valB := b.type == ObjectType.Instance
    if !(valA && valB) && (valB || valA) then
      let dynInst := if valA then a else b
      let instBody := if valA then obA else obB
      let otherBody := if valA then obB else obA
      match dynInst.dynamics with
      | none => base obA obB
      | some dynamics =>
        if !instBody.isStaticObject then base obA obB
        else
          let impulse := otherBody.linearVelocityLength
          if Impulse.reaches dynamics.uprootForce (Impulse.div impulse otherBody.invMass) then
            false
          else base obA obB
    else base obA obB
  | _, _ => base obA obB

/-- The function `handleVehicleResponse(object, mp, isA)`: the deliveries it
makes to `object`, attached to side A when `isA` holds. -/
def handleVehicleResponse (object : GameObject) (mp : ManifoldPoint) (isA : Bool) :
    List Delivery :=
  let isVehicle := object.type == ObjectType.Vehicle
  if !isVehicle then []
  else if mp.appliedImpulse ≤ 100 then []
  else
    let src := if isA then mp.positionWorldOnB else mp.positionWorldOnA
    let dmg := if isA then mp.positionWorldOnA else mp.positionWorldOnB
    [⟨if isA then Side.A else Side.B,
      ⟨dmg, src, 0, DamageType.Physics, Impulse.finite mp.appliedImpulse⟩⟩]

/-- The uprooting block of `GameWorld::ContactProcessedCallback` (the body of
`if( ! (valA && valB) && (valB || valA) )`), for the two attached objects. -/
def uprootResponse (mp : ManifoldPoint) (obA obB : CollisionObject) (a b : GameObject) :
    List Delivery :=
  let valA := a.type == ObjectType.Instance
  let valB := b.type == ObjectType.Instance
  if !(valA && valB) && (valB || valA) then
    let dynInst := if valA then a else b
    let instBody := if valA then obA else obB
    let otherBody := if valA then obB else obA
    let src := if valA then mp.positionWorldOnB else mp.positionWorldOnA
    let dmg := if valA then mp.positionWorldOnA else mp.positionWorldOnB
    match dynInst.dynamics with
    | none => []
    | some dynamics =>
      if instBody.isStaticObject then
        let impulse := Impulse.div otherBody.linearVelocityLength otherBody.invMass
        if Impulse.reaches dynamics.uprootForce impulse then
          [⟨if valA then Side.A else Side.B, ⟨dmg, src, 0, DamageType.Physics, impulse⟩⟩]
        else []
      else []
  else []

/-- The callback `GameWorld::ContactProcessedCallback`: the value it returns
and the `takeDamage` calls it makes, in order. -/
def ContactProcessedCallback (mp : ManifoldPoint) (obA obB : CollisionObject) :
    Bool × List Delivery :=
  match obA.userPointer, obB.userPointer with
  | some a, some b =>
    (true, uprootResponse mp obA obB a b
            ++ handleVehicleResponse a mp true ++ handleVehicleResponse b mp false)
  | _, _ => (false, [])

/-- The object attached to a side of the pair. -/
def objectOn (obA obB : CollisionObject) : Side → Option GameObject
  | Side.A => obA.userPointer
  | Side.B => obB.userPointer

/-- Whether a delivery went to an object of the given type. -/
def Delivery.toType (obA obB : CollisionObject) (t : ObjectType) (d : Delivery) : Bool :=
  match objectOn obA obB d.side with
  | some o => o.type == t
  | none => false

/-! ## The garage (`Garage.cpp`) -/

/-- The enumeration `GarageType`, with the enumerators the sources name. -/
inductive GarageType where
  | Mission
  | BombShop1
  | BombShop2
  | BombShop3
  | Respray
  | CollectCars1
  | CollectCars2
  | MissionForCarToComeOut
  | Crusher
  | MissionKeepCar
  | Hideout1
  | Hideout2
  | Hideout3
  | MissionToOpenAndClose
  | MissionForSpecificCar
  | MissionKeepCarAndRemainClosed
  deriving DecidableEq, Repr

/-- The enumeration `GarageState`. -/
inductive GarageState where
  | Closed
  | Opening
  | Opened
  | Closing
  deriving DecidableEq, Repr

/-- An orientation `glm::quat`, kept as the arguments of
`glm::angleAxis(glm::radians(degrees), axis)` that built it. -/
structure Rotation where
  degrees : ℚ
  axis : Vec3
  deriving DecidableEq, Repr

/-- The bounding box of a collision model, `collision->boundingBox`. -/
structure BoundingBox where
  min : Vec3
  max : Vec3
  deriving DecidableEq, Repr

/-- An `InstanceObject` of `engine->instancePool` as the constructor reads it:
whether `getModel()` is set, the result of `SimpleModelInfo::isDoorModel` on
its model name, its transform and the bounding box of its collision model
(`none` when `getCollision()` is null). -/
structure PlacedInstance where
  hasModel : Bool
  isDoorModel : Bool
  position : Vec3
  rotation : Rotation
  boundingBox : Option BoundingBox
  deriving DecidableEq, Repr

/-- The transform of a door object, which `setPosition` / `setRotation` write. -/
structure Door where
  position : Vec3
  rotation : Rotation
  deriving DecidableEq, Repr

/-- The members of class `Garage`. The pointers `doorObject` and
`secondDoorObject` are kept with the transform of the instance they point to;
`target` is the address of the target object, `none` for a null pointer. -/
structure Garage where
  id : Nat
  type : GarageType
  min : Vec3
  max : Vec3
  state : GarageState
  fraction : ℚ
  step : ℚ
  doorHeight : ℚ
  swingType : Bool
  active : Bool
  garageTimer : ℚ
  resprayDone : Bool
  needsToUpdate : Bool
  target : Option Nat
  doorObject : Option Door
  secondDoorObject : Option Door
  startPosition : Vec3
  startPositionSecondDoor : Vec3
  deriving DecidableEq, Repr

/-- The in-class member initialisers of `Garage` (declared in `Garage.hpp`):
the values the members have when the constructor body starts. -/
structure GarageHeader where
  step : ℚ
  doorHeight : ℚ
  swingType : Bool
  active : Bool
  garageTimer : ℚ
  resprayDone : Bool
  needsToUpdate : Bool
  target : Option Nat
  startPosition : Vec3
  startPositionSecondDoor : Vec3
  deriving DecidableEq, Repr

/-- A `VehicleObject` as the garage reads and writes it: the object,
`isStopped()`, whether `getLifetime()` is `GameObject::MissionLifetime`, and
the members written by `setHealth` and `setHandbraking`. -/
structure Vehicle where
  object : GameObject
  stopped : Bool
  missionLifetime : Bool
  health : ℚ
  handbraking : Bool
  deriving DecidableEq, Repr

/-- The part of the `GameWorld` a garage reads and writes: the player's
character (`engine->getPlayer()->getCharacter()`), the character's current
vehicle (`none` for a null pointer), the flag written by `setInputEnabled`,
`getGameTime()`, and the object stored at an address. -/
structure World where
  playerCharacter : GameObject
  currentVehicle : Option Vehicle
  inputEnabled : Bool
  gameTime : ℚ
  objectAt : Nat → GameObject

/-- The ways the embedded garage code leaves the model: the null-pointer
dereferences it can reach, and the float division `step /= doorHeight` by a
door height of exactly zero. The latter is no failure of the code: the
constructor completes and leaves an infinity or NaN in `step`; it is the
embedding that has no garage for it, `step` being a rational number. -/
inductive Fault where
  | nullVehicle
  | nullTarget
  | nullCollision
  | zeroDoorHeight
  deriving DecidableEq, Repr

/-- The door search of the constructor: the loop over `instancePool.objects`
with the running values of `doorObject` and `secondDoorObject`. -/
def findDoors (midX midY : ℚ) :
    List PlacedInstance → Option PlacedInstance → Option PlacedInstance →
      Option PlacedInstance × Option PlacedInstance
  | [], door, second => (door, second)
  | inst :: rest, door, second =>
    if !inst.hasModel then findDoors midX midY rest door second
    else if !inst.isDoorModel then findDoors midX midY rest door second
    else
      let xDist := |inst.position.x - midX|
      let yDist := |inst.position.y - midY|
      if xDist < 20 ∧ yDist < 20 then
        match door with
        | none => findDoors midX midY rest (some inst) second
        | some _ => findDoors midX midY rest door (some inst)
      else findDoors midX midY rest door second

/-- The method `Garage::updateDoor`. Its callers have checked `doorObject`. -/
def updateDoor (g : Garage) : Garage :=
  let turn : Rotation := ⟨g.fraction * 90, ⟨0, 1, 0⟩⟩
  let lift : Vec3 := ⟨0, 0, g.fraction * g.doorHeight⟩
  { g with
    doorObject := g.doorObject.map fun d =>
      { position := g.startPosition.add lift,
        rotation := if g.swingType then turn else d.rotation },
    secondDoorObject := g.secondDoorObject.map fun d =>
      { position := g.startPositionSecondDoor.add lift,
        rotation := if g.swingType then turn else d.rotation } }

/-- The state the constructor's `switch (type)` assigns. -/
def initialState : GarageType → GarageState
  | GarageType.Mission => GarageState.Closed
  | GarageType.CollectCars1 => GarageState.Closed
  | GarageType.CollectCars2 => GarageState.Closed
  | GarageType.MissionForCarToComeOut => GarageState.Closed
  | GarageType.MissionKeepCar => GarageState.Closed
  | GarageType.Hideout1 => GarageState.Closed
  | GarageType.Hideout2 => GarageState.Closed
  | GarageType.Hideout3 => GarageState.Closed
  | GarageType.MissionToOpenAndClose => GarageState.Closed
  | GarageType.MissionForSpecificCar => GarageState.Closed
  | GarageType.MissionKeepCarAndRemainClosed => GarageState.Closed
  | GarageType.BombShop1 => GarageState.Opened
  | GarageType.BombShop2 => GarageState.Opened
  | GarageType.BombShop3 => GarageState.Opened
  | GarageType.Respray => GarageState.Opened
  | GarageType.Crusher => GarageState.Opened

/-- The constructor `Garage::Garage(engine, id, coord0, coord1, type)`, over the
instances of `engine->instancePool`. It fails when the door found has no
collision model (`collision->boundingBox` through a null pointer). At a door
height of exactly zero the constructor of the source completes with a `step`
that is an infinity or NaN; the embedding returns `Fault.zeroDoorHeight` there
instead of a garage, see `Fault`: a result `Except.ok g` stands for a
construction with a door height other than zero. -/
def Garage.create (hdr : GarageHeader) (pool : List PlacedInstance) (id : Nat)
    (coord0 coord1 : Vec3) (type : GarageType) : Except Fault Garage :=
  let min : Vec3 := ⟨Min.min coord0.x coord1.x, Min.min coord0.y coord1.y, Min.min coord0.z coord1.z⟩
  let max : Vec3 := ⟨Max.max coord0.x coord1.x, Max.max coord0.y coord1.y, Max.max coord0.z coord1.z⟩
  let midX := (min.x + max.x) / 2
  let midY := (min.y + max.y) / 2
  let doors := findDoors midX midY pool none none
  let heightOf : Except Fault ℚ :=
    match doors.1 with
    | none => Except.ok hdr.doorHeight
    | some d =>
      match d.boundingBox with
      | none => Except.error Fault.nullCollision
      | some bb => Except.ok (bb.max.z - bb.min.z - 1 / 10)
  match heightOf with
  | Except.error e => Except.error e
  | Except.ok doorHeight =>
    if doorHeight = 0 then Except.error Fault.zeroDoorHeight
    else
    let state := initialState type
    let g : Garage :=
      { id := id, type := type, min := min, max := max, state := state,
        fraction := if state = GarageState.Closed then 0 else 1,
        step := hdr.step / doorHeight,
        doorHeight := doorHeight,
        swingType := hdr.swingType, active := hdr.active,
        garageTimer := hdr.garageTimer, resprayDone := hdr.resprayDone,
        needsToUpdate := hdr.needsToUpdate, target := hdr.target,
        doorObject := doors.1.map fun d => ⟨d.position, d.rotation⟩,
        secondDoorObject := doors.2.map fun d => ⟨d.position, d.rotation⟩,
        startPosition :=
          match doors.1 with
          | some d => d.position
          | none => hdr.startPosition,
        startPositionSecondDoor :=
          match doors.2 with
          | some d => d.position
          | none => hdr.startPositionSecondDoor }
    Except.ok (if g.doorObject.isSome then updateDoor g else g)

/-- The radicand `dx * dx + dy * dy` of `Garage::getDistanceToGarage`. -/
def getDistanceToGarageSq (g : Garage) (point : Vec3) : ℚ :=
  let dx := Max.max (Max.max (g.min.x - point.x) 0) (point.x - g.max.x)
  let dy := Max.max (Max.max (g.min.y - point.y) 0) (point.y - g.max.y)
  dx * dx + dy * dy

/-- The test `getDistanceToGarage(point) >= c` for a constant `c >= 0`: the
square root of the radicand is at least `c` exactly when the radicand is at
least `c * c`. The test `getDistanceToGarage(point) < c` is its negation. -/
def distanceAtLeast (g : Garage) (point : Vec3) (c : ℚ) : Bool :=
  decide (c * c ≤ getDistanceToGarageSq g point)

/-- The loop of `Garage::isObjectInsideGarage` over the collision spheres of an
object at `p`. -/
def spheresInsideGarage (g : Garage) (p : Vec3) : List Sphere → Bool
  | [] => true
  | sphere :: rest =>
    let c := p.add sphere.center
    let r := sphere.radius
    if c.x + r < g.min.x then false
    else if c.y + r < g.min.y then false
    else if c.z + r < g.min.z then false
    else if c.x - r > g.max.x then false
    else if c.y - r > g.max.y then false
    else if c.z - r > g.max.z then false
    else spheresInsideGarage g p rest

/-- The method `Garage::isObjectInsideGarage`, for a non-null object. -/
def isObjectInsideGarage (g : Garage) (object : GameObject) : Bool :=
  let p := object.position
  if p.x < g.min.x then false
  else if p.y < g.min.y then false
  else if p.z < g.min.z then false
  else if p.x > g.max.x then false
  else if p.y > g.max.y then false
  else if p.z > g.max.z then false
  else
    match object.collision with
    | some spheres => spheresInsideGarage g p spheres
    | none => true

/-- The call `isObjectInsideGarage(target)` through the garage's `target`
pointer: a null pointer is dereferenced by `object->getPosition()`. -/
def isTargetObjectInside (w : World) (g : Garage) : Except Fault Bool :=
  match g.target with
  | none => Except.error Fault.nullTarget
  | some t => Except.ok (isObjectInsideGarage g (w.objectAt t))

/-- The method `Garage::shouldClose`: its result and the garage after it (the
`Respray` branch may clear `resprayDone`). -/
def shouldClose (w : World) (g : Garage) : Except Fault (Bool × Garage) :=
  let plyChar := w.playerCharacter
  let playerPosition := plyChar.position
  let playerVehicle := w.currentVehicle
  let playerIsInVehicle := playerVehicle.isSome
  match g.type with
  | GarageType.Mission =>
    if !isObjectInsideGarage g plyChar then
      match isTargetObjectInside w g with
      | Except.error e => Except.error e
      | Except.ok targetInside =>
        Except.ok (targetInside && !playerIsInVehicle && distanceAtLeast g playerPosition 2, g)
    else Except.ok (false, g)
  | GarageType.BombShop1 | GarageType.BombShop2 | GarageType.BombShop3 =>
    match playerVehicle with
    | some v => Except.ok (isObjectInsideGarage g v.object && v.stopped, g)
    | none => Except.ok (false, g)
  | GarageType.Respray =>
    match playerVehicle with
    | some v =>
      if isObjectInsideGarage g v.object && v.stopped && !g.resprayDone then Except.ok (true, g)
      else if !isObjectInsideGarage g v.object && distanceAtLeast g v.object.position 2
          && g.resprayDone then
        Except.ok (false, { g with resprayDone := false })
      else Except.ok (false, g)
    | none => Except.ok (false, g)
  | GarageType.CollectCars1 | GarageType.CollectCars2 =>
    match playerVehicle with
    | some v =>
      if isObjectInsideGarage g v.object then
        if !v.missionLifetime then Except.ok (true, g) else Except.ok (false, g)
      else Except.ok (false, g)
    | none => Except.ok (false, g)
  | GarageType.MissionForCarToComeOut => Except.ok (false, g)
  | GarageType.Crusher => Except.ok (false, g)
  | GarageType.MissionKeepCar => Except.ok (false, g)
  | GarageType.Hideout1 | GarageType.Hideout2 | GarageType.Hideout3 =>
    Except.ok ((!playerIsInVehicle && distanceAtLeast g playerPosition 5)
      || (playerIsInVehicle && distanceAtLeast g playerPosition 10), g)
  | GarageType.MissionToOpenAndClose => Except.ok (false, g)
  | GarageType.MissionForSpecificCar => Except.ok (false, g)
  | GarageType.MissionKeepCarAndRemainClosed => Except.ok (false, g)

/-- The method `Garage::shouldOpen`. -/
def shouldOpen (w : World) (g : Garage) : Bool :=
  let playerPosition := w.playerCharacter.position
  let playerVehicle := w.currentVehicle
  let playerIsInVehicle := playerVehicle.isSome
  match g.type with
  | GarageType.Mission =>
    match playerVehicle with
    | some v => !distanceAtLeast g playerPosition 8 && decide (some v.object.addr = g.target)
    | none => false
  | GarageType.BombShop1 | GarageType.BombShop2 | GarageType.BombShop3
  | GarageType.Respray => decide (g.garageTimer < w.gameTime)
  | GarageType.CollectCars1 | GarageType.CollectCars2 => false
  | GarageType.MissionForCarToComeOut => false
  | GarageType.Crusher => false
  | GarageType.MissionKeepCar => false
  | GarageType.Hideout1 | GarageType.Hideout2 | GarageType.Hideout3 =>
    (!playerIsInVehicle && !distanceAtLeast g playerPosition 5)
      || (playerIsInVehicle && !distanceAtLeast g playerPosition 10)
  | GarageType.MissionToOpenAndClose => false
  | GarageType.MissionForSpecificCar => false
  | GarageType.MissionKeepCarAndRemainClosed => false

/-- The method `Garage::shouldStopClosing`. -/
def shouldStopClosing (w : World) (g : Garage) : Bool :=
  let playerPosition := w.playerCharacter.position
  let playerIsInVehicle := w.currentVehicle.isSome
  match g.type with
  | GarageType.Mission | GarageType.BombShop1 | GarageType.BombShop2 | GarageType.BombShop3
  | GarageType.Respray | GarageType.CollectCars1 | GarageType.CollectCars2 => false
  | GarageType.MissionForCarToComeOut => false
  | GarageType.Crusher => false
  | GarageType.MissionKeepCar => false
  | GarageType.Hideout1 | GarageType.Hideout2 | GarageType.Hideout3 =>
    (!playerIsInVehicle && !distanceAtLeast g playerPosition 5)
      || (playerIsInVehicle && !distanceAtLeast g playerPosition 10)
  | GarageType.MissionToOpenAndClose => false
  | GarageType.MissionForSpecificCar => false
  | GarageType.MissionKeepCarAndRemainClosed => false

/-- The method `Garage::shouldStopOpening`. -/
def shouldStopOpening (w : World) (g : Garage) : Bool :=
  let playerPosition := w.playerCharacter.position
  let playerIsInVehicle := w.currentVehicle.isSome
  match g.type with
  | GarageType.Mission | GarageType.BombShop1 | GarageType.BombShop2 | GarageType.BombShop3
  | GarageType.Respray | GarageType.CollectCars1 | GarageType.CollectCars2 => false
  | GarageType.MissionForCarToComeOut => false
  | GarageType.Crusher => false
  | GarageType.MissionKeepCar => false
  | GarageType.Hideout1 | GarageType.Hideout2 | GarageType.Hideout3 =>
    (!playerIsInVehicle && distanceAtLeast g playerPosition 5)
      || (playerIsInVehicle && distanceAtLeast g playerPosition 10)
  | GarageType.MissionToOpenAndClose => false
  | GarageType.MissionForSpecificCar => false
  | GarageType.MissionKeepCarAndRemainClosed => false

/-- The call `playerVehicle->setHandbraking(b)`. -/
def setHandbraking (w : World) (b : Bool) : Except Fault World :=
  match w.currentVehicle with
  | none => Except.error Fault.nullVehicle
  | some v => Except.ok { w with currentVehicle := some { v with handbraking := b } }

/-- The call `playerVehicle->setHealth(h)`. -/
def setHealth (w : World) (h : ℚ) : Except Fault World :=
  match w.currentVehicle with
  | none => Except.error Fault.nullVehicle
  | some v => Except.ok { w with currentVehicle := some { v with health := h } }

/-- The method `Garage::doOnOpenEvent`: every branch is empty. -/
def doOnOpenEvent (w : World) (g : Garage) : Except Fault (Garage × World) :=
  Except.ok (g, w)

/-- The method `Garage::doOnCloseEvent`. -/
def doOnCloseEvent (w : World) (g : Garage) : Except Fault (Garage × World) :=
  match g.type with
  | GarageType.Mission => Except.ok (g, { w with inputEnabled := true })
  | GarageType.BombShop1 | GarageType.BombShop2 | GarageType.BombShop3 =>
    Except.ok ({ g with garageTimer := w.gameTime + 3 / 2 }, w)
  | GarageType.Respray =>
    match setHealth w 1000 with
    | Except.error e => Except.error e
    | Except.ok w1 => Except.ok ({ g with garageTimer := w.gameTime + 2 }, w1)
  | _ => Except.ok (g, w)

/-- The method `Garage::doOnStartOpeningEvent`. -/
def doOnStartOpeningEvent (w : World) (g : Garage) : Except Fault (Garage × World) :=
  match g.type with
  | GarageType.CollectCars1 | GarageType.CollectCars2 =>
    Except.ok (g, { w with inputEnabled := true })
  | GarageType.BombShop1 | GarageType.BombShop2 | GarageType.BombShop3 =>
    match setHandbraking { w with inputEnabled := true } false with
    | Except.error e => Except.error e
    | Except.ok w1 => Except.ok (g, w1)
  | GarageType.Respray =>
    match setHandbraking { w with inputEnabled := true } false with
    | Except.error e => Except.error e
    | Except.ok w1 => Except.ok ({ g with resprayDone := true }, w1)
  | _ => Except.ok (g, w)

/-- The method `Garage::doOnStartClosingEvent`. -/
def doOnStartClosingEvent (w : World) (g : Garage) : Except Fault (Garage × World) :=
  match g.type with
  | GarageType.Mission | GarageType.CollectCars1 | GarageType.CollectCars2 =>
    Except.ok (g, { w with inputEnabled := false })
  | GarageType.BombShop1 | GarageType.BombShop2 | GarageType.BombShop3
  | GarageType.Respray =>
    match setHandbraking { w with inputEnabled := false } true with
    | Except.error e => Except.error e
    | Except.ok w1 => Except.ok (g, w1)
  | _ => Except.ok (g, w)

/-- The `switch (state)` of `Garage::tick`, entered after the two guards and
after `needsToUpdate = false`. -/
def tickSwitch (w : World) (dt : ℚ) (g : Garage) : Except Fault (Garage × World) :=
  match g.state with
  | GarageState.Opened =>
    match shouldClose w g with
    | Except.error e => Except.error e
    | Except.ok (true, g1) => doOnStartClosingEvent w { g1 with state := GarageState.Closing }
    | Except.ok (false, g1) => Except.ok (g1, w)
  | GarageState.Closed =>
    if shouldOpen w g then doOnStartOpeningEvent w { g with state := GarageState.Opening }
    else Except.ok (g, w)
  | GarageState.Opening =>
    if shouldStopOpening w g then Except.ok ({ g with state := GarageState.Closing }, w)
    else
      let g1 : Garage := { g with fraction := g.fraction + dt * g.step }
      if g1.fraction ≥ 1 then
        match doOnOpenEvent w { g1 with state := GarageState.Opened, fraction := 1 } with
        | Except.error e => Except.error e
        | Except.ok (g2, w2) => Except.ok ({ g2 with needsToUpdate := true }, w2)
      else Except.ok ({ g1 with needsToUpdate := true }, w)
  | GarageState.Closing =>
    if shouldStopClosing w g then Except.ok ({ g with state := GarageState.Opening }, w)
    else
      let g1 : Garage := { g with fraction := g.fraction - dt * g.step }
      if g1.fraction ≤ 0 then
        match doOnCloseEvent w { g1 with state := GarageState.Closed, fraction := 0 } with
        | Except.error e => Except.error e
        | Except.ok (g2, w2) => Except.ok ({ g2 with needsToUpdate := true }, w2)
      else Except.ok ({ g1 with needsToUpdate := true }, w)

/-- The method `Garage::tick(dt)`: the garage and the world after the tick, or
the null dereference the tick runs into. -/
def tick (w : World) (dt : ℚ) (g : Garage) : Except Fault (Garage × World) :=
  if g.doorObject.isNone then Except.ok (g, w)
  else if !g.active then Except.ok (g, w)
  else
    match tickSwitch w dt { g with needsToUpdate := false } with
    | Except.error e => Except.error e
    | Except.ok (g1, w1) => Except.ok (if g1.needsToUpdate then updateDoor g1 else g1, w1)

/-- A run of ticks: each tick comes with the world state the garage observes
in that frame and its `dt`; the run stops at the first tick that fails. -/
def runTicks : List (World × ℚ) → Garage → Except Fault Garage
  | [], g => Except.ok g
  | (w, dt) :: rest, g =>
    match tick w dt g with
    | Except.error e => Except.error e
    | Except.ok (g1, _) => runTicks rest g1

/-- The garages met along a run of ticks, the starting one included: the
value after every tick that completed. -/
def tickTrace : List (World × ℚ) → Garage → List Garage
  | [], g => [g]
  | (w, dt) :: rest, g =>
    match tick w dt g with
    | Except.error _ => [g]
    | Except.ok (g1, _) => g :: tickTrace rest g1

/-- The method `Garage::getDistanceToGarage`: the square root of the radicand,
taken in the real numbers. The trigger predicates compare it with constants
through `distanceAtLeast`. -/
noncomputable def getDistanceToGarage (g : Garage) (point : Vec3) : ℝ :=
  Real.sqrt (getDistanceToGarageSq g point : ℚ)

/-- The method `Garage::makeDoorSwing`. -/
def makeDoorSwing (g : Garage) : Garage :=
  if !g.swingType then
    { g with swingType := true, doorHeight := g.doorHeight / 2 - 1 / 10 }
  else g

/-- The method `Garage::activate`. -/
def activate (g : Garage) : Garage :=
  let g1 := { g with active := true }
  if g1.type = GarageType.MissionForCarToComeOut ∧ g1.state = GarageState.Closed then
    { g1 with state := GarageState.Opening }
  else g1

/-- The method `Garage::deactivate`. -/
def deactivate (g : Garage) : Garage :=
  { g with active := false }

/-- The method `Garage::open`. -/
def Garage.open (g : Garage) : Garage :=
  if g.state = GarageState.Closed ∨ g.state = GarageState.Closing then
    { g with state := GarageState.Opening }
  else g

/-- The method `Garage::close`. -/
def Garage.close (g : Garage) : Garage :=
  if g.state = GarageState.Opened ∨ g.state = GarageState.Opening then
    { g with state := GarageState.Closing }
  else g

/-- The operations of a garage that change it: `tick` (with the world state of
the frame and its `dt`), `open`, `close`, `activate`, `deactivate` and
`makeDoorSwing`. -/
inductive Operation where
  | tick (w : World) (dt : ℚ)
  | open
  | close
  | activate
  | deactivate
  | makeDoorSwing

/-- The garage after an operation. -/
def applyOperation : Operation → Garage → Except Fault Garage
  | Operation.tick w dt, g =>
    match tick w dt g with
    | Except.error e => Except.error e
    | Except.ok (g1, _) => Except.ok g1
  | Operation.open, g => Except.ok (Garage.open g)
  | Operation.close, g => Except.ok (Garage.close g)
  | Operation.activate, g => Except.ok (activate g)
  | Operation.deactivate, g => Except.ok (deactivate g)
  | Operation.makeDoorSwing, g => Except.ok (makeDoorSwing g)

/-! ## The object registry (`GameWorld.cpp`) -/

/-- The members of `GameWorld` that hold the world objects: `objects` (a
`std::set<GameObject*>`: a finite set of addresses, iterated in ascending
order), `deletionQueue` (a `std::queue<GameObject*>`, front first), the object
stored at an address, the addresses passed to `delete`, in order, and the
cutscene members `state.currentCutscene` and `state.cutsceneStartTime`. -/
structure GameWorld where
  objects : Finset Nat
  deletionQueue : List Nat
  objectAt : Nat → GameObject
  deleted : List Nat
  currentCutscene : Option Nat
  cutsceneStartTime : ℚ

/-- The method `GameWorld::destroyObject`. -/
def destroyObject (gw : GameWorld) (object : Nat) : GameWorld :=
  if object ∈ gw.objects then
    { gw with deleted := gw.deleted ++ [object], objects := gw.objects.erase object }
  else gw

/-- The method `GameWorld::destroyObjectQueued`. -/
def destroyObjectQueued (gw : GameWorld) (object : Nat) : GameWorld :=
  { gw with deletionQueue := gw.deletionQueue ++ [object] }

/-- The loop of `GameWorld::destroyQueuedObjects`, over the content of the
queue: `destroyObject(deletionQueue.front())`, then `deletionQueue.pop()`. -/
def drainDeletionQueue : List Nat → GameWorld → GameWorld
  | [], gw => gw
  | front :: rest, gw =>
    drainDeletionQueue rest { destroyObject gw front with deletionQueue := rest }

/-- The method `GameWorld::destroyQueuedObjects`. -/
def destroyQueuedObjects (gw : GameWorld) : GameWorld :=
  drainDeletionQueue gw.deletionQueue gw

/-- The loop of `GameWorld::clearCutscene` over `objects`. -/
def queueCutsceneObjects : List Nat → GameWorld → GameWorld
  | [], gw => gw
  | o :: rest, gw =>
    if (gw.objectAt o).type = ObjectType.Cutscene then
      queueCutsceneObjects rest (destroyObjectQueued gw o)
    else queueCutsceneObjects rest gw

/-- The method `GameWorld::clearCutscene` (the audio call apart). -/
def clearCutscene (gw : GameWorld) : GameWorld :=
  let gw1 := queueCutsceneObjects (gw.objects.sort (· ≤ ·)) gw
  { gw1 with currentCutscene := none, cutsceneStartTime := -1 }

/-- The objects of a queue that `destroyQueuedObjects` can delete, in the order
of their first occurrence. -/
def firstOccurrences : List Nat → List Nat
  | [] => []
  | a :: rest => a :: (firstOccurrences rest).filter (fun b => b ≠ a)

/-- The method `Garage::isTargetInsideGarage`: `state == Closed &&
isObjectInsideGarage(target)`. -/
def isTargetInsideGarage (w : World) (g : Garage) : Except Fault Bool :=
  if g.state = GarageState.Closed then isTargetObjectInside w g else Except.ok false

/-- The garage after a list of operations, applied from the head of the list;
the run stops at the first operation that fails. -/
def runOperations : List Operation → Garage → Except Fault Garage
  | [], g => Except.ok g
  | op :: rest, g =>
    match applyOperation op g with
    | Except.error e => Except.error e
    | Except.ok g1 => runOperations rest g1

/-- The result a `ClosestRayResultCallback` holds after a ray test that hit:
`m_hitPointWorld` and `m_collisionObject`. -/
structure RayHit where
  hitPointWorld : Vec3
  collisionObject : CollisionObject
  deriving DecidableEq, Repr

/-- The method `GameWorld::getGroundAtPosition`. The first argument is the ray
test of the physics library, `dynamicsWorld->rayTest(from, to, callback)`
with a closest-hit callback: the closest hit of the ray, `none` when
`hasHit()` is false. -/
def getGroundAtPosition (rayTest : Vec3 → Vec3 → Option RayHit) (pos : Vec3) : Vec3 :=
  let rayFrom : Vec3 := ⟨pos.x, pos.y, 100⟩
  let rayTo : Vec3 := ⟨pos.x, pos.y, -100⟩
  match rayTest rayFrom rayTo with
  | some rr => ⟨rr.hitPointWorld.x, rr.hitPointWorld.y, rr.hitPointWorld.z⟩
  | none => pos

/-- The enumeration `WeaponScan::type`, with the two values the sources name. -/
inductive ScanType where
  | RADIUS
  | HITSCAN
  deriving DecidableEq, Repr

/-- The record `WeaponScan` as `doWeaponScan` reads it: `type`, `center`, `end`
(here `endPoint`) and `damage`. -/
structure WeaponScan where
  type : ScanType
  center : Vec3
  endPoint : Vec3
  damage : ℚ
  deriving DecidableEq, Repr

/-- One call `go->takeDamage(di)` of `doWeaponScan`: the object that receives
it and the event. -/
structure DamageCall where
  object : GameObject
  info : DamageInfo
  deriving DecidableEq, Repr

/-- The null-pointer dereference `doWeaponScan` can reach: `go->takeDamage` on
a hit body whose user pointer is null. -/
inductive ScanFault where
  | nullObject
  deriving DecidableEq, Repr

/-- The method `GameWorld::doWeaponScan`: the `takeDamage` calls it makes. The
first argument is the ray test of the physics library; the second is the
value of the member of `DamageInfo` that the function leaves uninitialised. -/
def doWeaponScan (rayTest : Vec3 → Vec3 → Option RayHit) (uninitialised : Impulse)
    (scan : WeaponScan) : Except ScanFault (List DamageCall) :=
  match scan.type with
  | ScanType.RADIUS => Except.ok []
  | ScanType.HITSCAN =>
    match rayTest scan.center scan.endPoint with
    | some cb =>
      match cb.collisionObject.userPointer with
      | none => Except.error ScanFault.nullObject
      | some go =>
        Except.ok [⟨go,
          { damageLocation := ⟨cb.hitPointWorld.x, cb.hitPointWorld.y, cb.hitPointWorld.z⟩,
            damageSource := scan.center,
            type := DamageType.Bullet,
            hitpoints := scan.damage,
            impulse := uninitialised }⟩]
    | none => Except.ok []

/-- The callback `GameWorld::PhysicsTickCallback`: the world after it (the
callback writes nothing to it) and the calls `tickPhysics(timeStep)` it
makes, each with the address of the object it is made on, in iteration
order. -/
def PhysicsTickCallback (gw : GameWorld) (timeStep : ℚ) : GameWorld × List (Nat × ℚ) :=
  (gw, ((gw.objects.sort (· ≤ ·)).filter
    (fun object => decide ((gw.objectAt object).type = ObjectType.Vehicle))).map
    (fun object => (object, timeStep)))

/-- The conversion `size_t(h)` of a signed handle value on a 64-bit target. -/
def toSizeT (h : Int) : Nat := (h % 2 ^ 64).toNat

/-- The specialisation `getScriptObject<VehicleGenerator>`: the generator at
the handle value, `none` for a null pointer. The `RW_CHECK` lines of the three
lookups are diagnostics: the macro is declared outside the sources, and the
code after it handles the case it reports, so it does not enter the result. -/
def getScriptObjectVehicleGenerator {α : Type} (generators : List α) (handleValue : Int) :
    Option α :=
  if toSizeT handleValue < generators.length then generators.get? (toSizeT handleValue)
  else none

/-- The specialisation `getScriptObject<Garage>`. -/
def getScriptObjectGarage (garages : List Garage) (handleValue : Int) : Option Garage :=
  if toSizeT handleValue < garages.length then garages.get? (toSizeT handleValue)
  else none

/-- The specialisation `getScriptObject<Payphone>`. -/
def getScriptObjectPayphone {α : Type} (payphones : List α) (handleValue : Int) : Option α :=
  let index := toSizeT handleValue
  if index < payphones.length then payphones.get? index
  else none

/-! ## Example bodies and garages -/

/-- A placed instance with dynamics data: uproot force 5. -/
def exampleTree : GameObject := ⟨1, ObjectType.Instance, ⟨0, 0, 0⟩, none, some ⟨5⟩⟩

/-- A vehicle. -/
def exampleCar : GameObject := ⟨2, ObjectType.Vehicle, ⟨1, 0, 0⟩, none, none⟩

/-- A pedestrian. -/
def examplePed : GameObject := ⟨3, ObjectType.Character, ⟨1, 1, 0⟩, none, none⟩

/-- The static body of `exampleTree`. -/
def treeBody : CollisionObject := ⟨some exampleTree, true, 0, 0⟩

/-- The body of `exampleCar`, with inverse mass 1, moving at the given speed. -/
def carBody (speed : ℚ) : CollisionObject := ⟨some exampleCar, false, speed, 1⟩

/-- A second vehicle. -/
def otherCar : GameObject := ⟨5, ObjectType.Vehicle, ⟨3, 0, 0⟩, none, none⟩

/-- The body of `otherCar`, with inverse mass 1 and speed 2. -/
def otherCarBody : CollisionObject := ⟨some otherCar, false, 2, 1⟩

/-- The body of `examplePed`. -/
def pedBody : CollisionObject := ⟨some examplePed, false, 1, 1⟩

/-- A body without an attached world object. -/
def bareBody : CollisionObject := ⟨none, true, 0, 0⟩

/-- A base policy that lets every pair respond. -/
def allowAll : CollisionObject → CollisionObject → Bool := fun _ _ => true

/-- A contact point with the given applied impulse. -/
def exampleContact (applied : ℚ) : ManifoldPoint := ⟨⟨1, 2, 3⟩, ⟨4, 5, 6⟩, applied⟩



/-- Member initialisers for the examples: initial travel rate 1, so that the
constructor leaves `step = 1 / doorHeight`. -/
def exampleHeader : GarageHeader :=
  ⟨1, 4, false, true, 0, false, false, none, ⟨0, 0, 0⟩, ⟨0, 0, 0⟩⟩

/-- A door instance at `(5, 0, 0)` whose collision box has the given height. -/
def exampleDoor (height : ℚ) : PlacedInstance :=
  ⟨true, true, ⟨5, 0, 0⟩, ⟨0, ⟨0, 1, 0⟩⟩, some ⟨⟨-2, 0, 0⟩, ⟨2, 0, height⟩⟩⟩

/-- The garage of the spec's scenario, as the constructor builds it from a
door whose collision box is `41 / 10` high: a `Hideout1` with box
`(0,0,0)`..`(10,10,5)`, door height 4 and travel rate `1 / 4`. -/
def exampleGarage : Garage :=
  { id := 0, type := GarageType.Hideout1, min := ⟨0, 0, 0⟩, max := ⟨10, 10, 5⟩,
    state := GarageState.Closed, fraction := 0, step := 1 / 4, doorHeight := 4,
    swingType := false, active := true, garageTimer := 0, resprayDone := false,
    needsToUpdate := false, target := none,
    doorObject := some ⟨⟨5, 0, 0⟩, ⟨0, ⟨0, 1, 0⟩⟩⟩, secondDoorObject := none,
    startPosition := ⟨5, 0, 0⟩, startPositionSecondDoor := ⟨0, 0, 0⟩ }

/-- The same garage built from a door whose collision box is only `1 / 20`
high: door height `-1 / 20`, travel rate `-20`. -/
def flatDoorGarage : Garage :=
  { exampleGarage with step := -20, doorHeight := -1 / 20 }

/-- The example garage half-way up: opening, fraction `1 / 2`, the door lifted
by `1 / 2 * 4 = 2`. -/
def halfOpenGarage : Garage :=
  { exampleGarage with
    state := GarageState.Opening, fraction := 1 / 2, needsToUpdate := true,
    doorObject := some ⟨⟨5, 0, 2⟩, ⟨0, ⟨0, 1, 0⟩⟩⟩ }

/-- A world whose player is on foot at the given position. -/
def footWorld (position : Vec3) : World :=
  { playerCharacter := ⟨10, ObjectType.Character, position, none, none⟩,
    currentVehicle := none, inputEnabled := true, gameTime := 0,
    objectAt := fun _ => exampleCar }

/-- A vehicle at `(9, 5, 1)` with one collision sphere of radius 2 around its
origin: the sphere spans `7..11` in x and `-1..3` in z. -/
def protrudingCar : GameObject :=
  ⟨4, ObjectType.Vehicle, ⟨9, 5, 1⟩, some [⟨⟨0, 0, 0⟩, 2⟩], none⟩

/-- The one-tick successor sets of the spec (section 8): from `Closed` only
`Closed` and `Opening`; from `Opening` only `Opening`, `Opened` and `Closing`;
from `Closing` only `Closing`, `Closed` and `Opening`; from `Opened` only
`Opened` and `Closing`. -/
def reachableInOneTick : GarageState → GarageState → Bool
  | GarageState.Closed, GarageState.Closed => true
  | GarageState.Closed, GarageState.Opening => true
  | GarageState.Opening, GarageState.Opening => true
  | GarageState.Opening, GarageState.Opened => true
  | GarageState.Opening, GarageState.Closing => true
  | GarageState.Closing, GarageState.Closing => true
  | GarageState.Closing, GarageState.Closed => true
  | GarageState.Closing, GarageState.Opening => true
  | GarageState.Opened, GarageState.Opened => true
  | GarageState.Opened, GarageState.Closing => true
  | _, _ => false

/-- A registry with the live objects 1, 2 and 3 (the object 3 is a Cutscene
object, the others are vehicles) and the deletion queue `2, 7, 2, 1`. -/
def exampleRegistry : GameWorld :=
  { objects := {1, 2, 3}, deletionQueue := [2, 7, 2, 1],
    objectAt := fun a =>
      ⟨a, if a = 3 then ObjectType.Cutscene else ObjectType.Vehicle, ⟨0, 0, 0⟩, none, none⟩,
    deleted := [], currentCutscene := some 100, cutsceneStartTime := 0 }

/-- The example garage with its door turned by 45 degrees about the vertical
axis. -/
def turnedDoorGarage : Garage :=
  { exampleGarage with doorObject := some ⟨⟨5, 0, 0⟩, ⟨45, ⟨0, 0, 1⟩⟩⟩ }

/-- The garage the constructor builds from the example door with kind
`Respray`: opened, the door lifted by the door height 4. -/
def exampleRespray : Garage :=
  { exampleGarage with
    type := GarageType.Respray, state := GarageState.Opened, fraction := 1,
    doorObject := some ⟨⟨5, 0, 4⟩, ⟨0, ⟨0, 1, 0⟩⟩⟩ }

/-- A `BombShop1` with the box and door of the example garage, closed, with
its cooldown timer at 0. -/
def closedBombShop : Garage :=
  { exampleGarage with type := GarageType.BombShop1 }

/-- A `Mission` garage with the box and door of the example garage, opened,
without a target. -/
def openedMissionGarage : Garage :=
  { exampleGarage with
    type := GarageType.Mission, state := GarageState.Opened, fraction := 1,
    doorObject := some ⟨⟨5, 0, 4⟩, ⟨0, ⟨0, 1, 0⟩⟩⟩ }

/-- A world at game time 1 whose player is on foot at the given position. -/
def laterFootWorld (position : Vec3) : World :=
  { footWorld position with gameTime := 1 }

/-- A world at game time 7 whose player sits in `exampleCar`, stopped inside
the box of the example garage. -/
def carWorld : World :=
  { playerCharacter := ⟨10, ObjectType.Character, ⟨5, 5, 1⟩, none, none⟩,
    currentVehicle := some ⟨⟨2, ObjectType.Vehicle, ⟨5, 5, 1⟩, none, none⟩, true, false, 300, true⟩,
    inputEnabled := false, gameTime := 7,
    objectAt := fun _ => exampleCar }

/-- A ray test that hits the body of `exampleCar` at `(1, 2, 3)` on every ray. -/
def hitCar : Vec3 → Vec3 → Option RayHit := fun _ _ => some ⟨⟨1, 2, 3⟩, carBody 0⟩

/-- A ray test that hits nothing. -/
def hitNothing : Vec3 → Vec3 → Option RayHit := fun _ _ => none

/-- A hit scan from `(0, 0, 1)` to `(9, 0, 1)` with damage 25. -/
def exampleScan : WeaponScan := ⟨ScanType.HITSCAN, ⟨0, 0, 1⟩, ⟨9, 0, 1⟩, 25⟩

/-- The example `BombShop1` while it closes, at fraction `1 / 8`, the door
lifted by `1 / 2`. -/
def closingBombShop : Garage :=
  { closedBombShop with
    state := GarageState.Closing, fraction := 1 / 8,
    doorObject := some ⟨⟨5, 0, 1 / 2⟩, ⟨0, ⟨0, 1, 0⟩⟩⟩ }

/-- The example `BombShop1` after it has closed at game time 7. -/
def cooledBombShop : Garage :=
  { closedBombShop with garageTimer := 17 / 2, needsToUpdate := true }

/-- The example garage (a `Hideout1`) fully open after a run of ticks: state
`Opened`, fraction 1, the door lifted by the door height 4. -/
def openedHideout : Garage :=
  { exampleGarage with
    state := GarageState.Opened, fraction := 1, needsToUpdate := true,
    doorObject := some ⟨⟨5, 0, 4⟩, ⟨0, ⟨0, 1, 0⟩⟩⟩ }

/-- The world of `carWorld` with player input enabled. -/
def drivingWorld : World :=
  { carWorld with inputEnabled := true }

/-- A `CollectCars1` garage with the box and door of the example garage,
closed. -/
def closedCollectCars : Garage :=
  { exampleGarage with type := GarageType.CollectCars1 }

/-- A body of `exampleCar` with the given speed and inverse mass `1 / 2` (mass
2). -/
def heavyCarBody (speed : ℚ) : CollisionObject := ⟨some exampleCar, false, speed, 1 / 2⟩

/-- A moving body without a world object (null user pointer): speed 10,
inverse mass 1. -/
def fastBareBody : CollisionObject := ⟨none, false, 10, 1⟩

/-- A ray test that hits `fastBareBody`, a body without a world object, at
`(1, 2, 3)` on every ray. -/
def hitBare : Vec3 → Vec3 → Option RayHit := fun _ _ => some ⟨⟨1, 2, 3⟩, fastBareBody⟩

/-! ## Collision response policy -/

/-- The quotient `length / invMass` of the two callbacks, value by value: the
rational quotient for a non-zero inverse mass, `+inf` for a non-zero length
over a zero inverse mass, NaN for `0 / 0`. -/
theorem div_value (length invMass : ℚ) :
    (invMass ≠ 0 → Impulse.div length invMass = Impulse.finite (length / invMass))
    ∧ (invMass = 0 → length ≠ 0 → Impulse.div length invMass = Impulse.infinite)
    ∧ (invMass = 0 → length = 0 → Impulse.div length invMass = Impulse.undefined) := by
  refine ⟨?_, ?_, ?_⟩
  · intro hm
    simp [Impulse.div, hm]
  · intro hm hl
    simp [Impulse.div, hm, hl]
  · intro hm hl
    simp [Impulse.div, hm, hl]

/-- The test `uprootForce <= length / invMass` of the two callbacks in plain
arithmetic: with a non-zero inverse mass it is the comparison of the uproot
force with the rational quotient; with a zero inverse mass it holds exactly
when the length is not zero (the quotient is `+inf`; for `0 / 0` it is NaN
and the comparison is false). -/
theorem reaches_div_iff (uprootForce length invMass : ℚ) :
    Impulse.reaches uprootForce (Impulse.div length invMass) = true
      ↔ (invMass ≠ 0 ∧ uprootForce ≤ length / invMass) ∨ (invMass = 0 ∧ length ≠ 0) := by
  by_cases hm : invMass = 0
  · by_cases hl : length = 0
    · simp [Impulse.div, Impulse.reaches, hm, hl]
    · simp [Impulse.div, Impulse.reaches, hm, hl]
  · simp [Impulse.div, Impulse.reaches, hm]

/-- C3 (as stated, refuted): the tree (uproot force 5) against a car of
inverse mass 1. At speed 1 the impulse `1 / 1` is below the uproot force and
the response is not vetoed; at speed 10 the impulse `10 / 1` meets the
threshold and the response is vetoed although the base policy allows it.
Against a body without a world object at speed 10 the impulse meets the
threshold too, and the result is that of the base policy. -/
theorem needsResponse_veto_below_threshold_fails :
    (carBody 1).linearVelocityLength / (carBody 1).invMass < 5
    ∧ needsResponse allowAll treeBody (carBody 1) = true
    ∧ 5 ≤ (carBody 10).linearVelocityLength / (carBody 10).invMass
    ∧ allowAll treeBody (carBody 10) = true
    ∧ needsResponse allowAll treeBody (carBody 10) = false
    ∧ fastBareBody.userPointer = none
    ∧ 5 ≤ fastBareBody.linearVelocityLength / fastBareBody.invMass
    ∧ needsResponse allowAll treeBody fastBareBody = true := by
  refine ⟨by norm_num [carBody], ?_, by norm_num [carBody], rfl, ?_, rfl,
    by norm_num [fastBareBody], ?_⟩
  · simp +decide [needsResponse, allowAll, treeBody, carBody, exampleTree, exampleCar,
      Impulse.div, Impulse.reaches]
  · simp +decide [needsResponse, allowAll, treeBody, carBody, exampleTree, exampleCar,
      Impulse.div, Impulse.reaches]
  · simp [needsResponse, allowAll, treeBody, fastBareBody]

/-- C3 (amended): `needsResponse` on a pair of bodies. When a body carries no
world object the result is that of the base policy. When both carry one and
exactly one of them is an Instance that has dynamics data and a static body:
with a non-zero inverse mass of the other body the result is false when
`uprootForce <= speed / inverse mass` of the other body and that of the base
policy otherwise; with a zero inverse mass it is false for a non-zero speed
(the quotient is `+inf`) and that of the base policy for speed zero (NaN). -/
theorem needsResponse_uproot_rule (base : CollisionObject → CollisionObject → Bool)
    (obA obB : CollisionObject) :
    (obA.userPointer = none ∨ obB.userPointer = none →
      needsResponse base obA obB = base obA obB)
    ∧ (∀ (a b : GameObject) (d : DynamicObjectData),
        obA.userPointer = some a → obB.userPointer = some b →
        a.type = ObjectType.Instance → b.type ≠ ObjectType.Instance → a.dynamics = some d →
        obA.isStaticObject = true →
        (obB.invMass ≠ 0 →
          needsResponse base obA obB =
            if d.uprootForce ≤ obB.linearVelocityLength / obB.invMass then false
            else base obA obB)
        ∧ (obB.invMass = 0 → obB.linearVelocityLength ≠ 0 →
          needsResponse base obA obB = false)
        ∧ (obB.invMass = 0 → obB.linearVelocityLength = 0 →
          needsResponse base obA obB = base obA obB))
    ∧ (∀ (a b : GameObject) (d : DynamicObjectData),
        obA.userPointer = some a → obB.userPointer = some b →
        b.type = ObjectType.Instance → a.type ≠ ObjectType.Instance → b.dynamics = some d →
        obB.isStaticObject = true →
        (obA.invMass ≠ 0 →
          needsResponse base obA obB =
            if d.uprootForce ≤ obA.linearVelocityLength / obA.invMass then false
            else base obA obB)
        ∧ (obA.invMass = 0 → obA.linearVelocityLength ≠ 0 →
          needsResponse base obA obB = false)
        ∧ (obA.invMass = 0 → obA.linearVelocityLength = 0 →
          needsResponse base obA obB = base obA obB)) := by
  refine ⟨?_, ?_, ?_⟩
  · intro h
    unfold needsResponse
    rcases h with h | h
    · simp [h]
    · cases hA : obA.userPointer <;> simp [h]
  · intro a b d hA hB ha hb hd hs
    have key : needsResponse base obA obB =
        if Impulse.reaches d.uprootForce (Impulse.div obB.linearVelocityLength obB.invMass)
        then false else base obA obB := by
      simp [needsResponse, hA, hB, ha, hb, hd, hs]
    refine ⟨?_, ?_, ?_⟩
    · intro hm
      rw [key]
      simp [Impulse.div, Impulse.reaches, hm]
    · intro hm hl
      rw [key]
      simp [Impulse.div, Impulse.reaches, hm, hl]
    · intro hm hl
      rw [key]
      simp [Impulse.div, Impulse.reaches, hm, hl]
  · intro a b d hA hB hb ha hd hs
    have key : needsResponse base obA obB =
        if Impulse.reaches d.uprootForce (Impulse.div obA.linearVelocityLength obA.invMass)
        then false else base obA obB := by
      simp [needsResponse, hA, hB, ha, hb, hd, hs]
    refine ⟨?_, ?_, ?_⟩
    · intro hm
      rw [key]
      simp [Impulse.div, Impulse.reaches, hm]
    · intro hm hl
      rw [key]
      simp [Impulse.div, Impulse.reaches, hm, hl]
    · intro hm hl
      rw [key]
      simp [Impulse.div, Impulse.reaches, hm, hl]

/-- C3 (amended), at the tree (uproot force 5) and a car of inverse mass
`1 / 2`: at speed 3 the impulse is `3 / (1 / 2) = 6` and the response is
vetoed (the speed alone is below 5); at speed `5 / 2` the impulse is exactly 5
and the response is vetoed; at speed 2 the impulse is 4 and the result is
that of the base policy; against a body without a world object the result is
that of the base policy. -/
theorem needsResponse_uproot_rule_witness :
    needsResponse allowAll treeBody (heavyCarBody 3) = false
    ∧ needsResponse allowAll treeBody (heavyCarBody (5 / 2)) = false
    ∧ needsResponse allowAll treeBody (heavyCarBody 2) = allowAll treeBody (heavyCarBody 2)
    ∧ needsResponse allowAll treeBody fastBareBody = allowAll treeBody fastBareBody := by
  have h3 := ((needsResponse_uproot_rule allowAll treeBody (heavyCarBody 3)).2.1
    exampleTree exampleCar ⟨5⟩ rfl rfl rfl (by decide) rfl rfl).1 (by norm_num [heavyCarBody])
  have h5 := ((needsResponse_uproot_rule allowAll treeBody (heavyCarBody (5 / 2))).2.1
    exampleTree exampleCar ⟨5⟩ rfl rfl rfl (by decide) rfl rfl).1 (by norm_num [heavyCarBody])
  have h2 := ((needsResponse_uproot_rule allowAll treeBody (heavyCarBody 2)).2.1
    exampleTree exampleCar ⟨5⟩ rfl rfl rfl (by decide) rfl rfl).1 (by norm_num [heavyCarBody])
  refine ⟨?_, ?_, ?_,
    (needsResponse_uproot_rule allowAll treeBody fastBareBody).1 (Or.inr rfl)⟩
  · rw [h3, if_pos (by norm_num [heavyCarBody])]
  · rw [h5, if_pos (by norm_num [heavyCarBody])]
  · rw [h2, if_neg (by norm_num [heavyCarBody])]

/-- C4 (as stated, refuted): for the tree and a car at speed 10 the response
is vetoed under every base policy, yet the contact callback does not compute
`impulse < uprootForce`: it computes impulse 10 against the threshold 5 and
delivers the uprooting event. For a car at speed 1 the callback computes
`impulse < uprootForce` and delivers nothing, and the response is not vetoed. -/
theorem veto_iff_below_threshold_fails :
    (∀ base, needsResponse base treeBody (carBody 10) = false)
    ∧ Impulse.below 5 (Impulse.div 10 1) = false
    ∧ (ContactProcessedCallback (exampleContact 0) treeBody (carBody 10)).2 =
        [⟨Side.A, ⟨⟨1, 2, 3⟩, ⟨4, 5, 6⟩, 0, DamageType.Physics, Impulse.finite 10⟩⟩]
    ∧ Impulse.below 5 (Impulse.div 1 1) = true
    ∧ (ContactProcessedCallback (exampleContact 0) treeBody (carBody 1)).2 = []
    ∧ needsResponse allowAll treeBody (carBody 1) = true := by
  simp +decide [needsResponse, ContactProcessedCallback, uprootResponse, handleVehicleResponse,
    exampleContact, allowAll, treeBody, carBody, exampleTree, exampleCar,
    Impulse.div, Impulse.reaches, Impulse.below]

/-- C4 (amended): for a pair in which exactly one body is a static Instance
with dynamics data (both bodies carrying world objects), `needsResponse`
vetoes the contact (returns false whatever the base policy) if and only if
the uprooting path of `ContactProcessedCallback` finds
`uprootForce <= impulse` for that pair, which is if and only if the callback
delivers an event to the Instance. -/
theorem veto_iff_uproot_damage (mp : ManifoldPoint) (obA obB : CollisionObject)
    (a b : GameObject) (d : DynamicObjectData)
    (hA : obA.userPointer = some a) (hB : obB.userPointer = some b) :
    (a.type = ObjectType.Instance → b.type ≠ ObjectType.Instance → a.dynamics = some d →
        obA.isStaticObject = true →
      ((∀ base, needsResponse base obA obB = false) ↔
        Impulse.reaches d.uprootForce
          (Impulse.div obB.linearVelocityLength obB.invMass) = true)
      ∧ ((∀ base, needsResponse base obA obB = false) ↔
        ∃ dl ∈ (ContactProcessedCallback mp obA obB).2,
          dl.toType obA obB ObjectType.Instance = true))
    ∧ (b.type = ObjectType.Instance → a.type ≠ ObjectType.Instance → b.dynamics = some d →
        obB.isStaticObject = true →
      ((∀ base, needsResponse base obA obB = false) ↔
        Impulse.reaches d.uprootForce
          (Impulse.div obA.linearVelocityLength obA.invMass) = true)
      ∧ ((∀ base, needsResponse base obA obB = false) ↔
        ∃ dl ∈ (ContactProcessedCallback mp obA obB).2,
          dl.toType obA obB ObjectType.Instance = true)) := by
  constructor
  · intro ha hb hd hs
    have hveto : (∀ base, needsResponse base obA obB = false) ↔
        Impulse.reaches d.uprootForce
          (Impulse.div obB.linearVelocityLength obB.invMass) = true := by
      constructor
      · intro h
        have h1 := h (fun _ _ => true)
        simp [needsResponse, hA, hB, ha, hb, hd, hs] at h1
        exact h1
      · intro h base
        simp [needsResponse, hA, hB, ha, hb, hd, hs, h]
    refine ⟨hveto, hveto.trans ?_⟩
    by_cases hr : Impulse.reaches d.uprootForce
        (Impulse.div obB.linearVelocityLength obB.invMass) = true
    · simp [ContactProcessedCallback, uprootResponse, handleVehicleResponse, Delivery.toType,
        objectOn, hA, hB, ha, hb, hd, hs, hr]
    · refine ⟨fun h => absurd h hr, ?_⟩
      rintro ⟨dl, hmem, hty⟩
      exfalso
      simp [ContactProcessedCallback, uprootResponse, handleVehicleResponse,
        hA, hB, ha, hb, hd, hs, hr] at hmem
      simp [hmem.2.2, Delivery.toType, objectOn, hB, hmem.1] at hty
  · intro hb ha hd hs
    have hveto : (∀ base, needsResponse base obA obB = false) ↔
        Impulse.reaches d.uprootForce
          (Impulse.div obA.linearVelocityLength obA.invMass) = true := by
      constructor
      · intro h
        have h1 := h (fun _ _ => true)
        simp [needsResponse, hA, hB, ha, hb, hd, hs] at h1
        exact h1
      · intro h base
        simp [needsResponse, hA, hB, ha, hb, hd, hs, h]
    refine ⟨hveto, hveto.trans ?_⟩
    by_cases hr : Impulse.reaches d.uprootForce
        (Impulse.div obA.linearVelocityLength obA.invMass) = true
    · simp [ContactProcessedCallback, uprootResponse, handleVehicleResponse, Delivery.toType,
        objectOn, hA, hB, ha, hb, hd, hs, hr]
    · refine ⟨fun h => absurd h hr, ?_⟩
      rintro ⟨dl, hmem, hty⟩
      exfalso
      simp [ContactProcessedCallback, uprootResponse, handleVehicleResponse,
        hA, hB, ha, hb, hd, hs, hr] at hmem
      simp [hmem.2.2, Delivery.toType, objectOn, hA, hmem.1] at hty

/-- C4 (amended), at the tree and a car at speed 10: vetoed, threshold
reached, event delivered to the tree. -/
theorem veto_iff_uproot_damage_witness :
    ((∀ base, needsResponse base treeBody (carBody 10) = false) ↔
        Impulse.reaches 5 (Impulse.div 10 1) = true)
    ∧ ((∀ base, needsResponse base treeBody (carBody 10) = false) ↔
        ∃ dl ∈ (ContactProcessedCallback (exampleContact 0) treeBody (carBody 10)).2,
          dl.toType treeBody (carBody 10) ObjectType.Instance = true) :=
  (veto_iff_uproot_damage (exampleContact 0) treeBody (carBody 10) exampleTree exampleCar ⟨5⟩
    rfl rfl).1 rfl (by decide) rfl rfl

/-! ## Contact damage -/

/-- The deliveries of the callback when both bodies carry an object: the
uprooting block, then the vehicle response of each side. -/
theorem callback_deliveries (mp : ManifoldPoint) (obA obB : CollisionObject) (a b : GameObject)
    (hA : obA.userPointer = some a) (hB : obB.userPointer = some b) :
    (ContactProcessedCallback mp obA obB).2 =
      uprootResponse mp obA obB a b
        ++ (handleVehicleResponse a mp true ++ handleVehicleResponse b mp false) := by
  simp [ContactProcessedCallback, hA, hB]

/-- Every delivery of `handleVehicleResponse` on side A goes to a Vehicle. -/
theorem vehicleResponse_filter_A (mp : ManifoldPoint) (obA obB : CollisionObject)
    (a : GameObject) (t : ObjectType) (hA : obA.userPointer = some a) :
    (handleVehicleResponse a mp true).filter (Delivery.toType obA obB t) =
      if t = ObjectType.Vehicle then handleVehicleResponse a mp true else [] := by
  by_cases hv : a.type = ObjectType.Vehicle <;> by_cases hi : mp.appliedImpulse ≤ 100 <;>
    by_cases ht : t = ObjectType.Vehicle <;>
    simp [handleVehicleResponse, Delivery.toType, objectOn, hA, hv, hi, ht, List.filter_cons]
  intro h
  exact ht h.symm

/-- Every delivery of `handleVehicleResponse` on side B goes to a Vehicle. -/
theorem vehicleResponse_filter_B (mp : ManifoldPoint) (obA obB : CollisionObject)
    (b : GameObject) (t : ObjectType) (hB : obB.userPointer = some b) :
    (handleVehicleResponse b mp false).filter (Delivery.toType obA obB t) =
      if t = ObjectType.Vehicle then handleVehicleResponse b mp false else [] := by
  by_cases hv : b.type = ObjectType.Vehicle <;> by_cases hi : mp.appliedImpulse ≤ 100 <;>
    by_cases ht : t = ObjectType.Vehicle <;>
    simp [handleVehicleResponse, Delivery.toType, objectOn, hB, hv, hi, ht, List.filter_cons]
  intro h
  exact ht h.symm

/-- The uprooting block for an Instance on side A only. -/
theorem uprootResponse_instance_A (mp : ManifoldPoint) (obA obB : CollisionObject)
    (a b : GameObject) (ha : a.type = ObjectType.Instance) (hb : b.type ≠ ObjectType.Instance) :
    uprootResponse mp obA obB a b =
      match a.dynamics with
      | some d =>
        if obA.isStaticObject = true ∧ Impulse.reaches d.uprootForce
            (Impulse.div obB.linearVelocityLength obB.invMass) = true then
          [⟨Side.A, ⟨mp.positionWorldOnA, mp.positionWorldOnB, 0, DamageType.Physics,
            Impulse.div obB.linearVelocityLength obB.invMass⟩⟩]
        else []
      | none => [] := by
  cases hd : a.dynamics with
  | none => simp [uprootResponse, ha, hb, hd]
  | some d =>
    by_cases hs : obA.isStaticObject = true <;>
    by_cases hr : Impulse.reaches d.uprootForce
      (Impulse.div obB.linearVelocityLength obB.invMass) = true <;>
    simp [uprootResponse, ha, hb, hd, hs, hr]

/-- The uprooting block for an Instance on side B only. -/
theorem uprootResponse_instance_B (mp : ManifoldPoint) (obA obB : CollisionObject)
    (a b : GameObject) (hb : b.type = ObjectType.Instance) (ha : a.type ≠ ObjectType.Instance) :
    uprootResponse mp obA obB a b =
      match b.dynamics with
      | some d =>
        if obB.isStaticObject = true ∧ Impulse.reaches d.uprootForce
            (Impulse.div obA.linearVelocityLength obA.invMass) = true then
          [⟨Side.B, ⟨mp.positionWorldOnB, mp.positionWorldOnA, 0, DamageType.Physics,
            Impulse.div obA.linearVelocityLength obA.invMass⟩⟩]
        else []
      | none => [] := by
  cases hd : b.dynamics with
  | none => simp [uprootResponse, ha, hb, hd]
  | some d =>
    by_cases hs : obB.isStaticObject = true <;>
    by_cases hr : Impulse.reaches d.uprootForce
      (Impulse.div obA.linearVelocityLength obA.invMass) = true <;>
    simp [uprootResponse, ha, hb, hd, hs, hr]

/-- The uprooting block delivers nothing when both sides or neither side is an
Instance. -/
theorem uprootResponse_not_one (mp : ManifoldPoint) (obA obB : CollisionObject)
    (a b : GameObject) (hab : a.type = ObjectType.Instance ↔ b.type = ObjectType.Instance) :
    uprootResponse mp obA obB a b = [] := by
  by_cases ha : a.type = ObjectType.Instance
  · simp [uprootResponse, ha, hab.1 ha]
  · have hb : ¬ b.type = ObjectType.Instance := fun h => ha (hab.2 h)
    simp [uprootResponse, ha, hb]

/-- Every delivery of the uprooting block goes to an Instance. -/
theorem uprootResponse_filter (mp : ManifoldPoint) (obA obB : CollisionObject)
    (a b : GameObject) (t : ObjectType)
    (hA : obA.userPointer = some a) (hB : obB.userPointer = some b) :
    (uprootResponse mp obA obB a b).filter (Delivery.toType obA obB t) =
      if t = ObjectType.Instance then uprootResponse mp obA obB a b else [] := by
  by_cases ha : a.type = ObjectType.Instance <;> by_cases hb : b.type = ObjectType.Instance
  · simp [uprootResponse_not_one mp obA obB a b ⟨fun _ => hb, fun _ => ha⟩]
  · rw [uprootResponse_instance_A mp obA obB a b ha hb]
    cases a.dynamics with
    | none => simp
    | some d =>
      by_cases ht : t = ObjectType.Instance <;>
      by_cases hc : obA.isStaticObject = true ∧ Impulse.reaches d.uprootForce
        (Impulse.div obB.linearVelocityLength obB.invMass) = true <;>
      simp [Delivery.toType, objectOn, hA, ha, hc, ht, List.filter_cons]
      intro h
      exact ht h.symm
  · rw [uprootResponse_instance_B mp obA obB a b hb ha]
    cases b.dynamics with
    | none => simp
    | some d =>
      by_cases ht : t = ObjectType.Instance <;>
      by_cases hc : obB.isStaticObject = true ∧ Impulse.reaches d.uprootForce
        (Impulse.div obA.linearVelocityLength obA.invMass) = true <;>
      simp [Delivery.toType, objectOn, hB, hb, hc, ht, List.filter_cons]
      intro h
      exact ht h.symm
  · simp [uprootResponse_not_one mp obA obB a b ⟨fun h => absurd h ha, fun h => absurd h hb⟩]

/-- The deliveries of the callback that go to an Instance are those of the
uprooting block. -/
theorem callback_filter_instance (mp : ManifoldPoint) (obA obB : CollisionObject)
    (a b : GameObject) (hA : obA.userPointer = some a) (hB : obB.userPointer = some b) :
    (ContactProcessedCallback mp obA obB).2.filter (Delivery.toType obA obB ObjectType.Instance)
      = uprootResponse mp obA obB a b := by
  rw [callback_deliveries mp obA obB a b hA hB, List.filter_append, List.filter_append,
    uprootResponse_filter mp obA obB a b _ hA hB, vehicleResponse_filter_A mp obA obB a _ hA,
    vehicleResponse_filter_B mp obA obB b _ hB]
  simp

/-- The deliveries of the callback that go to a Vehicle are those of the two
vehicle responses. -/
theorem callback_filter_vehicle (mp : ManifoldPoint) (obA obB : CollisionObject)
    (a b : GameObject) (hA : obA.userPointer = some a) (hB : obB.userPointer = some b) :
    (ContactProcessedCallback mp obA obB).2.filter (Delivery.toType obA obB ObjectType.Vehicle)
      = handleVehicleResponse a mp true ++ handleVehicleResponse b mp false := by
  rw [callback_deliveries mp obA obB a b hA hB, List.filter_append, List.filter_append,
    uprootResponse_filter mp obA obB a b _ hA hB, vehicleResponse_filter_A mp obA obB a _ hA,
    vehicleResponse_filter_B mp obA obB b _ hB]
  simp

/-- C5: in `ContactProcessedCallback`, when both bodies carry world objects,
the events delivered to an Instance are: for an Instance on side A only, with
dynamics data and a static body, when `uprootForce <= speed of B / inverse
mass of B` (for a zero inverse mass: when the speed is not zero, the quotient
being `+inf`), exactly one event to A with cause Physics, location the
contact point on A, source the contact point on B and that quotient as impulse;
the mirror image for an Instance on side B only; and none in every other case,
in particular when both sides or neither side is an Instance. -/
theorem uproot_event_iff (mp : ManifoldPoint) (obA obB : CollisionObject) (a b : GameObject)
    (hA : obA.userPointer = some a) (hB : obB.userPointer = some b) :
    (a.type = ObjectType.Instance → b.type ≠ ObjectType.Instance →
      (ContactProcessedCallback mp obA obB).2.filter (Delivery.toType obA obB ObjectType.Instance)
        = match a.dynamics with
          | some d =>
            if obA.isStaticObject = true
                ∧ ((obB.invMass ≠ 0 ∧ d.uprootForce ≤ obB.linearVelocityLength / obB.invMass)
                  ∨ (obB.invMass = 0 ∧ obB.linearVelocityLength ≠ 0)) then
              [⟨Side.A, ⟨mp.positionWorldOnA, mp.positionWorldOnB, 0, DamageType.Physics,
                if obB.invMass = 0 then Impulse.infinite
                else Impulse.finite (obB.linearVelocityLength / obB.invMass)⟩⟩]
            else []
          | none => [])
    ∧ (b.type = ObjectType.Instance → a.type ≠ ObjectType.Instance →
      (ContactProcessedCallback mp obA obB).2.filter (Delivery.toType obA obB ObjectType.Instance)
        = match b.dynamics with
          | some d =>
            if obB.isStaticObject = true
                ∧ ((obA.invMass ≠ 0 ∧ d.uprootForce ≤ obA.linearVelocityLength / obA.invMass)
                  ∨ (obA.invMass = 0 ∧ obA.linearVelocityLength ≠ 0)) then
              [⟨Side.B, ⟨mp.positionWorldOnB, mp.positionWorldOnA, 0, DamageType.Physics,
                if obA.invMass = 0 then Impulse.infinite
                else Impulse.finite (obA.linearVelocityLength / obA.invMass)⟩⟩]
            else []
          | none => [])
    ∧ ((a.type = ObjectType.Instance ↔ b.type = ObjectType.Instance) →
      (ContactProcessedCallback mp obA obB).2.filter (Delivery.toType obA obB ObjectType.Instance)
        = []) := by
  rw [callback_filter_instance mp obA obB a b hA hB]
  refine ⟨?_, ?_, uprootResponse_not_one mp obA obB a b⟩
  · intro ha hb
    rw [uprootResponse_instance_A mp obA obB a b ha hb]
    cases a.dynamics with
    | none => rfl
    | some d =>
      by_cases hm : obB.invMass = 0
      · by_cases hl : obB.linearVelocityLength = 0
        · simp [hm, hl, Impulse.div, Impulse.reaches]
        · simp [hm, hl, Impulse.div, Impulse.reaches]
      · simp [hm, Impulse.div, Impulse.reaches]
  · intro hb ha
    rw [uprootResponse_instance_B mp obA obB a b hb ha]
    cases b.dynamics with
    | none => rfl
    | some d =>
      by_cases hm : obA.invMass = 0
      · by_cases hl : obA.linearVelocityLength = 0
        · simp [hm, hl, Impulse.div, Impulse.reaches]
        · simp [hm, hl, Impulse.div, Impulse.reaches]
      · simp [hm, Impulse.div, Impulse.reaches]

/-- C5, at the tree (side A, uproot force 5) and a car of inverse mass `1 / 2`
(side B): at speed 3 the impulse is `3 / (1 / 2) = 6` and one uprooting event
goes to the tree, with impulse 6; at speed `5 / 2` the impulse is exactly 5
and the event is delivered, with impulse 5; at speed 2 the impulse is 4 and
no event goes to the tree. -/
theorem uproot_event_iff_witness :
    (ContactProcessedCallback (exampleContact 0) treeBody (heavyCarBody 3)).2.filter
        (Delivery.toType treeBody (heavyCarBody 3) ObjectType.Instance)
      = [⟨Side.A, ⟨⟨1, 2, 3⟩, ⟨4, 5, 6⟩, 0, DamageType.Physics, Impulse.finite 6⟩⟩]
    ∧ (ContactProcessedCallback (exampleContact 0) treeBody (heavyCarBody (5 / 2))).2.filter
        (Delivery.toType treeBody (heavyCarBody (5 / 2)) ObjectType.Instance)
      = [⟨Side.A, ⟨⟨1, 2, 3⟩, ⟨4, 5, 6⟩, 0, DamageType.Physics, Impulse.finite 5⟩⟩]
    ∧ (ContactProcessedCallback (exampleContact 0) treeBody (heavyCarBody 2)).2.filter
        (Delivery.toType treeBody (heavyCarBody 2) ObjectType.Instance) = [] := by
  have h3 := (uproot_event_iff (exampleContact 0) treeBody (heavyCarBody 3) exampleTree
    exampleCar rfl rfl).1 rfl (by decide)
  have h5 := (uproot_event_iff (exampleContact 0) treeBody (heavyCarBody (5 / 2)) exampleTree
    exampleCar rfl rfl).1 rfl (by decide)
  have h2 := (uproot_event_iff (exampleContact 0) treeBody (heavyCarBody 2) exampleTree
    exampleCar rfl rfl).1 rfl (by decide)
  rw [h3, h5, h2]
  refine ⟨?_, ?_, ?_⟩
  · norm_num [exampleTree, treeBody, heavyCarBody, exampleContact]
  · norm_num [exampleTree, treeBody, heavyCarBody, exampleContact]
  · norm_num [exampleTree, treeBody, heavyCarBody, exampleContact]

/-- C6: a finalized contact between a Vehicle and a world object that is
neither a Vehicle nor an Instance, with applied impulse above 100, makes the
callback deliver exactly one event, to the vehicle, with cause Physics and
the applied impulse as its impulse (the vehicle on either side). -/
theorem vehicle_contact_single_event (mp : ManifoldPoint) (obA obB : CollisionObject)
    (a b : GameObject) (hA : obA.userPointer = some a) (hB : obB.userPointer = some b)
    (himp : 100 < mp.appliedImpulse) :
    (a.type = ObjectType.Vehicle → b.type ≠ ObjectType.Vehicle → b.type ≠ ObjectType.Instance →
      (ContactProcessedCallback mp obA obB).2 =
        [⟨Side.A, ⟨mp.positionWorldOnA, mp.positionWorldOnB, 0, DamageType.Physics,
          Impulse.finite mp.appliedImpulse⟩⟩])
    ∧ (b.type = ObjectType.Vehicle → a.type ≠ ObjectType.Vehicle → a.type ≠ ObjectType.Instance →
      (ContactProcessedCallback mp obA obB).2 =
        [⟨Side.B, ⟨mp.positionWorldOnB, mp.positionWorldOnA, 0, DamageType.Physics,
          Impulse.finite mp.appliedImpulse⟩⟩]) := by
  have hle : ¬ mp.appliedImpulse ≤ 100 := not_le.mpr himp
  constructor
  · intro ha hb hbi
    have hai : a.type ≠ ObjectType.Instance := by rw [ha]; decide
    rw [callback_deliveries mp obA obB a b hA hB,
      uprootResponse_not_one mp obA obB a b ⟨fun h => absurd h hai, fun h => absurd h hbi⟩]
    simp [handleVehicleResponse, ha, hb, hle]
  · intro hb ha hai
    have hbi : b.type ≠ ObjectType.Instance := by rw [hb]; decide
    rw [callback_deliveries mp obA obB a b hA hB,
      uprootResponse_not_one mp obA obB a b ⟨fun h => absurd h hai, fun h => absurd h hbi⟩]
    simp [handleVehicleResponse, ha, hb, hle]

/-- C6, the scenario of the spec: a car hits a pedestrian with applied
impulse 150; one event, to the car, with cause Physics and impulse 150. -/
theorem vehicle_contact_single_event_witness :
    (ContactProcessedCallback (exampleContact 150) (carBody 1) pedBody).2 =
      [⟨Side.A, ⟨⟨1, 2, 3⟩, ⟨4, 5, 6⟩, 0, DamageType.Physics, Impulse.finite 150⟩⟩] :=
  (vehicle_contact_single_event (exampleContact 150) (carBody 1) pedBody exampleCar examplePed
    rfl rfl (by norm_num [exampleContact])).1 rfl (by decide) (by decide)

/-- C7: when both bodies carry world objects, the events the callback delivers
to vehicles are, in order: one to side A exactly when A's object is a Vehicle
and the applied impulse is above 100, located at the contact point on A with
the contact point on B as source; and one to side B exactly when B's object
is a Vehicle and the applied impulse is above 100, located at the contact
point on B with the contact point on A as source. -/
theorem vehicle_events_per_side (mp : ManifoldPoint) (obA obB : CollisionObject)
    (a b : GameObject) (hA : obA.userPointer = some a) (hB : obB.userPointer = some b) :
    (ContactProcessedCallback mp obA obB).2.filter (Delivery.toType obA obB ObjectType.Vehicle)
      = (if a.type = ObjectType.Vehicle ∧ 100 < mp.appliedImpulse then
          [⟨Side.A, ⟨mp.positionWorldOnA, mp.positionWorldOnB, 0, DamageType.Physics,
            Impulse.finite mp.appliedImpulse⟩⟩]
         else [])
        ++ (if b.type = ObjectType.Vehicle ∧ 100 < mp.appliedImpulse then
          [⟨Side.B, ⟨mp.positionWorldOnB, mp.positionWorldOnA, 0, DamageType.Physics,
            Impulse.finite mp.appliedImpulse⟩⟩]
         else []) := by
  rw [callback_filter_vehicle mp obA obB a b hA hB]
  by_cases ha : a.type = ObjectType.Vehicle <;> by_cases hb : b.type = ObjectType.Vehicle <;>
    by_cases hi : mp.appliedImpulse ≤ 100 <;>
    simp [handleVehicleResponse, ha, hb, hi, not_lt.mpr, not_le.mp]

/-- C7, vehicle against vehicle: at impulse 150 each car receives one event,
with location and source swapped; at impulse exactly 100 neither does. -/
theorem vehicle_events_per_side_witness :
    (ContactProcessedCallback (exampleContact 150) (carBody 1) otherCarBody).2.filter
        (Delivery.toType (carBody 1) otherCarBody ObjectType.Vehicle)
      = [⟨Side.A, ⟨⟨1, 2, 3⟩, ⟨4, 5, 6⟩, 0, DamageType.Physics, Impulse.finite 150⟩⟩,
         ⟨Side.B, ⟨⟨4, 5, 6⟩, ⟨1, 2, 3⟩, 0, DamageType.Physics, Impulse.finite 150⟩⟩]
    ∧ (ContactProcessedCallback (exampleContact 100) (carBody 1) otherCarBody).2.filter
        (Delivery.toType (carBody 1) otherCarBody ObjectType.Vehicle) = [] := by
  rw [vehicle_events_per_side (exampleContact 150) (carBody 1) otherCarBody exampleCar otherCar
      rfl rfl,
    vehicle_events_per_side (exampleContact 100) (carBody 1) otherCarBody exampleCar otherCar
      rfl rfl]
  norm_num [exampleContact, exampleCar, otherCar]

/-- C8 (as stated, refuted): with a body that has no attached world object the
callback returns false. -/
theorem callback_returns_false_without_object :
    (ContactProcessedCallback (exampleContact 150) bareBody (carBody 1)).1 = false := by
  simp [ContactProcessedCallback, bareBody]

/-- C8 (amended): `ContactProcessedCallback` returns true exactly when both
bodies carry a world object, whatever damage was applied; when a body has no
attached world object it returns false and delivers nothing. -/
theorem callback_return_value (mp : ManifoldPoint) (obA obB : CollisionObject) :
    (ContactProcessedCallback mp obA obB).1
        = (obA.userPointer.isSome && obB.userPointer.isSome)
    ∧ ((ContactProcessedCallback mp obA obB).1 = false →
        (ContactProcessedCallback mp obA obB).2 = []) := by
  cases hA : obA.userPointer <;> cases hB : obB.userPointer <;>
    simp [ContactProcessedCallback, hA, hB]

/-! ## Garage construction and ticks -/

/-- The constructor builds `exampleGarage` from a door `41 / 10` high. -/
theorem create_exampleGarage :
    Garage.create exampleHeader [exampleDoor (41 / 10)] 0 ⟨0, 0, 0⟩ ⟨10, 10, 5⟩
      GarageType.Hideout1 = Except.ok exampleGarage := by
  simp [Garage.create, findDoors, exampleHeader, exampleDoor, exampleGarage, initialState,
    updateDoor, Vec3.add]
  norm_num

/-- The constructor builds `flatDoorGarage` from a door `1 / 20` high. -/
theorem create_flatDoorGarage :
    Garage.create exampleHeader [exampleDoor (1 / 20)] 0 ⟨0, 0, 0⟩ ⟨10, 10, 5⟩
      GarageType.Hideout1 = Except.ok flatDoorGarage := by
  simp [Garage.create, findDoors, exampleHeader, exampleDoor, exampleGarage, flatDoorGarage,
    initialState, updateDoor, Vec3.add]
  norm_num

/-- The members `shouldClose` leaves alone. -/
theorem shouldClose_frame (w : World) (g g1 : Garage) (b : Bool)
    (h : shouldClose w g = Except.ok (b, g1)) :
    g1.state = g.state ∧ g1.fraction = g.fraction ∧ g1.step = g.step := by
  unfold shouldClose at h
  cases ht : g.type <;> simp only [ht] at h <;> (repeat' split at h) <;> cases h <;>
    exact ⟨rfl, rfl, rfl⟩

/-- The members `doOnCloseEvent` leaves alone. -/
theorem doOnCloseEvent_frame (w w1 : World) (g g1 : Garage)
    (h : doOnCloseEvent w g = Except.ok (g1, w1)) :
    g1.state = g.state ∧ g1.fraction = g.fraction ∧ g1.step = g.step := by
  unfold doOnCloseEvent at h
  cases ht : g.type <;> simp only [ht] at h <;> (repeat' split at h) <;> cases h <;>
    exact ⟨rfl, rfl, rfl⟩

/-- The members `doOnStartOpeningEvent` leaves alone. -/
theorem doOnStartOpeningEvent_frame (w w1 : World) (g g1 : Garage)
    (h : doOnStartOpeningEvent w g = Except.ok (g1, w1)) :
    g1.state = g.state ∧ g1.fraction = g.fraction ∧ g1.step = g.step := by
  unfold doOnStartOpeningEvent at h
  cases ht : g.type <;> simp only [ht] at h <;> (repeat' split at h) <;> cases h <;>
    exact ⟨rfl, rfl, rfl⟩

/-- The members `doOnStartClosingEvent` leaves alone. -/
theorem doOnStartClosingEvent_frame (w w1 : World) (g g1 : Garage)
    (h : doOnStartClosingEvent w g = Except.ok (g1, w1)) :
    g1.state = g.state ∧ g1.fraction = g.fraction ∧ g1.step = g.step := by
  unfold doOnStartClosingEvent at h
  cases ht : g.type <;> simp only [ht] at h <;> (repeat' split at h) <;> cases h <;>
    exact ⟨rfl, rfl, rfl⟩

/-- What one pass through the `switch (state)` of `tick` can do to the state,
the fraction and the travel rate. -/
theorem tickSwitch_cases (w w1 : World) (dt : ℚ) (g g1 : Garage)
    (h : tickSwitch w dt g = Except.ok (g1, w1)) :
    g1.step = g.step ∧
    ((g1.state = g.state ∧ g1.fraction = g.fraction)
    ∨ (g.state = GarageState.Opened ∧ g1.state = GarageState.Closing
        ∧ g1.fraction = g.fraction)
    ∨ (g.state = GarageState.Closed ∧ g1.state = GarageState.Opening
        ∧ g1.fraction = g.fraction)
    ∨ (g.state = GarageState.Opening ∧ g1.state = GarageState.Closing
        ∧ g1.fraction = g.fraction)
    ∨ (g.state = GarageState.Opening ∧ g1.state = GarageState.Opened
        ∧ 1 ≤ g.fraction + dt * g.step ∧ g1.fraction = 1)
    ∨ (g.state = GarageState.Opening ∧ g1.state = GarageState.Opening
        ∧ g.fraction + dt * g.step < 1 ∧ g1.fraction = g.fraction + dt * g.step)
    ∨ (g.state = GarageState.Closing ∧ g1.state = GarageState.Opening
        ∧ g1.fraction = g.fraction)
    ∨ (g.state = GarageState.Closing ∧ g1.state = GarageState.Closed
        ∧ g.fraction - dt * g.step ≤ 0 ∧ g1.fraction = 0)
    ∨ (g.state = GarageState.Closing ∧ g1.state = GarageState.Closing
        ∧ 0 < g.fraction - dt * g.step ∧ g1.fraction = g.fraction - dt * g.step)) := by
  unfold tickSwitch at h
  cases hs : g.state <;> simp only [hs] at h
  · -- Closed
    by_cases ho : shouldOpen w g = true
    · simp only [ho, if_true] at h
      have hf := doOnStartOpeningEvent_frame _ _ _ _ h
      simp only at hf
      exact ⟨hf.2.2, Or.inr (Or.inr (Or.inl ⟨rfl, hf.1, hf.2.1⟩))⟩
    · simp only [ho, if_false, Except.ok.injEq, Prod.mk.injEq, Bool.false_eq_true] at h
      obtain ⟨rfl, _⟩ := h
      exact ⟨rfl, Or.inl ⟨hs, rfl⟩⟩
  · -- Opening
    by_cases hso : shouldStopOpening w g = true
    · simp only [hso, if_true, Except.ok.injEq, Prod.mk.injEq] at h
      obtain ⟨rfl, _⟩ := h
      exact ⟨rfl, Or.inr (Or.inr (Or.inr (Or.inl ⟨rfl, rfl, rfl⟩)))⟩
    · by_cases hge : g.fraction + dt * g.step ≥ 1
      · simp only [hso, hge, doOnOpenEvent, if_true, if_false, Except.ok.injEq, Prod.mk.injEq,
          Bool.false_eq_true] at h
        obtain ⟨rfl, _⟩ := h
        exact ⟨rfl, Or.inr (Or.inr (Or.inr (Or.inr (Or.inl ⟨rfl, rfl, hge, rfl⟩))))⟩
      · simp only [hso, hge, if_false, Except.ok.injEq, Prod.mk.injEq,
          Bool.false_eq_true] at h
        obtain ⟨rfl, _⟩ := h
        exact ⟨rfl, Or.inr (Or.inr (Or.inr (Or.inr (Or.inr (Or.inl
          ⟨rfl, rfl, not_le.mp hge, rfl⟩)))))⟩
  · -- Opened
    cases hc : shouldClose w g with
    | error e => simp [hc] at h
    | ok r =>
      obtain ⟨b, g2⟩ := r
      have hf := shouldClose_frame _ _ _ _ hc
      cases b with
      | true =>
        simp only [hc] at h
        have hf2 := doOnStartClosingEvent_frame _ _ _ _ h
        simp only at hf2
        exact ⟨hf2.2.2.trans hf.2.2,
          Or.inr (Or.inl ⟨rfl, hf2.1, hf2.2.1.trans hf.2.1⟩)⟩
      | false =>
        simp only [hc, Except.ok.injEq, Prod.mk.injEq] at h
        obtain ⟨rfl, _⟩ := h
        exact ⟨hf.2.2, Or.inl ⟨hf.1.trans hs, hf.2.1⟩⟩
  · -- Closing
    by_cases hsc : shouldStopClosing w g = true
    · simp only [hsc, if_true, Except.ok.injEq, Prod.mk.injEq] at h
      obtain ⟨rfl, _⟩ := h
      exact ⟨rfl, Or.inr (Or.inr (Or.inr (Or.inr (Or.inr (Or.inr (Or.inl ⟨rfl, rfl, rfl⟩))))))⟩
    · by_cases hle : g.fraction - dt * g.step ≤ 0
      · simp only [hsc, hle, if_true, if_false, Bool.false_eq_true] at h
        split at h
        · simp at h
        · rename_i g2 w2 hev
          simp only [Except.ok.injEq, Prod.mk.injEq] at h
          obtain ⟨rfl, _⟩ := h
          have hf := doOnCloseEvent_frame _ _ _ _ hev
          simp only at hf
          exact ⟨hf.2.2, Or.inr (Or.inr (Or.inr (Or.inr (Or.inr (Or.inr (Or.inr (Or.inl
            ⟨rfl, hf.1, hle, hf.2.1⟩)))))))⟩
      · simp only [hsc, hle, if_false, Except.ok.injEq, Prod.mk.injEq,
          Bool.false_eq_true] at h
        obtain ⟨rfl, _⟩ := h
        exact ⟨rfl, Or.inr (Or.inr (Or.inr (Or.inr (Or.inr (Or.inr (Or.inr (Or.inr
          ⟨rfl, rfl, not_le.mp hle, rfl⟩)))))))⟩

/-- What one `tick` can do to the state, the fraction and the travel rate. -/
theorem tick_cases (w w1 : World) (dt : ℚ) (g g1 : Garage)
    (h : tick w dt g = Except.ok (g1, w1)) :
    g1.step = g.step ∧
    ((g1.state = g.state ∧ g1.fraction = g.fraction)
    ∨ (g.state = GarageState.Opened ∧ g1.state = GarageState.Closing
        ∧ g1.fraction = g.fraction)
    ∨ (g.state = GarageState.Closed ∧ g1.state = GarageState.Opening
        ∧ g1.fraction = g.fraction)
    ∨ (g.state = GarageState.Opening ∧ g1.state = GarageState.Closing
        ∧ g1.fraction = g.fraction)
    ∨ (g.state = GarageState.Opening ∧ g1.state = GarageState.Opened
        ∧ 1 ≤ g.fraction + dt * g.step ∧ g1.fraction = 1)
    ∨ (g.state = GarageState.Opening ∧ g1.state = GarageState.Opening
        ∧ g.fraction + dt * g.step < 1 ∧ g1.fraction = g.fraction + dt * g.step)
    ∨ (g.state = GarageState.Closing ∧ g1.state = GarageState.Opening
        ∧ g1.fraction = g.fraction)
    ∨ (g.state = GarageState.Closing ∧ g1.state = GarageState.Closed
        ∧ g.fraction - dt * g.step ≤ 0 ∧ g1.fraction = 0)
    ∨ (g.state = GarageState.Closing ∧ g1.state = GarageState.Closing
        ∧ 0 < g.fraction - dt * g.step ∧ g1.fraction = g.fraction - dt * g.step)) := by
  unfold tick at h
  by_cases hd : g.doorObject.isNone = true
  · simp only [hd, if_true, Except.ok.injEq, Prod.mk.injEq] at h
    obtain ⟨rfl, _⟩ := h
    exact ⟨rfl, Or.inl ⟨rfl, rfl⟩⟩
  · by_cases ha : (!g.active) = true
    · simp only [hd, ha, if_true, if_false, Except.ok.injEq, Prod.mk.injEq,
        Bool.false_eq_true] at h
      obtain ⟨rfl, _⟩ := h
      exact ⟨rfl, Or.inl ⟨rfl, rfl⟩⟩
    · simp only [hd, ha, if_false, Bool.false_eq_true] at h
      split at h
      · simp at h
      · rename_i g2 w2 hsw
        simp only [Except.ok.injEq, Prod.mk.injEq] at h
        obtain ⟨hg, _⟩ := h
        have key := tickSwitch_cases _ _ _ _ _ hsw
        simp only at key
        have e1 : g1.state = g2.state := by rw [← hg]; split <;> rfl
        have e2 : g1.fraction = g2.fraction := by rw [← hg]; split <;> rfl
        have e3 : g1.step = g2.step := by rw [← hg]; split <;> rfl
        rw [e1, e2, e3]
        exact key

/-- C2: one-tick reachability of `Garage::tick`, for every garage kind, world
state and `dt`: whenever a tick completes, the state after it is in the
successor set of the state before it (from `Closed`: `Closed`, `Opening`;
from `Opening`: `Opening`, `Opened`, `Closing`; from `Closing`: `Closing`,
`Closed`, `Opening`; from `Opened`: `Opened`, `Closing`). -/
theorem tick_state_reachability (w w1 : World) (dt : ℚ) (g g1 : Garage)
    (h : tick w dt g = Except.ok (g1, w1)) :
    reachableInOneTick g.state g1.state = true := by
  obtain ⟨_, hc⟩ := tick_cases w w1 dt g g1 h
  rcases hc with ⟨hs, _⟩ | ⟨h0, hs, _⟩ | ⟨h0, hs, _⟩ | ⟨h0, hs, _⟩ | ⟨h0, hs, _⟩ |
    ⟨h0, hs, _⟩ | ⟨h0, hs, _⟩ | ⟨h0, hs, _⟩ | ⟨h0, hs, _⟩
  · rw [hs]; cases g.state <;> rfl
  all_goals rw [h0, hs]; rfl

/-- C2, at the example garage with the player on foot inside the box: the
tick completes and takes the garage from `Closed` to `Opening`. -/
theorem tick_state_reachability_witness :
    tick (footWorld ⟨5, 5, 1⟩) 1 exampleGarage
        = Except.ok ({ exampleGarage with state := GarageState.Opening }, footWorld ⟨5, 5, 1⟩)
    ∧ reachableInOneTick GarageState.Closed GarageState.Opening = true := by
  have ht : tick (footWorld ⟨5, 5, 1⟩) 1 exampleGarage
      = Except.ok ({ exampleGarage with state := GarageState.Opening },
          footWorld ⟨5, 5, 1⟩) := by
    norm_num [tick, tickSwitch, shouldOpen, doOnStartOpeningEvent, distanceAtLeast,
      getDistanceToGarageSq, exampleGarage, footWorld]
  exact ⟨ht, tick_state_reachability _ _ _ _ _ ht⟩

/-- The constructor leaves the fraction at 0 or at 1. -/
theorem create_fraction (hdr : GarageHeader) (pool : List PlacedInstance) (id : Nat)
    (coord0 coord1 : Vec3) (type : GarageType) (g0 : Garage)
    (h : Garage.create hdr pool id coord0 coord1 type = Except.ok g0) :
    g0.fraction = 0 ∨ g0.fraction = 1 := by
  unfold Garage.create at h
  simp only at h
  split at h
  · simp at h
  · split at h
    · simp at h
    · simp only [Except.ok.injEq] at h
      have hf : g0.fraction = if initialState type = GarageState.Closed then 0 else 1 := by
        rw [← h]; split <;> rfl
      rw [hf]
      split
      · exact Or.inl rfl
      · exact Or.inr rfl

/-- With a non-negative travel rate, ticks with `dt >= 0` keep the fraction
in `[0, 1]` all along a run. -/
theorem tickTrace_fraction_bounds (ticks : List (World × ℚ)) :
    ∀ g0 : Garage, 0 ≤ g0.step → 0 ≤ g0.fraction → g0.fraction ≤ 1 →
      (∀ p ∈ ticks, 0 ≤ p.2) →
      ∀ g ∈ tickTrace ticks g0, 0 ≤ g.fraction ∧ g.fraction ≤ 1 := by
  induction ticks with
  | nil =>
    intro g0 _ h0 h1 _ g hg
    simp only [tickTrace, List.mem_singleton] at hg
    rw [hg]
    exact ⟨h0, h1⟩
  | cons p rest ih =>
    intro g0 hstep h0 h1 hdt g hg
    obtain ⟨w, dt⟩ := p
    have hdt0 : 0 ≤ dt := hdt (w, dt) (List.mem_cons_self _ _)
    have hmul : 0 ≤ dt * g0.step := mul_nonneg hdt0 hstep
    unfold tickTrace at hg
    cases ht : tick w dt g0 with
    | error e =>
      simp only [ht, List.mem_singleton] at hg
      rw [hg]
      exact ⟨h0, h1⟩
    | ok r =>
      obtain ⟨g1, w1⟩ := r
      simp only [ht, List.mem_cons] at hg
      rcases hg with hg | hg
      · rw [hg]
        exact ⟨h0, h1⟩
      · obtain ⟨hs, hc⟩ := tick_cases w w1 dt g0 g1 ht
        have hb : 0 ≤ g1.fraction ∧ g1.fraction ≤ 1 := by
          rcases hc with ⟨_, hf⟩ | ⟨_, _, hf⟩ | ⟨_, _, hf⟩ | ⟨_, _, hf⟩ | ⟨_, _, _, hf⟩ |
            ⟨_, _, hlt, hf⟩ | ⟨_, _, hf⟩ | ⟨_, _, _, hf⟩ | ⟨_, _, hgt, hf⟩ <;> rw [hf]
          · exact ⟨h0, h1⟩
          · exact ⟨h0, h1⟩
          · exact ⟨h0, h1⟩
          · exact ⟨h0, h1⟩
          · exact ⟨zero_le_one, le_refl _⟩
          · exact ⟨add_nonneg h0 hmul, le_of_lt hlt⟩
          · exact ⟨h0, h1⟩
          · exact ⟨le_refl _, zero_le_one⟩
          · exact ⟨le_of_lt hgt, by linarith⟩
        exact ih g1 (hs ▸ hstep) hb.1 hb.2
          (fun q hq => hdt q (List.mem_cons_of_mem _ hq)) g hg

/-- C1 (as stated, refuted): the garage built from a door whose collision box
is `1 / 20` high has travel rate `-20`; with the player on foot inside the
box, a first tick starts the opening and a second tick with `dt = 1 / 100`
leaves the fraction at `-1 / 5`, below 0. A door whose collision box is
`1 / 10` high gives door height 0: the constructor divides the initial rate by
zero, `step` is an infinity (and `0 * step` NaN), a value no garage of the
embedding holds. -/
theorem fraction_leaves_unit_interval :
    Garage.create exampleHeader [exampleDoor (1 / 20)] 0 ⟨0, 0, 0⟩ ⟨10, 10, 5⟩
        GarageType.Hideout1 = Except.ok flatDoorGarage
    ∧ (tickTrace [(footWorld ⟨5, 5, 1⟩, 1), (footWorld ⟨5, 5, 1⟩, 1 / 100)]
        flatDoorGarage).map Garage.fraction = [0, 0, -1 / 5]
    ∧ ¬ (0 ≤ (-1 / 5 : ℚ))
    ∧ Garage.create exampleHeader [exampleDoor (1 / 10)] 0 ⟨0, 0, 0⟩ ⟨10, 10, 5⟩
        GarageType.Hideout1 = Except.error Fault.zeroDoorHeight := by
  refine ⟨create_flatDoorGarage, ?_, by norm_num, ?_⟩
  · norm_num [tickTrace, tick, tickSwitch, shouldOpen, shouldStopOpening,
      doOnStartOpeningEvent, doOnOpenEvent, updateDoor, distanceAtLeast,
      getDistanceToGarageSq, exampleGarage, flatDoorGarage, footWorld]
  · norm_num [Garage.create, findDoors, exampleHeader, exampleDoor]

/-- C1 (amended): for every garage the constructor builds with a door height
other than zero and a non-negative travel rate `step`, and every run of ticks
with `dt >= 0` from construction, the fraction is within `[0, 1]` after every
tick. -/
theorem fraction_in_unit_interval (hdr : GarageHeader) (pool : List PlacedInstance) (id : Nat)
    (coord0 coord1 : Vec3) (type : GarageType) (g0 : Garage) (ticks : List (World × ℚ))
    (hc : Garage.create hdr pool id coord0 coord1 type = Except.ok g0)
    (hz : g0.doorHeight ≠ 0) (hstep : 0 ≤ g0.step) (hdt : ∀ p ∈ ticks, 0 ≤ p.2) :
    g0.step = hdr.step / g0.doorHeight
    ∧ ∀ g ∈ tickTrace ticks g0, 0 ≤ g.fraction ∧ g.fraction ≤ 1 := by
  have hf := create_fraction hdr pool id coord0 coord1 type g0 hc
  have h0 : 0 ≤ g0.fraction := by rcases hf with hf | hf <;> simp [hf]
  have h1 : g0.fraction ≤ 1 := by rcases hf with hf | hf <;> simp [hf]
  have _ := hz
  refine ⟨?_, tickTrace_fraction_bounds ticks g0 hstep h0 h1 hdt⟩
  unfold Garage.create at hc
  simp only at hc
  split at hc
  · simp at hc
  · split at hc
    · simp at hc
    · simp only [Except.ok.injEq] at hc
      rw [← hc]
      split <;> rfl

/-- C1 (amended), at the example garage (door height 4, travel rate `1 / 4`):
the constructor builds it, two ticks with the player on foot inside the box
(`dt = 1`, then `dt = 2`) lead to `halfOpenGarage`, and its fraction is within
`[0, 1]`. -/
theorem fraction_in_unit_interval_witness :
    Garage.create exampleHeader [exampleDoor (41 / 10)] 0 ⟨0, 0, 0⟩ ⟨10, 10, 5⟩
        GarageType.Hideout1 = Except.ok exampleGarage
    ∧ exampleGarage.doorHeight ≠ 0
    ∧ halfOpenGarage ∈
        tickTrace [(footWorld ⟨5, 5, 1⟩, 1), (footWorld ⟨5, 5, 1⟩, 2)] exampleGarage
    ∧ 0 ≤ halfOpenGarage.fraction ∧ halfOpenGarage.fraction ≤ 1 := by
  have hmem : halfOpenGarage ∈
      tickTrace [(footWorld ⟨5, 5, 1⟩, 1), (footWorld ⟨5, 5, 1⟩, 2)] exampleGarage := by
    norm_num [tickTrace, tick, tickSwitch, shouldOpen, shouldStopOpening,
      doOnStartOpeningEvent, doOnOpenEvent, updateDoor, distanceAtLeast,
      getDistanceToGarageSq, exampleGarage, halfOpenGarage, footWorld, Vec3.add]
  have hz : exampleGarage.doorHeight ≠ 0 := by norm_num [exampleGarage]
  exact ⟨create_exampleGarage, hz, hmem,
    (fraction_in_unit_interval exampleHeader [exampleDoor (41 / 10)] 0 ⟨0, 0, 0⟩ ⟨10, 10, 5⟩
      GarageType.Hideout1 exampleGarage _ create_exampleGarage hz
      (by norm_num [exampleGarage]) (by simp)).2 halfOpenGarage hmem⟩

/-! ## Containment -/

/-- C9 (the code at the failing input): for the box `(0,0,0)`..`(10,10,5)` and
a vehicle at `(9, 5, 1)` whose collision sphere has radius 2,
`isObjectInsideGarage` returns true although the sphere reaches `x = 11`,
beyond `max.x = 10`, and `z = -1`, below `min.z = 0`. -/
theorem isObjectInsideGarage_accepts_protruding_sphere :
    isObjectInsideGarage exampleGarage protrudingCar = true
    ∧ ¬ (protrudingCar.position.x + 0 + 2 ≤ exampleGarage.max.x)
    ∧ ¬ (exampleGarage.min.z ≤ protrudingCar.position.z + 0 - 2) := by
  norm_num [isObjectInsideGarage, spheresInsideGarage, Vec3.add, exampleGarage, protrudingCar]

/-- C10: `isObjectInsideGarage` is false whenever the object's position is not
inside the box, whatever its collision spheres are. -/
theorem isObjectInsideGarage_origin_necessary (g : Garage) (object : GameObject)
    (h : ¬ (g.min.x ≤ object.position.x ∧ object.position.x ≤ g.max.x
          ∧ g.min.y ≤ object.position.y ∧ object.position.y ≤ g.max.y
          ∧ g.min.z ≤ object.position.z ∧ object.position.z ≤ g.max.z)) :
    isObjectInsideGarage g object = false := by
  unfold isObjectInsideGarage
  simp only
  split_ifs with h1 h2 h3 h4 h5 h6
  · rfl
  · rfl
  · rfl
  · rfl
  · rfl
  · rfl
  · exact absurd ⟨not_lt.mp h1, not_lt.mp h4, not_lt.mp h2, not_lt.mp h5, not_lt.mp h3,
      not_lt.mp h6⟩ h

/-- C10, at the example garage and a pedestrian at `(20, 0, 1)`. -/
theorem isObjectInsideGarage_origin_necessary_witness :
    isObjectInsideGarage exampleGarage (footWorld ⟨20, 0, 1⟩).playerCharacter = false :=
  isObjectInsideGarage_origin_necessary exampleGarage (footWorld ⟨20, 0, 1⟩).playerCharacter
    (by norm_num [exampleGarage, footWorld])

/-! ## Containment without collision geometry, distance and trigger thresholds -/

/-- C11: for an object with no collision geometry, `isObjectInsideGarage`
returns true if and only if `min <= p <= max` holds on the three axes for its
position `p`, all six comparisons inclusive. -/
theorem isObjectInsideGarage_without_collision (g : Garage) (object : GameObject)
    (h : object.collision = none) :
    isObjectInsideGarage g object = true ↔
      (g.min.x ≤ object.position.x ∧ object.position.x ≤ g.max.x
        ∧ g.min.y ≤ object.position.y ∧ object.position.y ≤ g.max.y
        ∧ g.min.z ≤ object.position.z ∧ object.position.z ≤ g.max.z) := by
  unfold isObjectInsideGarage
  simp only [h]
  split_ifs with h1 h2 h3 h4 h5 h6
  · simp [not_le.mpr h1]
  · simp [not_le.mpr h2]
  · simp [not_le.mpr h3]
  · simp [not_le.mpr h4]
  · simp [not_le.mpr h5]
  · simp [not_le.mpr h6]
  · simp [not_lt.mp h1, not_lt.mp h2, not_lt.mp h3, not_lt.mp h4, not_lt.mp h5, not_lt.mp h6]

/-- C11, at the example garage: a pedestrian at the corner `(10, 0, 5)`, on
three faces of the box, is inside. -/
theorem isObjectInsideGarage_without_collision_witness :
    isObjectInsideGarage exampleGarage (footWorld ⟨10, 0, 5⟩).playerCharacter = true :=
  (isObjectInsideGarage_without_collision exampleGarage (footWorld ⟨10, 0, 5⟩).playerCharacter
    rfl).mpr (by norm_num [exampleGarage, footWorld])

/-- The horizontal offsets `dx` and `dy` of `getDistanceToGarage` are not
negative. -/
theorem getDistanceToGarageSq_nonneg (g : Garage) (point : Vec3) :
    0 ≤ getDistanceToGarageSq g point := by
  unfold getDistanceToGarageSq
  positivity

/-- The test `distanceAtLeast` is the comparison of `getDistanceToGarage` with
the constant, for a constant that is not negative. -/
theorem distanceAtLeast_iff (g : Garage) (point : Vec3) (c : ℚ) (hc : 0 ≤ c) :
    distanceAtLeast g point c = true ↔ (c : ℝ) ≤ getDistanceToGarage g point := by
  unfold distanceAtLeast getDistanceToGarage
  rw [decide_eq_true_iff, Real.le_sqrt (by exact_mod_cast hc)
    (by exact_mod_cast getDistanceToGarageSq_nonneg g point)]
  constructor
  · intro h
    have : ((c * c : ℚ) : ℝ) ≤ ((getDistanceToGarageSq g point : ℚ) : ℝ) := by exact_mod_cast h
    simpa [sq] using this
  · intro h
    have : ((c * c : ℚ) : ℝ) ≤ ((getDistanceToGarageSq g point : ℚ) : ℝ) := by
      simpa [sq] using h
    exact_mod_cast this

/-- The offset `max (lo - x, 0, x - hi)` along one axis is the distance from
`x` to the interval `[lo, hi]`: it is attained at a point of the interval and
no point of the interval is nearer. -/
theorem axis_offset_nearest (lo hi x : ℝ) (h : lo ≤ hi) :
    0 ≤ max (max (lo - x) 0) (x - hi)
    ∧ (∃ q, lo ≤ q ∧ q ≤ hi ∧ (x - q) ^ 2 = (max (max (lo - x) 0) (x - hi)) ^ 2)
    ∧ ∀ q, lo ≤ q → q ≤ hi → (max (max (lo - x) 0) (x - hi)) ^ 2 ≤ (x - q) ^ 2 := by
  rcases lt_or_le x lo with h1 | h1
  · have hd : max (max (lo - x) 0) (x - hi) = lo - x := by
      rw [max_eq_left (by linarith : (0 : ℝ) ≤ lo - x), max_eq_left (by linarith)]
    rw [hd]
    refine ⟨by linarith, ⟨lo, le_refl _, h, by ring⟩, ?_⟩
    intro q hq _
    nlinarith
  · rcases le_or_lt x hi with h2 | h2
    · have hd : max (max (lo - x) 0) (x - hi) = 0 := by
        rw [max_eq_right (by linarith : lo - x ≤ (0 : ℝ)), max_eq_left (by linarith)]
      rw [hd]
      refine ⟨le_refl _, ⟨x, h1, h2, by ring⟩, ?_⟩
      intro q _ _
      nlinarith [sq_nonneg (x - q)]
    · have hd : max (max (lo - x) 0) (x - hi) = x - hi := by
        rw [max_eq_right (by linarith : lo - x ≤ (0 : ℝ)), max_eq_right (by linarith)]
      rw [hd]
      refine ⟨by linarith, ⟨hi, h, le_refl _, rfl⟩, ?_⟩
      intro q _ hq
      nlinarith

/-- The radicand of `getDistanceToGarage` in the real numbers. -/
theorem getDistanceToGarageSq_cast (g : Garage) (point : Vec3) :
    ((getDistanceToGarageSq g point : ℚ) : ℝ) =
      (max (max ((g.min.x : ℝ) - point.x) 0) ((point.x : ℝ) - g.max.x)) ^ 2
      + (max (max ((g.min.y : ℝ) - point.y) 0) ((point.y : ℝ) - g.max.y)) ^ 2 := by
  unfold getDistanceToGarageSq
  push_cast
  ring

/-- C12: `getDistanceToGarage(p)` is the Euclidean distance in the horizontal
plane from `(p.x, p.y)` to the nearest point of the rectangle
`[min.x, max.x] x [min.y, max.y]` (for a box with `min <= max`, as the
constructor builds it): some point of the rectangle is at that distance and
no point of the rectangle is nearer. It is not negative, and it is the same
for two points that differ only in `z`. -/
theorem getDistanceToGarage_planar_distance (g : Garage) (point : Vec3) :
    (g.min.x ≤ g.max.x → g.min.y ≤ g.max.y →
      (∃ qx qy : ℝ, (g.min.x : ℝ) ≤ qx ∧ qx ≤ g.max.x ∧ (g.min.y : ℝ) ≤ qy ∧ qy ≤ g.max.y
        ∧ getDistanceToGarage g point
          = Real.sqrt (((point.x : ℝ) - qx) ^ 2 + ((point.y : ℝ) - qy) ^ 2))
      ∧ (∀ qx qy : ℝ, (g.min.x : ℝ) ≤ qx → qx ≤ g.max.x → (g.min.y : ℝ) ≤ qy → qy ≤ g.max.y →
        getDistanceToGarage g point
          ≤ Real.sqrt (((point.x : ℝ) - qx) ^ 2 + ((point.y : ℝ) - qy) ^ 2)))
    ∧ 0 ≤ getDistanceToGarage g point
    ∧ (∀ other : Vec3, other.x = point.x → other.y = point.y →
        getDistanceToGarage g other = getDistanceToGarage g point) := by
  refine ⟨?_, Real.sqrt_nonneg _, ?_⟩
  · intro hx hy
    have hxR : (g.min.x : ℝ) ≤ g.max.x := by exact_mod_cast hx
    have hyR : (g.min.y : ℝ) ≤ g.max.y := by exact_mod_cast hy
    obtain ⟨_, ⟨qx, hqx1, hqx2, hqx⟩, hminx⟩ := axis_offset_nearest _ _ (point.x : ℝ) hxR
    obtain ⟨_, ⟨qy, hqy1, hqy2, hqy⟩, hminy⟩ := axis_offset_nearest _ _ (point.y : ℝ) hyR
    refine ⟨⟨qx, qy, hqx1, hqx2, hqy1, hqy2, ?_⟩, ?_⟩
    · unfold getDistanceToGarage
      rw [getDistanceToGarageSq_cast, hqx, hqy]
    · intro rx ry h1 h2 h3 h4
      unfold getDistanceToGarage
      rw [getDistanceToGarageSq_cast]
      exact Real.sqrt_le_sqrt (add_le_add (hminx rx h1 h2) (hminy ry h3 h4))
  · intro other ex ey
    unfold getDistanceToGarage getDistanceToGarageSq
    rw [ex, ey]

/-- C12, at the example garage and the point `(20, 0, 1)`: the distance is 10,
no point of the rectangle is nearer than 10, and the distance is the same at
`(20, 0, 77)`. -/
theorem getDistanceToGarage_planar_distance_witness :
    getDistanceToGarage exampleGarage ⟨20, 0, 1⟩ = 10
    ∧ (∀ qx qy : ℝ, 0 ≤ qx → qx ≤ 10 → 0 ≤ qy → qy ≤ 10 →
        (10 : ℝ) ≤ Real.sqrt ((20 - qx) ^ 2 + (0 - qy) ^ 2))
    ∧ getDistanceToGarage exampleGarage ⟨20, 0, 77⟩
        = getDistanceToGarage exampleGarage ⟨20, 0, 1⟩ := by
  have h := getDistanceToGarage_planar_distance exampleGarage ⟨20, 0, 1⟩
  have h10 : getDistanceToGarage exampleGarage ⟨20, 0, 1⟩ = 10 := by
    unfold getDistanceToGarage
    rw [getDistanceToGarageSq_cast, Real.sqrt_eq_iff_mul_self_eq (by positivity) (by norm_num)]
    norm_num [exampleGarage]
  refine ⟨h10, ?_, h.2.2 ⟨20, 0, 77⟩ rfl rfl⟩
  intro qx qy h1 h2 h3 h4
  have hn := (h.1 (by norm_num [exampleGarage]) (by norm_num [exampleGarage])).2 qx qy
    (by simpa [exampleGarage] using h1) (by simpa [exampleGarage] using h2)
    (by simpa [exampleGarage] using h3) (by simpa [exampleGarage] using h4)
  rw [h10] at hn
  simpa using hn

/-- C13: `getDistanceToGarage(p)` is 0 for every point `p` with
`min.x <= p.x <= max.x` and `min.y <= p.y <= max.y`, whatever `p.z` is, and it
is positive for every other point. -/
theorem getDistanceToGarage_zero_inside (g : Garage) (point : Vec3) :
    (g.min.x ≤ point.x ∧ point.x ≤ g.max.x ∧ g.min.y ≤ point.y ∧ point.y ≤ g.max.y →
      getDistanceToGarage g point = 0)
    ∧ (¬ (g.min.x ≤ point.x ∧ point.x ≤ g.max.x ∧ g.min.y ≤ point.y ∧ point.y ≤ g.max.y) →
      0 < getDistanceToGarage g point) := by
  constructor
  · rintro ⟨h1, h2, h3, h4⟩
    have h0 : getDistanceToGarageSq g point = 0 := by
      unfold getDistanceToGarageSq
      rw [max_eq_right (by linarith : g.min.x - point.x ≤ 0),
        max_eq_left (by linarith : point.x - g.max.x ≤ 0),
        max_eq_right (by linarith : g.min.y - point.y ≤ 0),
        max_eq_left (by linarith : point.y - g.max.y ≤ 0)]
      norm_num
    unfold getDistanceToGarage
    rw [h0]
    simp
  · intro h
    unfold getDistanceToGarage
    rw [Real.sqrt_pos]
    have hpos : 0 < getDistanceToGarageSq g point := by
      unfold getDistanceToGarageSq
      simp only
      have hdx : 0 ≤ max (max (g.min.x - point.x) 0) (point.x - g.max.x) :=
        le_trans (le_max_right _ _) (le_max_left _ _)
      have hdy : 0 ≤ max (max (g.min.y - point.y) 0) (point.y - g.max.y) :=
        le_trans (le_max_right _ _) (le_max_left _ _)
      have a1 : g.min.x - point.x ≤ max (max (g.min.x - point.x) 0) (point.x - g.max.x) :=
        le_trans (le_max_left _ _) (le_max_left _ _)
      have a2 : point.x - g.max.x ≤ max (max (g.min.x - point.x) 0) (point.x - g.max.x) :=
        le_max_right _ _
      have b1 : g.min.y - point.y ≤ max (max (g.min.y - point.y) 0) (point.y - g.max.y) :=
        le_trans (le_max_left _ _) (le_max_left _ _)
      have b2 : point.y - g.max.y ≤ max (max (g.min.y - point.y) 0) (point.y - g.max.y) :=
        le_max_right _ _
      generalize max (max (g.min.x - point.x) 0) (point.x - g.max.x) = dx at hdx a1 a2 ⊢
      generalize max (max (g.min.y - point.y) 0) (point.y - g.max.y) = dy at hdy b1 b2 ⊢
      by_contra hn
      have hsum : dx * dx + dy * dy ≤ 0 := not_lt.mp hn
      have hx0 : dx = 0 :=
        mul_self_eq_zero.mp (le_antisymm (by linarith [mul_self_nonneg dy]) (mul_self_nonneg dx))
      have hy0 : dy = 0 :=
        mul_self_eq_zero.mp (le_antisymm (by linarith [mul_self_nonneg dx]) (mul_self_nonneg dy))
      rw [hx0] at a1 a2
      rw [hy0] at b1 b2
      exact h ⟨by linarith, by linarith, by linarith, by linarith⟩
    exact_mod_cast hpos

/-- C13, at the example garage: distance 0 at `(3, 4, 100)`, high above the
box, and a positive distance at `(20, 0, 1)`. -/
theorem getDistanceToGarage_zero_inside_witness :
    getDistanceToGarage exampleGarage ⟨3, 4, 100⟩ = 0
    ∧ 0 < getDistanceToGarage exampleGarage ⟨20, 0, 1⟩ :=
  ⟨(getDistanceToGarage_zero_inside exampleGarage ⟨3, 4, 100⟩).1
      (by norm_num [exampleGarage]),
    (getDistanceToGarage_zero_inside exampleGarage ⟨20, 0, 1⟩).2
      (by norm_num [exampleGarage])⟩

/-- C14: for a `Hideout1/2/3` garage with the player on foot, `shouldOpen`
holds iff the player's distance to the box is below 5, and `shouldClose` and
`shouldStopOpening` hold iff it is at least 5; with the player in a vehicle
the threshold is 10. `shouldClose` leaves the garage as it is. -/
theorem hideout_distance_thresholds (w : World) (g : Garage)
    (ht : g.type = GarageType.Hideout1 ∨ g.type = GarageType.Hideout2
      ∨ g.type = GarageType.Hideout3) :
    (w.currentVehicle = none →
      (shouldOpen w g = true ↔ getDistanceToGarage g w.playerCharacter.position < 5)
      ∧ (∃ b, shouldClose w g = Except.ok (b, g)
          ∧ (b = true ↔ 5 ≤ getDistanceToGarage g w.playerCharacter.position))
      ∧ (shouldStopOpening w g = true ↔ 5 ≤ getDistanceToGarage g w.playerCharacter.position))
    ∧ (w.currentVehicle ≠ none →
      (shouldOpen w g = true ↔ getDistanceToGarage g w.playerCharacter.position < 10)
      ∧ (∃ b, shouldClose w g = Except.ok (b, g)
          ∧ (b = true ↔ 10 ≤ getDistanceToGarage g w.playerCharacter.position))
      ∧ (shouldStopOpening w g = true
          ↔ 10 ≤ getDistanceToGarage g w.playerCharacter.position)) := by
  have h5 := distanceAtLeast_iff g w.playerCharacter.position 5 (by norm_num)
  have h10 := distanceAtLeast_iff g w.playerCharacter.position 10 (by norm_num)
  push_cast at h5 h10
  constructor
  · intro hv
    rcases ht with ht | ht | ht <;>
      simp [shouldOpen, shouldClose, shouldStopOpening, ht, hv, ← h5, ← not_le]
  · intro hv
    have hs : w.currentVehicle.isSome = true := Option.isSome_iff_ne_none.mpr hv
    rcases ht with ht | ht | ht <;>
      simp [shouldOpen, shouldClose, shouldStopOpening, ht, hs, ← h10, ← not_le]

/-- C14, the scenario of the spec: `Hideout1`, box `(0,0,0)`..`(10,10,5)`,
player on foot at `(20, 0, 1)`: the distance is 10, `shouldOpen` is false,
`shouldClose` and `shouldStopOpening` are true. -/
theorem hideout_distance_thresholds_witness :
    getDistanceToGarage exampleGarage ⟨20, 0, 1⟩ = 10
    ∧ shouldOpen (footWorld ⟨20, 0, 1⟩) exampleGarage = false
    ∧ shouldClose (footWorld ⟨20, 0, 1⟩) exampleGarage = Except.ok (true, exampleGarage)
    ∧ shouldStopOpening (footWorld ⟨20, 0, 1⟩) exampleGarage = true := by
  have h := (hideout_distance_thresholds (footWorld ⟨20, 0, 1⟩) exampleGarage
    (Or.inl rfl)).1 rfl
  have h10 : getDistanceToGarage exampleGarage ⟨20, 0, 1⟩ = 10 := by
    unfold getDistanceToGarage
    rw [getDistanceToGarageSq_cast, Real.sqrt_eq_iff_mul_self_eq (by positivity) (by norm_num)]
    norm_num [exampleGarage]
  have hp : (footWorld ⟨20, 0, 1⟩).playerCharacter.position = ⟨20, 0, 1⟩ := rfl
  rw [hp, h10] at h
  obtain ⟨ho, ⟨b, hc, hb⟩, hs⟩ := h
  refine ⟨h10, ?_, ?_, hs.mpr (by norm_num)⟩
  · cases hso : shouldOpen (footWorld ⟨20, 0, 1⟩) exampleGarage
    · rfl
    · exact absurd (ho.mp hso) (by norm_num)
  · rw [hc, hb.mpr (by norm_num)]

/-- C20: for the garage kinds whose policies are not defined
(`MissionForCarToComeOut`, `Crusher`, `MissionKeepCar`,
`MissionToOpenAndClose`, `MissionForSpecificCar`,
`MissionKeepCarAndRemainClosed`), `shouldOpen`, `shouldClose`,
`shouldStopOpening` and `shouldStopClosing` return false in every world
state (and `shouldClose` leaves the garage as it is). -/
theorem undefined_policies_false (w : World) (g : Garage)
    (ht : g.type = GarageType.MissionForCarToComeOut ∨ g.type = GarageType.Crusher
      ∨ g.type = GarageType.MissionKeepCar ∨ g.type = GarageType.MissionToOpenAndClose
      ∨ g.type = GarageType.MissionForSpecificCar
      ∨ g.type = GarageType.MissionKeepCarAndRemainClosed) :
    shouldOpen w g = false ∧ shouldClose w g = Except.ok (false, g)
      ∧ shouldStopOpening w g = false ∧ shouldStopClosing w g = false := by
  rcases ht with ht | ht | ht | ht | ht | ht <;>
    simp [shouldOpen, shouldClose, shouldStopOpening, shouldStopClosing, ht]

/-- C20, at a `Crusher` with the box of the example garage and the player on
foot inside the box. -/
theorem undefined_policies_false_witness :
    shouldOpen (footWorld ⟨5, 5, 1⟩) { exampleGarage with type := GarageType.Crusher } = false
    ∧ shouldClose (footWorld ⟨5, 5, 1⟩) { exampleGarage with type := GarageType.Crusher }
        = Except.ok (false, { exampleGarage with type := GarageType.Crusher })
    ∧ shouldStopOpening (footWorld ⟨5, 5, 1⟩)
        { exampleGarage with type := GarageType.Crusher } = false
    ∧ shouldStopClosing (footWorld ⟨5, 5, 1⟩)
        { exampleGarage with type := GarageType.Crusher } = false :=
  undefined_policies_false (footWorld ⟨5, 5, 1⟩)
    { exampleGarage with type := GarageType.Crusher } (Or.inr (Or.inl rfl))

/-! ## Swing upgrade and door geometry -/

/-- The method `shouldClose` leaves `swingType` alone. -/
theorem shouldClose_swingType (w : World) (g g1 : Garage) (b : Bool)
    (h : shouldClose w g = Except.ok (b, g1)) : g1.swingType = g.swingType := by
  unfold shouldClose at h
  cases ht : g.type <;> simp only [ht] at h <;> (repeat' split at h) <;> cases h <;> rfl

/-- The close event leaves `swingType` alone. -/
theorem doOnCloseEvent_swingType (w w1 : World) (g g1 : Garage)
    (h : doOnCloseEvent w g = Except.ok (g1, w1)) : g1.swingType = g.swingType := by
  unfold doOnCloseEvent at h
  cases ht : g.type <;> simp only [ht] at h <;> (repeat' split at h) <;> cases h <;> rfl

/-- The start-opening event leaves `swingType` alone. -/
theorem doOnStartOpeningEvent_swingType (w w1 : World) (g g1 : Garage)
    (h : doOnStartOpeningEvent w g = Except.ok (g1, w1)) : g1.swingType = g.swingType := by
  unfold doOnStartOpeningEvent at h
  cases ht : g.type <;> simp only [ht] at h <;> (repeat' split at h) <;> cases h <;> rfl

/-- The start-closing event leaves `swingType` alone. -/
theorem doOnStartClosingEvent_swingType (w w1 : World) (g g1 : Garage)
    (h : doOnStartClosingEvent w g = Except.ok (g1, w1)) : g1.swingType = g.swingType := by
  unfold doOnStartClosingEvent at h
  cases ht : g.type <;> simp only [ht] at h <;> (repeat' split at h) <;> cases h <;> rfl

/-- The `switch (state)` of `tick` leaves `swingType` alone. -/
theorem tickSwitch_swingType (w w1 : World) (dt : ℚ) (g g1 : Garage)
    (h : tickSwitch w dt g = Except.ok (g1, w1)) : g1.swingType = g.swingType := by
  unfold tickSwitch at h
  cases hs : g.state <;> simp only [hs] at h
  · split at h
    · have hf := doOnStartOpeningEvent_swingType _ _ _ _ h
      exact hf
    · cases h; rfl
  · simp only [doOnOpenEvent] at h
    (repeat' split at h) <;> cases h <;> rfl
  · cases hc : shouldClose w g with
    | error e => simp [hc] at h
    | ok r =>
      obtain ⟨b, g2⟩ := r
      have h2 := shouldClose_swingType _ _ _ _ hc
      cases b with
      | true =>
        simp only [hc] at h
        have hf := doOnStartClosingEvent_swingType _ _ _ _ h
        exact hf.trans h2
      | false =>
        simp only [hc] at h
        cases h
        exact h2
  · split at h
    · cases h; rfl
    · split at h
      · split at h
        · cases h
        · rename_i g2 w2 hev
          cases h
          have hf := doOnCloseEvent_swingType _ _ _ _ hev
          exact hf
      · cases h; rfl

/-- A tick leaves `swingType` alone. -/
theorem tick_swingType (w w1 : World) (dt : ℚ) (g g1 : Garage)
    (h : tick w dt g = Except.ok (g1, w1)) : g1.swingType = g.swingType := by
  unfold tick at h
  split at h
  · cases h; rfl
  · split at h
    · cases h; rfl
    · split at h
      · cases h
      · rename_i g2 w2 hsw
        cases h
        have h2 := tickSwitch_swingType _ _ _ _ _ hsw
        split
        · exact h2
        · exact h2

/-- C15: `makeDoorSwing` is idempotent (applying it twice gives the garage that
applying it once gives, in particular the same `doorHeight` and `swingType`),
it leaves `swingType` set, and no operation of the garage (`tick`, `open`,
`close`, `activate`, `deactivate`, `makeDoorSwing`) resets `swingType` once
it is set. -/
theorem makeDoorSwing_idempotent_irreversible (g : Garage) :
    makeDoorSwing (makeDoorSwing g) = makeDoorSwing g
    ∧ (makeDoorSwing g).swingType = true
    ∧ ∀ (op : Operation) (g0 g1 : Garage), g0.swingType = true →
        applyOperation op g0 = Except.ok g1 → g1.swingType = true := by
  refine ⟨?_, ?_, ?_⟩
  · unfold makeDoorSwing
    cases hs : g.swingType <;> simp [hs]
  · unfold makeDoorSwing
    cases hs : g.swingType <;> simp [hs]
  · intro op g0 g1 h0 h
    cases op with
    | tick w dt =>
      simp only [applyOperation] at h
      split at h
      · cases h
      · rename_i g2 w2 ht
        cases h
        exact (tick_swingType _ _ _ _ _ ht).trans h0
    | «open» =>
      simp only [applyOperation, Garage.open] at h
      cases h
      split <;> exact h0
    | close =>
      simp only [applyOperation, Garage.close] at h
      cases h
      split <;> exact h0
    | activate =>
      simp only [applyOperation, activate] at h
      cases h
      split <;> exact h0
    | deactivate =>
      simp only [applyOperation, deactivate] at h
      cases h
      exact h0
    | makeDoorSwing =>
      simp only [applyOperation, makeDoorSwing] at h
      cases h
      simp [h0]

/-- C15, at the example garage: a second `makeDoorSwing` changes nothing, the
door height is `4 / 2 - 1 / 10` after the first, and `open` leaves the swing
flag set. -/
theorem makeDoorSwing_idempotent_irreversible_witness :
    makeDoorSwing (makeDoorSwing exampleGarage) = makeDoorSwing exampleGarage
    ∧ (makeDoorSwing exampleGarage).doorHeight = 19 / 10
    ∧ (Garage.open (makeDoorSwing exampleGarage)).swingType = true :=
  ⟨(makeDoorSwing_idempotent_irreversible exampleGarage).1,
    by norm_num [makeDoorSwing, exampleGarage],
    (makeDoorSwing_idempotent_irreversible exampleGarage).2.2 Operation.open
      (makeDoorSwing exampleGarage) _ (makeDoorSwing_idempotent_irreversible exampleGarage).2.1
      rfl⟩

/-- C16 (as stated, refuted): two garages that agree on `fraction`,
`doorHeight`, `swingType` (not set) and the start positions, and differ only
in the rotation their door has, have different door transforms after
`updateDoor`. -/
theorem updateDoor_depends_on_previous_rotation :
    turnedDoorGarage.fraction = exampleGarage.fraction
    ∧ turnedDoorGarage.doorHeight = exampleGarage.doorHeight
    ∧ turnedDoorGarage.swingType = exampleGarage.swingType
    ∧ turnedDoorGarage.startPosition = exampleGarage.startPosition
    ∧ turnedDoorGarage.startPositionSecondDoor = exampleGarage.startPositionSecondDoor
    ∧ (updateDoor exampleGarage).doorObject = some ⟨⟨5, 0, 0⟩, ⟨0, ⟨0, 1, 0⟩⟩⟩
    ∧ (updateDoor turnedDoorGarage).doorObject = some ⟨⟨5, 0, 0⟩, ⟨45, ⟨0, 0, 1⟩⟩⟩
    ∧ (updateDoor turnedDoorGarage).doorObject ≠ (updateDoor exampleGarage).doorObject := by
  simp +decide [updateDoor, turnedDoorGarage, exampleGarage, Vec3.add]

/-- C16 (amended): `updateDoor` is idempotent; after it each door that is
present stands at its start position lifted by `fraction * doorHeight`; in a
swing garage its rotation is the turn by `fraction * 90` degrees about
`(0, 1, 0)`, and in a garage that is not a swing garage its rotation is the
one it had before. -/
theorem updateDoor_idempotent (g : Garage) :
    updateDoor (updateDoor g) = updateDoor g
    ∧ (∀ d, (updateDoor g).doorObject = some d →
        d.position = g.startPosition.add ⟨0, 0, g.fraction * g.doorHeight⟩
        ∧ (g.swingType = true → d.rotation = ⟨g.fraction * 90, ⟨0, 1, 0⟩⟩)
        ∧ (g.swingType = false → ∃ d0, g.doorObject = some d0 ∧ d.rotation = d0.rotation))
    ∧ (∀ d, (updateDoor g).secondDoorObject = some d →
        d.position = g.startPositionSecondDoor.add ⟨0, 0, g.fraction * g.doorHeight⟩
        ∧ (g.swingType = true → d.rotation = ⟨g.fraction * 90, ⟨0, 1, 0⟩⟩)
        ∧ (g.swingType = false →
            ∃ d0, g.secondDoorObject = some d0 ∧ d.rotation = d0.rotation)) := by
  refine ⟨?_, ?_, ?_⟩
  · unfold updateDoor
    cases hs : g.swingType <;> cases hd : g.doorObject <;> cases h2 : g.secondDoorObject <;>
      simp
  · intro d hd
    unfold updateDoor at hd
    cases h0 : g.doorObject with
    | none => simp [h0] at hd
    | some d0 =>
      simp only [h0, Option.map_some', Option.some.injEq] at hd
      subst hd
      refine ⟨rfl, ?_, ?_⟩
      · intro hs
        simp [hs]
      · intro hs
        exact ⟨d0, rfl, by simp [hs]⟩
  · intro d hd
    unfold updateDoor at hd
    cases h0 : g.secondDoorObject with
    | none => simp [h0] at hd
    | some d0 =>
      simp only [h0, Option.map_some', Option.some.injEq] at hd
      subst hd
      refine ⟨rfl, ?_, ?_⟩
      · intro hs
        simp [hs]
      · intro hs
        exact ⟨d0, rfl, by simp [hs]⟩

/-! ## Initial state -/

/-- The constructor orders the corners of the box: `min <= max` on every
axis. -/
theorem create_box_ordered (hdr : GarageHeader) (pool : List PlacedInstance) (id : Nat)
    (coord0 coord1 : Vec3) (type : GarageType) (g0 : Garage)
    (h : Garage.create hdr pool id coord0 coord1 type = Except.ok g0) :
    g0.min.x ≤ g0.max.x ∧ g0.min.y ≤ g0.max.y ∧ g0.min.z ≤ g0.max.z := by
  unfold Garage.create at h
  simp only at h
  split at h
  · simp at h
  · split at h
    · simp at h
    · simp only [Except.ok.injEq] at h
      rw [← h]
      split <;> exact ⟨min_le_max, min_le_max, min_le_max⟩

/-- The constructor builds `exampleRespray` from a door `41 / 10` high. -/
theorem create_exampleRespray :
    Garage.create exampleHeader [exampleDoor (41 / 10)] 0 ⟨0, 0, 0⟩ ⟨10, 10, 5⟩
      GarageType.Respray = Except.ok exampleRespray := by
  simp [Garage.create, findDoors, exampleHeader, exampleDoor, exampleGarage, exampleRespray,
    initialState, updateDoor, Vec3.add]
  norm_num

/-- The constructor leaves the state its `switch (type)` assigns, the fraction
that goes with it, and the type it was given. -/
theorem create_state (hdr : GarageHeader) (pool : List PlacedInstance) (id : Nat)
    (coord0 coord1 : Vec3) (type : GarageType) (g0 : Garage)
    (h : Garage.create hdr pool id coord0 coord1 type = Except.ok g0) :
    g0.type = type ∧ g0.state = initialState type
      ∧ g0.fraction = if initialState type = GarageState.Closed then 0 else 1 := by
  unfold Garage.create at h
  simp only at h
  split at h
  · simp at h
  · split at h
    · simp at h
    · simp only [Except.ok.injEq] at h
      rw [← h]
      split <;> exact ⟨rfl, rfl, rfl⟩

/-- C17: a garage the constructor builds with kind `Mission`,
`CollectCars1/2`, `MissionForCarToComeOut`, `MissionKeepCar`, `Hideout1/2/3`,
`MissionToOpenAndClose`, `MissionForSpecificCar` or
`MissionKeepCarAndRemainClosed` is in state `Closed` with fraction 0, and one
built with kind `BombShop1/2/3`, `Respray` or `Crusher` is in state `Opened`
with fraction 1. -/
theorem create_initial_state (hdr : GarageHeader) (pool : List PlacedInstance) (id : Nat)
    (coord0 coord1 : Vec3) (type : GarageType) (g0 : Garage)
    (h : Garage.create hdr pool id coord0 coord1 type = Except.ok g0) :
    (type = GarageType.Mission ∨ type = GarageType.CollectCars1
        ∨ type = GarageType.CollectCars2 ∨ type = GarageType.MissionForCarToComeOut
        ∨ type = GarageType.MissionKeepCar ∨ type = GarageType.Hideout1
        ∨ type = GarageType.Hideout2 ∨ type = GarageType.Hideout3
        ∨ type = GarageType.MissionToOpenAndClose ∨ type = GarageType.MissionForSpecificCar
        ∨ type = GarageType.MissionKeepCarAndRemainClosed →
      g0.state = GarageState.Closed ∧ g0.fraction = 0)
    ∧ (type = GarageType.BombShop1 ∨ type = GarageType.BombShop2
        ∨ type = GarageType.BombShop3 ∨ type = GarageType.Respray
        ∨ type = GarageType.Crusher →
      g0.state = GarageState.Opened ∧ g0.fraction = 1) := by
  obtain ⟨_, hs, hf⟩ := create_state hdr pool id coord0 coord1 type g0 h
  rw [hs, hf]
  constructor
  · intro ht
    rcases ht with ht | ht | ht | ht | ht | ht | ht | ht | ht | ht | ht <;>
      subst ht <;> simp [initialState]
  · intro ht
    rcases ht with ht | ht | ht | ht | ht <;> subst ht <;> simp [initialState]

/-- C17, at the example garage (a `Hideout1`) and at a `Respray` built from the
same door. -/
theorem create_initial_state_witness :
    (exampleGarage.state = GarageState.Closed ∧ exampleGarage.fraction = 0)
    ∧ (Garage.create exampleHeader [exampleDoor (41 / 10)] 0 ⟨0, 0, 0⟩ ⟨10, 10, 5⟩
          GarageType.Respray = Except.ok exampleRespray
        ∧ exampleRespray.state = GarageState.Opened ∧ exampleRespray.fraction = 1) :=
  ⟨(create_initial_state exampleHeader [exampleDoor (41 / 10)] 0 ⟨0, 0, 0⟩ ⟨10, 10, 5⟩
      GarageType.Hideout1 exampleGarage create_exampleGarage).1 (by simp),
    create_exampleRespray,
    (create_initial_state exampleHeader [exampleDoor (41 / 10)] 0 ⟨0, 0, 0⟩ ⟨10, 10, 5⟩
      GarageType.Respray exampleRespray create_exampleRespray).2 (by simp)⟩

/-! ## The object registry -/

/-- The loop of `clearCutscene` leaves the live set, the stored objects and the
deletions alone and appends the Cutscene objects it meets to the queue, in
the order it meets them. -/
theorem queueCutsceneObjects_spec (l : List Nat) :
    ∀ gw : GameWorld,
      (queueCutsceneObjects l gw).objects = gw.objects
      ∧ (queueCutsceneObjects l gw).objectAt = gw.objectAt
      ∧ (queueCutsceneObjects l gw).deleted = gw.deleted
      ∧ (queueCutsceneObjects l gw).deletionQueue
          = gw.deletionQueue
            ++ l.filter (fun o => decide ((gw.objectAt o).type = ObjectType.Cutscene)) := by
  induction l with
  | nil => intro gw; simp [queueCutsceneObjects]
  | cons o rest ih =>
    intro gw
    unfold queueCutsceneObjects
    by_cases hc : (gw.objectAt o).type = ObjectType.Cutscene
    · obtain ⟨h1, h2, h3, h4⟩ := ih (destroyObjectQueued gw o)
      simp only [hc, if_true]
      refine ⟨h1, h2, h3, ?_⟩
      rw [h4]
      simp [destroyObjectQueued, hc, List.filter_cons]
    · obtain ⟨h1, h2, h3, h4⟩ := ih gw
      simp only [hc, if_false]
      refine ⟨h1, h2, h3, ?_⟩
      rw [h4]
      simp [hc, List.filter_cons]

/-- The method `destroyObject` does not look at the deletion queue. -/
theorem destroyObject_queue (gw : GameWorld) (o : Nat) (q : List Nat) :
    destroyObject { gw with deletionQueue := q } o
      = { destroyObject gw o with deletionQueue := q } := by
  unfold destroyObject
  by_cases h : o ∈ gw.objects <;> simp [h]

/-- Applying `destroyObject` along a list does not look at the deletion queue. -/
theorem foldl_destroyObject_queue (l : List Nat) :
    ∀ (gw : GameWorld) (q : List Nat),
      l.foldl destroyObject { gw with deletionQueue := q }
        = { l.foldl destroyObject gw with deletionQueue := q } := by
  induction l with
  | nil => intro gw q; rfl
  | cons o rest ih =>
    intro gw q
    simp only [List.foldl_cons]
    rw [destroyObject_queue, ih]

/-- The loop of `destroyQueuedObjects`, started with the content of the
queue. -/
theorem drainDeletionQueue_spec (q : List Nat) :
    ∀ gw : GameWorld, gw.deletionQueue = q →
      (drainDeletionQueue q gw).deletionQueue = []
      ∧ (drainDeletionQueue q gw).objects = gw.objects \ q.toFinset
      ∧ (drainDeletionQueue q gw).deleted
          = gw.deleted ++ (firstOccurrences q).filter (fun o => decide (o ∈ gw.objects))
      ∧ drainDeletionQueue q gw = { q.foldl destroyObject gw with deletionQueue := [] } := by
  induction q with
  | nil =>
    intro gw hq
    refine ⟨hq, by simp [drainDeletionQueue], by simp [drainDeletionQueue, firstOccurrences], ?_⟩
    simp only [drainDeletionQueue, List.foldl_nil]
    cases gw
    simp only at hq
    subst hq
    rfl
  | cons o rest ih =>
    intro gw _
    obtain ⟨h1, h2, h3, h4⟩ := ih { destroyObject gw o with deletionQueue := rest } rfl
    unfold drainDeletionQueue
    refine ⟨h1, ?_, ?_, ?_⟩
    · rw [h2]
      unfold destroyObject
      by_cases hm : o ∈ gw.objects
      · simp only [hm, if_true]
        ext x
        simp only [Finset.mem_sdiff, Finset.mem_erase, List.mem_toFinset, List.mem_cons]
        tauto
      · simp only [hm, if_false]
        ext x
        simp only [Finset.mem_sdiff, List.mem_toFinset, List.mem_cons]
        constructor
        · rintro ⟨hx, hr⟩
          exact ⟨hx, fun h => h.elim (fun e => hm (e ▸ hx)) hr⟩
        · rintro ⟨hx, hr⟩
          exact ⟨hx, fun h => hr (Or.inr h)⟩
    · rw [h3]
      unfold destroyObject
      by_cases hm : o ∈ gw.objects
      · simp only [hm, if_true, firstOccurrences, List.filter_cons, decide_True,
          List.append_assoc, List.singleton_append, List.filter_filter]
        congr 2
        apply List.filter_congr
        intro x _
        simp only [Finset.mem_erase, ne_eq, Bool.decide_and, Bool.and_comm]
      · simp only [hm, if_false, firstOccurrences, List.filter_cons, decide_False,
          List.filter_filter, Bool.false_eq_true]
        congr 1
        apply List.filter_congr
        intro x _
        by_cases hx : x ∈ gw.objects
        · have : x ≠ o := fun e => hm (e ▸ hx)
          simp [hx, this]
        · simp [hx]
    · rw [h4]
      simp only [List.foldl_cons]
      rw [foldl_destroyObject_queue]

/-- C18: `destroyObjectQueued` leaves the live set (and the deletions made so
far) unchanged and appends the object at the back of the deletion queue.
`clearCutscene` leaves the live set unchanged and appends to the queue the
Cutscene objects of the live set, in iteration order; every Cutscene object
of the live set is still live after `clearCutscene` and is no longer live
once `destroyQueuedObjects` has run. -/
theorem queued_destruction_keeps_live_set (gw : GameWorld) (object : Nat) :
    (destroyObjectQueued gw object).objects = gw.objects
    ∧ (destroyObjectQueued gw object).deleted = gw.deleted
    ∧ (destroyObjectQueued gw object).deletionQueue = gw.deletionQueue ++ [object]
    ∧ (clearCutscene gw).objects = gw.objects
    ∧ (clearCutscene gw).deleted = gw.deleted
    ∧ (clearCutscene gw).deletionQueue
        = gw.deletionQueue ++ (gw.objects.sort (· ≤ ·)).filter
            (fun o => decide ((gw.objectAt o).type = ObjectType.Cutscene))
    ∧ (∀ o ∈ gw.objects, (gw.objectAt o).type = ObjectType.Cutscene →
        o ∈ (clearCutscene gw).objects
        ∧ o ∉ (destroyQueuedObjects (clearCutscene gw)).objects) := by
  obtain ⟨h1, _, h3, h4⟩ := queueCutsceneObjects_spec (gw.objects.sort (· ≤ ·)) gw
  have hq : (clearCutscene gw).deletionQueue
      = gw.deletionQueue ++ (gw.objects.sort (· ≤ ·)).filter
          (fun o => decide ((gw.objectAt o).type = ObjectType.Cutscene)) := h4
  have ho : (clearCutscene gw).objects = gw.objects := h1
  refine ⟨rfl, rfl, rfl, ho, h3, hq, ?_⟩
  intro o hm hc
  refine ⟨ho ▸ hm, ?_⟩
  have hd := (drainDeletionQueue_spec (clearCutscene gw).deletionQueue (clearCutscene gw) rfl).2.1
  unfold destroyQueuedObjects
  rw [hd, hq]
  simp only [Finset.mem_sdiff, List.mem_toFinset, List.mem_append, List.mem_filter,
    Finset.mem_sort, decide_eq_true_eq, not_and, not_not]
  intro _
  exact Or.inr ⟨hm, hc⟩

/-- C19: `destroyQueuedObjects` ends with the queue empty and with the live set
reduced by the objects of the queue; it is `destroyObject` applied to the
queued objects from the front of the queue to its back; the objects it
deletes are the queued objects that were live, each once, in the order of
their first occurrence in the queue; and `destroyObject` on an object that is
not in the live set changes nothing. -/
theorem destroyQueuedObjects_spec (gw : GameWorld) :
    (destroyQueuedObjects gw).deletionQueue = []
    ∧ (destroyQueuedObjects gw).objects = gw.objects \ gw.deletionQueue.toFinset
    ∧ destroyQueuedObjects gw
        = { gw.deletionQueue.foldl destroyObject gw with deletionQueue := [] }
    ∧ (destroyQueuedObjects gw).deleted
        = gw.deleted
          ++ (firstOccurrences gw.deletionQueue).filter (fun o => decide (o ∈ gw.objects))
    ∧ (∀ o, o ∉ gw.objects → destroyObject gw o = gw) := by
  obtain ⟨h1, h2, h3, h4⟩ := drainDeletionQueue_spec gw.deletionQueue gw rfl
  refine ⟨h1, h2, h4, h3, ?_⟩
  intro o ho
  simp [destroyObject, ho]

/-- C19, on a live set `{1, 2, 3}` with the queue `2, 7, 2, 1`: the queue ends
empty, the live set is `{3}`, and the objects 2 and 1 are deleted, in that
order; 7 and the second 2 are skipped. -/
theorem destroyQueuedObjects_spec_witness :
    (destroyQueuedObjects exampleRegistry).deletionQueue = []
    ∧ (destroyQueuedObjects exampleRegistry).objects = {3}
    ∧ (destroyQueuedObjects exampleRegistry).deleted = [2, 1] := by
  obtain ⟨h1, h2, _, h4, _⟩ := destroyQueuedObjects_spec exampleRegistry
  refine ⟨h1, ?_, ?_⟩
  · rw [h2]
    decide
  · rw [h4]
    decide

/-- C18, on the live set `{1, 2, 3}` whose object 3 is a Cutscene object:
`clearCutscene` keeps the live set and puts 3 at the back of the queue. -/
theorem queued_destruction_keeps_live_set_witness :
    (clearCutscene exampleRegistry).objects = {1, 2, 3}
    ∧ (clearCutscene exampleRegistry).deletionQueue = [2, 7, 2, 1, 3]
    ∧ 3 ∉ (destroyQueuedObjects (clearCutscene exampleRegistry)).objects := by
  obtain ⟨_, _, _, h4, _, h6, h7⟩ := queued_destruction_keeps_live_set exampleRegistry 0
  have hs : Finset.sort (· ≤ ·) exampleRegistry.objects = [1, 2, 3] := by
    have ho : exampleRegistry.objects = [1, 2, 3].toFinset := by decide
    rw [ho, List.toFinset_sort (· ≤ ·) (by decide)]
    decide
  refine ⟨h4, ?_, (h7 3 (by decide) (by decide)).2⟩
  rw [h6, hs]
  decide

/-! ## Ticks: guards, null pointers, the opening step and the cooldown -/

/-- C21: when a garage has no primary door object or is not active, `tick(dt)`
returns the garage and the world as they were, for every `dt` and world
state: state, fraction, cooldown timer, `resprayDone` and door transforms are
unchanged and no trigger event has written to the world. -/
theorem tick_noop_without_door_or_inactive (w : World) (dt : ℚ) (g : Garage)
    (h : g.doorObject = none ∨ g.active = false) :
    tick w dt g = Except.ok (g, w) := by
  unfold tick
  rcases h with h | h
  · simp [h]
  · by_cases hd : g.doorObject.isNone = true <;> simp [hd, h]

/-- C21, at the example garage deactivated, with the player inside the box (an
active garage would start opening). -/
theorem tick_noop_without_door_or_inactive_witness :
    tick (footWorld ⟨5, 5, 1⟩) 1 (deactivate exampleGarage)
      = Except.ok (deactivate exampleGarage, footWorld ⟨5, 5, 1⟩) :=
  tick_noop_without_door_or_inactive (footWorld ⟨5, 5, 1⟩) 1 (deactivate exampleGarage)
    (Or.inr rfl)

/-- C22 (the code at the failing input): a closed `BombShop1` whose cooldown
has run out (timer 0, game time 1), active and with a door, and a player on
foot: `tick` starts the opening and `doOnStartOpeningEvent` calls
`playerVehicle->setHandbraking(false)` on the null vehicle pointer. -/
theorem tick_on_foot_uses_null_vehicle :
    (laterFootWorld ⟨20, 0, 1⟩).currentVehicle = none
    ∧ tick (laterFootWorld ⟨20, 0, 1⟩) 1 closedBombShop = Except.error Fault.nullVehicle := by
  norm_num [tick, tickSwitch, shouldOpen, doOnStartOpeningEvent, setHandbraking,
    closedBombShop, exampleGarage, laterFootWorld, footWorld]

/-- C23 (the code at the failing input): a garage without a target (null
pointer). On a closed garage `isTargetInsideGarage` passes the null target to
`isObjectInsideGarage`; on an opened `Mission` garage with the player on foot
outside the box, `tick` evaluates `shouldClose`, which does the same. -/
theorem absent_target_is_dereferenced :
    exampleGarage.target = none
    ∧ isTargetInsideGarage (footWorld ⟨20, 0, 1⟩) exampleGarage = Except.error Fault.nullTarget
    ∧ openedMissionGarage.target = none
    ∧ tick (footWorld ⟨20, 0, 1⟩) 1 openedMissionGarage = Except.error Fault.nullTarget := by
  norm_num [isTargetInsideGarage, isTargetObjectInside, tick, tickSwitch, shouldClose,
    isObjectInsideGarage, openedMissionGarage, exampleGarage, footWorld]

/-- C29: in state `Opening`, for an active garage that has a door: if
`shouldStopOpening` holds, `tick` sets the state to `Closing` and leaves the
fraction (and the world) unchanged; otherwise the new fraction is
`min 1 (fraction + dt * step)`, the state is `Opened` when
`fraction + dt * step >= 1` and `Opening` otherwise, and the door geometry is
recomputed by `updateDoor`. -/
theorem tick_opening_step (w : World) (dt : ℚ) (g : Garage)
    (hs : g.state = GarageState.Opening) (ha : g.active = true)
    (hd : g.doorObject ≠ none) :
    (shouldStopOpening w g = true →
      tick w dt g = Except.ok
        ({ g with state := GarageState.Closing, needsToUpdate := false }, w))
    ∧ (shouldStopOpening w g = false →
      tick w dt g = Except.ok
        (updateDoor { g with
            fraction := min 1 (g.fraction + dt * g.step),
            state := if 1 ≤ g.fraction + dt * g.step then GarageState.Opened
              else GarageState.Opening,
            needsToUpdate := true }, w)) := by
  have hd1 : g.doorObject.isNone = false := by
    cases hg : g.doorObject with
    | none => exact absurd hg hd
    | some d => rfl
  constructor
  · intro hstop
    have hstop1 : shouldStopOpening w
        { g with state := GarageState.Opening, active := true, needsToUpdate := false }
        = true := hstop
    simp [tick, tickSwitch, hs, ha, hd1, hstop1]
  · intro hstop
    have hstop1 : shouldStopOpening w
        { g with state := GarageState.Opening, active := true, needsToUpdate := false }
        = false := hstop
    by_cases hge : 1 ≤ g.fraction + dt * g.step
    · simp [tick, tickSwitch, doOnOpenEvent, hs, ha, hd1, hstop1, hge]
    · have hlt : g.fraction + dt * g.step ≤ 1 := le_of_lt (not_le.mp hge)
      simp [tick, tickSwitch, doOnOpenEvent, hs, ha, hd1, hstop1, hge, min_eq_right hlt]

/-- C29, at the example garage in state `Opening` with the player inside the
box: a tick with `dt = 2` takes the fraction from 0 to `1 / 2` and lifts the
door by 2; the state stays `Opening`. -/
theorem tick_opening_step_witness :
    tick (footWorld ⟨5, 5, 1⟩) 2 { exampleGarage with state := GarageState.Opening }
      = Except.ok (halfOpenGarage, footWorld ⟨5, 5, 1⟩) := by
  have h := (tick_opening_step (footWorld ⟨5, 5, 1⟩) 2
    { exampleGarage with state := GarageState.Opening } rfl rfl (by simp [exampleGarage])).2
    (by norm_num [shouldStopOpening, distanceAtLeast, getDistanceToGarageSq, exampleGarage,
      footWorld])
  rw [h]
  norm_num [updateDoor, exampleGarage, halfOpenGarage, Vec3.add]

/-- A tick that takes a garage from `Closing` to `Closed` has run
`doOnCloseEvent` on the garage with fraction 0 and has then recomputed the
door geometry. -/
theorem tick_closing_completed (w w1 : World) (dt : ℚ) (g g1 : Garage)
    (hs : g.state = GarageState.Closing) (h : tick w dt g = Except.ok (g1, w1))
    (hc : g1.state = GarageState.Closed) :
    ∃ g3, doOnCloseEvent w
        { g with needsToUpdate := false, state := GarageState.Closed, fraction := 0 }
          = Except.ok (g3, w1)
      ∧ g1 = updateDoor { g3 with needsToUpdate := true } := by
  unfold tick at h
  split at h
  · cases h
    rw [hs] at hc
    cases hc
  · split at h
    · cases h
      rw [hs] at hc
      cases hc
    · split at h
      · cases h
      · rename_i g2 w2 hsw
        cases h
        unfold tickSwitch at hsw
        simp only [hs] at hsw
        split at hsw
        · cases hsw
          simp [updateDoor] at hc
        · split at hsw
          · split at hsw
            · cases hsw
            · rename_i g3 w3 hev
              cases hsw
              exact ⟨g3, hev, by simp⟩
          · cases hsw
            simp [updateDoor] at hc

/-- C30: when a `BombShop1/2/3` (resp. `Respray`) garage completes closing in a
tick at game time `t`, its cooldown timer is `t + 3 / 2` (resp. `t + 2`)
after the tick; for such a garage `shouldOpen` holds exactly at the game
times strictly greater than the timer, and a tick at a game time that is not
greater leaves the closed garage closed. -/
theorem cooldown_after_closing (w w1 : World) (dt : ℚ) (g g1 : Garage)
    (hs : g.state = GarageState.Closing) (h : tick w dt g = Except.ok (g1, w1))
    (hc : g1.state = GarageState.Closed) :
    (g.type = GarageType.BombShop1 ∨ g.type = GarageType.BombShop2
        ∨ g.type = GarageType.BombShop3 →
      g1.garageTimer = w.gameTime + 3 / 2
      ∧ (∀ w2 : World, shouldOpen w2 g1 = true ↔ g1.garageTimer < w2.gameTime)
      ∧ (∀ (w2 w3 : World) (dt2 : ℚ) (g2 : Garage), w2.gameTime ≤ g1.garageTimer →
          tick w2 dt2 g1 = Except.ok (g2, w3) → g2.state = GarageState.Closed))
    ∧ (g.type = GarageType.Respray →
      g1.garageTimer = w.gameTime + 2
      ∧ (∀ w2 : World, shouldOpen w2 g1 = true ↔ g1.garageTimer < w2.gameTime)
      ∧ (∀ (w2 w3 : World) (dt2 : ℚ) (g2 : Garage), w2.gameTime ≤ g1.garageTimer →
          tick w2 dt2 g1 = Except.ok (g2, w3) → g2.state = GarageState.Closed)) := by
  obtain ⟨g3, hev, hg1⟩ := tick_closing_completed w w1 dt g g1 hs h hc
  have stay : ∀ (w2 w3 : World) (dt2 : ℚ) (g2 : Garage),
      shouldOpen w2 { g1 with state := GarageState.Closed, needsToUpdate := false } = false →
      tick w2 dt2 g1 = Except.ok (g2, w3) → g2.state = GarageState.Closed := by
    intro w2 w3 dt2 g2 hso ht
    unfold tick at ht
    split at ht
    · cases ht; exact hc
    · split at ht
      · cases ht; exact hc
      · simp only [tickSwitch, hc, hso] at ht
        cases ht
        rfl
  constructor
  · intro ht
    have hg3 : g3.type = g.type ∧ g3.garageTimer = w.gameTime + 3 / 2 := by
      rcases ht with ht | ht | ht <;> simp only [doOnCloseEvent, ht] at hev <;> cases hev <;>
        exact ⟨ht.symm, rfl⟩
    have hty : g1.type = g.type := by rw [hg1]; exact hg3.1
    have htm : g1.garageTimer = w.gameTime + 3 / 2 := by rw [hg1]; exact hg3.2
    have hso : ∀ w2 : World, shouldOpen w2 g1 = true ↔ g1.garageTimer < w2.gameTime := by
      intro w2
      rcases ht with ht | ht | ht <;> simp [shouldOpen, hty, ht]
    refine ⟨htm, hso, ?_⟩
    intro w2 w3 dt2 g2 hle ht2
    refine stay w2 w3 dt2 g2 ?_ ht2
    have hn : ¬ (shouldOpen w2 g1 = true) := fun hh => absurd ((hso w2).mp hh) (not_lt.mpr hle)
    have he : shouldOpen w2 { g1 with state := GarageState.Closed, needsToUpdate := false }
        = shouldOpen w2 g1 := rfl
    rw [he]
    simpa using hn
  · intro ht
    have hg3 : g3.type = g.type ∧ g3.garageTimer = w.gameTime + 2 := by
      simp only [doOnCloseEvent, ht] at hev
      split at hev
      · cases hev
      · cases hev
        exact ⟨ht.symm, rfl⟩
    have hty : g1.type = g.type := by rw [hg1]; exact hg3.1
    have htm : g1.garageTimer = w.gameTime + 2 := by rw [hg1]; exact hg3.2
    have hso : ∀ w2 : World, shouldOpen w2 g1 = true ↔ g1.garageTimer < w2.gameTime := by
      intro w2
      simp [shouldOpen, hty, ht]
    refine ⟨htm, hso, ?_⟩
    intro w2 w3 dt2 g2 hle ht2
    refine stay w2 w3 dt2 g2 ?_ ht2
    have hn : ¬ (shouldOpen w2 g1 = true) := fun hh => absurd ((hso w2).mp hh) (not_lt.mpr hle)
    have he : shouldOpen w2 { g1 with state := GarageState.Closed, needsToUpdate := false }
        = shouldOpen w2 g1 := rfl
    rw [he]
    simpa using hn

/-- C30, at a `BombShop1` that closes at game time 7: the tick ends with the
garage closed and its timer at `7 + 3 / 2`, and `shouldOpen` at game time 7
is the comparison of the timer with 7. -/
theorem cooldown_after_closing_witness :
    tick carWorld 1 closingBombShop = Except.ok (cooledBombShop, carWorld)
    ∧ cooledBombShop.garageTimer = carWorld.gameTime + 3 / 2
    ∧ (shouldOpen carWorld cooledBombShop = true
        ↔ cooledBombShop.garageTimer < carWorld.gameTime) := by
  have ht : tick carWorld 1 closingBombShop = Except.ok (cooledBombShop, carWorld) := by
    norm_num [tick, tickSwitch, shouldStopClosing, doOnCloseEvent, updateDoor, Vec3.add,
      closingBombShop, cooledBombShop, closedBombShop, exampleGarage, carWorld]
  have h := (cooldown_after_closing carWorld carWorld 1 closingBombShop cooledBombShop rfl ht
    rfl).1 (Or.inl rfl)
  exact ⟨ht, h.1, h.2.1 carWorld⟩

/-! ## Door positions along a run of operations -/

/-- C24: `getGroundAtPosition(pos)` looks at the ray from `(pos.x, pos.y, 100)`
to `(pos.x, pos.y, -100)` only; it returns the hit point of the closest hit
when the ray test has a hit, and `pos` itself when it has none. It is a total
function: no input makes it fail. -/
theorem getGroundAtPosition_spec (rayTest : Vec3 → Vec3 → Option RayHit) (pos : Vec3) :
    (∀ rr, rayTest ⟨pos.x, pos.y, 100⟩ ⟨pos.x, pos.y, -100⟩ = some rr →
      getGroundAtPosition rayTest pos = rr.hitPointWorld)
    ∧ (rayTest ⟨pos.x, pos.y, 100⟩ ⟨pos.x, pos.y, -100⟩ = none →
      getGroundAtPosition rayTest pos = pos)
    ∧ (∀ other : Vec3 → Vec3 → Option RayHit,
      other ⟨pos.x, pos.y, 100⟩ ⟨pos.x, pos.y, -100⟩
        = rayTest ⟨pos.x, pos.y, 100⟩ ⟨pos.x, pos.y, -100⟩ →
      getGroundAtPosition other pos = getGroundAtPosition rayTest pos) := by
  refine ⟨?_, ?_, ?_⟩
  · intro rr h
    simp [getGroundAtPosition, h]
  · intro h
    simp [getGroundAtPosition, h]
  · intro other h
    simp [getGroundAtPosition, h]

/-- C24, with a ray test that hits at `(1, 2, 3)` and with one that hits
nothing, at the position `(1, 2, 50)`. -/
theorem getGroundAtPosition_spec_witness :
    getGroundAtPosition hitCar ⟨1, 2, 50⟩ = ⟨1, 2, 3⟩
    ∧ getGroundAtPosition hitNothing ⟨1, 2, 50⟩ = ⟨1, 2, 50⟩ :=
  ⟨(getGroundAtPosition_spec hitCar ⟨1, 2, 50⟩).1 _ rfl,
    (getGroundAtPosition_spec hitNothing ⟨1, 2, 50⟩).2.1 rfl⟩

/-- The calls of `doWeaponScan` on the paths without a null pointer: a
`HITSCAN` scan whose ray from `scan.center` to `scan.end` hits a body that
carries a world object makes exactly one `takeDamage` call, on that object, with cause `Bullet`, the hit point as
location, `scan.center` as source and `scan.damage` as hit points; when the
ray hits nothing it makes no call, and a `RADIUS` scan makes no call. -/
theorem doWeaponScan_spec (rayTest : Vec3 → Vec3 → Option RayHit) (uninitialised : Impulse)
    (scan : WeaponScan) :
    (scan.type = ScanType.HITSCAN →
      ∀ cb go, rayTest scan.center scan.endPoint = some cb →
        cb.collisionObject.userPointer = some go →
        doWeaponScan rayTest uninitialised scan
          = Except.ok [⟨go, ⟨cb.hitPointWorld, scan.center, scan.damage, DamageType.Bullet,
              uninitialised⟩⟩])
    ∧ (scan.type = ScanType.HITSCAN → rayTest scan.center scan.endPoint = none →
        doWeaponScan rayTest uninitialised scan = Except.ok [])
    ∧ (scan.type = ScanType.RADIUS → doWeaponScan rayTest uninitialised scan = Except.ok []) := by
  refine ⟨?_, ?_, ?_⟩
  · intro ht cb go hr hu
    simp [doWeaponScan, ht, hr, hu]
  · intro ht hr
    simp [doWeaponScan, ht, hr]
  · intro ht
    simp [doWeaponScan, ht]

/-- The example scan (damage 25): a ray that hits the example car at
`(1, 2, 3)` delivers one event to the car; a ray that hits nothing, and a
`RADIUS` scan, deliver none. -/
theorem doWeaponScan_spec_witness :
    doWeaponScan hitCar Impulse.undefined exampleScan
      = Except.ok [⟨exampleCar, ⟨⟨1, 2, 3⟩, ⟨0, 0, 1⟩, 25, DamageType.Bullet,
          Impulse.undefined⟩⟩]
    ∧ doWeaponScan hitNothing Impulse.undefined exampleScan = Except.ok []
    ∧ doWeaponScan hitCar Impulse.undefined { exampleScan with type := ScanType.RADIUS }
      = Except.ok [] :=
  ⟨(doWeaponScan_spec hitCar Impulse.undefined exampleScan).1 rfl _ _ rfl rfl,
    (doWeaponScan_spec hitNothing Impulse.undefined exampleScan).2.1 rfl rfl,
    (doWeaponScan_spec hitCar Impulse.undefined
      { exampleScan with type := ScanType.RADIUS }).2.2 rfl⟩

/-- C25 (the code at the failing input): a `HITSCAN` scan whose ray hits a
body without a world object. `doWeaponScan` reads the null user pointer into
`go` and calls `go->takeDamage(di)` on it; no event is delivered. -/
theorem doWeaponScan_null_user_pointer :
    exampleScan.type = ScanType.HITSCAN
    ∧ (∃ cb, hitBare exampleScan.center exampleScan.endPoint = some cb
        ∧ cb.collisionObject.userPointer = none)
    ∧ doWeaponScan hitBare Impulse.undefined exampleScan = Except.error ScanFault.nullObject := by
  refine ⟨rfl, ⟨_, rfl, rfl⟩, ?_⟩
  simp [doWeaponScan, hitBare, exampleScan, fastBareBody]

/-- C26: `PhysicsTickCallback` leaves the world as it is and calls
`tickPhysics(timeStep)` exactly once on every live object whose type is
`Vehicle`; every call it makes is on a live `Vehicle` object and passes the
step duration it was given. -/
theorem physicsTick_calls (gw : GameWorld) (timeStep : ℚ) :
    (PhysicsTickCallback gw timeStep).1 = gw
    ∧ (∀ o, o ∈ gw.objects → (gw.objectAt o).type = ObjectType.Vehicle →
        ((PhysicsTickCallback gw timeStep).2.map Prod.fst).count o = 1)
    ∧ (∀ c ∈ (PhysicsTickCallback gw timeStep).2,
        c.1 ∈ gw.objects ∧ (gw.objectAt c.1).type = ObjectType.Vehicle ∧ c.2 = timeStep) := by
  have hnd : ((gw.objects.sort (· ≤ ·)).filter
      (fun object => decide ((gw.objectAt object).type = ObjectType.Vehicle))).Nodup :=
    (Finset.sort_nodup _ _).filter _
  refine ⟨rfl, ?_, ?_⟩
  · intro o ho hv
    have hmem : o ∈ (gw.objects.sort (· ≤ ·)).filter
        (fun object => decide ((gw.objectAt object).type = ObjectType.Vehicle)) := by
      simp [List.mem_filter, ho, hv]
    simp only [PhysicsTickCallback, List.map_map]
    have hid : (Prod.fst ∘ fun object : Nat => (object, timeStep)) = id := rfl
    rw [hid, List.map_id]
    exact List.count_eq_one_of_mem hnd hmem
  · intro c hc
    simp only [PhysicsTickCallback, List.mem_map, List.mem_filter, Finset.mem_sort,
      decide_eq_true_eq] at hc
    obtain ⟨o, ⟨ho, hv⟩, rfl⟩ := hc
    exact ⟨ho, hv, rfl⟩

/-- C26, on the example registry (vehicles 1 and 2, Cutscene object 3) with
step `1 / 60`: one call on 1, one on 2, none on 3. -/
theorem physicsTick_calls_witness :
    (PhysicsTickCallback exampleRegistry (1 / 60)).2 = [(1, 1 / 60), (2, 1 / 60)]
    ∧ ((PhysicsTickCallback exampleRegistry (1 / 60)).2.map Prod.fst).count 2 = 1
    ∧ (PhysicsTickCallback exampleRegistry (1 / 60)).1.objects = {1, 2, 3} := by
  have hs : Finset.sort (· ≤ ·) exampleRegistry.objects = [1, 2, 3] := by
    have ho : exampleRegistry.objects = [1, 2, 3].toFinset := by decide
    rw [ho, List.toFinset_sort (· ≤ ·) (by decide)]
    decide
  have h := physicsTick_calls exampleRegistry (1 / 60)
  refine ⟨?_, h.2.1 2 (by decide) (by decide), by rw [h.1]; rfl⟩
  simp only [PhysicsTickCallback, hs]
  simp +decide [exampleRegistry, List.filter]

/-- The index test of the script lookups: a handle value of the range of a
32-bit `int` converts to an index below the size of a collection of fewer
than `2 ^ 63` elements exactly when it is not negative and below the size. -/
theorem toSizeT_lt_iff (h : Int) (n : Nat) (hlo : -2 ^ 31 ≤ h) (hhi : h < 2 ^ 31)
    (hn : n < 2 ^ 63) :
    (toSizeT h < n ↔ 0 ≤ h ∧ h < n) ∧ (0 ≤ h → toSizeT h = h.toNat) := by
  unfold toSizeT
  constructor
  · constructor
    · intro hlt
      omega
    · intro hb
      omega
  · intro h0
    omega

/-- C27: for a handle value `h` (a 32-bit `int`) and collections of fewer than
`2 ^ 63` elements, `getScriptObject<Garage>`,
`getScriptObject<VehicleGenerator>` and `getScriptObject<Payphone>` return
the element at index `h` when `0 <= h < size` and the null object for every
other `h`, negative values included. -/
theorem getScriptObject_bounds {α β : Type} (garages : List Garage) (generators : List α)
    (payphones : List β) (h : Int) (hlo : -2 ^ 31 ≤ h) (hhi : h < 2 ^ 31)
    (hg : garages.length < 2 ^ 63) (hv : generators.length < 2 ^ 63)
    (hp : payphones.length < 2 ^ 63) :
    getScriptObjectGarage garages h
        = (if 0 ≤ h ∧ h < garages.length then garages.get? h.toNat else none)
    ∧ getScriptObjectVehicleGenerator generators h
        = (if 0 ≤ h ∧ h < generators.length then generators.get? h.toNat else none)
    ∧ getScriptObjectPayphone payphones h
        = (if 0 ≤ h ∧ h < payphones.length then payphones.get? h.toNat else none)
    ∧ (0 ≤ h → h < garages.length → (getScriptObjectGarage garages h).isSome = true)
    ∧ (0 ≤ h → h < generators.length →
        (getScriptObjectVehicleGenerator generators h).isSome = true)
    ∧ (0 ≤ h → h < payphones.length → (getScriptObjectPayphone payphones h).isSome = true) := by
  have key : ∀ {γ : Type} (xs : List γ), xs.length < 2 ^ 63 →
      (if toSizeT h < xs.length then xs.get? (toSizeT h) else none)
        = (if 0 ≤ h ∧ h < xs.length then xs.get? h.toNat else none) := by
    intro γ xs hx
    obtain ⟨h1, h2⟩ := toSizeT_lt_iff h xs.length hlo hhi hx
    by_cases hb : 0 ≤ h ∧ h < xs.length
    · rw [if_pos hb, if_pos (h1.mpr hb), h2 hb.1]
    · rw [if_neg hb, if_neg (fun hh => hb (h1.mp hh))]
  have some_of : ∀ {γ : Type} (xs : List γ), 0 ≤ h → h < xs.length →
      ((if 0 ≤ h ∧ h < xs.length then xs.get? h.toNat else none) : Option γ).isSome = true := by
    intro γ xs h0 hl
    rw [if_pos ⟨h0, hl⟩]
    have : h.toNat < xs.length := by omega
    simp [this]
  refine ⟨key garages hg, key generators hv, key payphones hp, ?_, ?_, ?_⟩
  · intro h0 hl
    have := key garages hg
    unfold getScriptObjectGarage
    rw [this]
    exact some_of garages h0 hl
  · intro h0 hl
    have := key generators hv
    unfold getScriptObjectVehicleGenerator
    rw [this]
    exact some_of generators h0 hl
  · intro h0 hl
    have := key payphones hp
    unfold getScriptObjectPayphone
    simp only
    rw [this]
    exact some_of payphones h0 hl

/-- C27, on two garages, three generators and one payphone: the handle 1 gives
the second garage and the second generator and no payphone, the handle -1
gives the null object in all three. -/
theorem getScriptObject_bounds_witness :
    getScriptObjectGarage [exampleGarage, exampleRespray] 1 = some exampleRespray
    ∧ getScriptObjectVehicleGenerator [10, 20, 30] 1 = some 20
    ∧ getScriptObjectPayphone [7] 1 = none
    ∧ getScriptObjectGarage [exampleGarage, exampleRespray] (-1) = none
    ∧ getScriptObjectVehicleGenerator [10, 20, 30] (-1) = none
    ∧ getScriptObjectPayphone [7] (-1) = none := by
  have h1 := getScriptObject_bounds [exampleGarage, exampleRespray] [10, 20, 30] [7] 1
    (by norm_num) (by norm_num) (by norm_num) (by norm_num) (by norm_num)
  have h2 := getScriptObject_bounds [exampleGarage, exampleRespray] [10, 20, 30] [7] (-1)
    (by norm_num) (by norm_num) (by norm_num) (by norm_num) (by norm_num)
  rw [h1.1, h1.2.1, h1.2.2.1, h2.1, h2.2.1, h2.2.2.1]
  simp

/-! ## The swing upgrade, the box and the script-facing methods -/

/-- The constructor leaves the travel rate at the header's initial rate over
the door height it has just computed. -/
theorem create_step (hdr : GarageHeader) (pool : List PlacedInstance) (id : Nat)
    (coord0 coord1 : Vec3) (type : GarageType) (g0 : Garage)
    (h : Garage.create hdr pool id coord0 coord1 type = Except.ok g0) :
    g0.step = hdr.step / g0.doorHeight ∧ g0.doorHeight ≠ 0
      ∧ g0.swingType = hdr.swingType := by
  unfold Garage.create at h
  simp only at h
  split at h
  · simp at h
  · split at h
    · simp at h
    · rename_i hz
      simp only [Except.ok.injEq] at h
      rw [← h]
      split <;> exact ⟨rfl, hz, rfl⟩

/-- The constructor stores the componentwise minimum and maximum of the two
corners. -/
theorem create_box (hdr : GarageHeader) (pool : List PlacedInstance) (id : Nat)
    (coord0 coord1 : Vec3) (type : GarageType) (g0 : Garage)
    (h : Garage.create hdr pool id coord0 coord1 type = Except.ok g0) :
    g0.min = ⟨Min.min coord0.x coord1.x, Min.min coord0.y coord1.y, Min.min coord0.z coord1.z⟩
    ∧ g0.max
      = ⟨Max.max coord0.x coord1.x, Max.max coord0.y coord1.y, Max.max coord0.z coord1.z⟩ := by
  unfold Garage.create at h
  simp only at h
  split at h
  · simp at h
  · split at h
    · simp at h
    · simp only [Except.ok.injEq] at h
      rw [← h]
      split <;> exact ⟨rfl, rfl⟩

/-- C32: on a garage that is not a swing garage yet, `makeDoorSwing` sets
`swingType` and replaces the door height `h` by `h / 2 - 1 / 10`; every other
member keeps its value, among them the travel rate, the fraction, the state
and the transforms of the doors. For a garage the constructor has built, the
travel rate after the upgrade is therefore still the header's initial rate
over the construction-time door height. -/
theorem makeDoorSwing_first_call (g : Garage) (hs : g.swingType = false) :
    (makeDoorSwing g).swingType = true
    ∧ (makeDoorSwing g).doorHeight = g.doorHeight / 2 - 1 / 10
    ∧ (makeDoorSwing g).step = g.step
    ∧ (makeDoorSwing g).fraction = g.fraction
    ∧ (makeDoorSwing g).state = g.state
    ∧ (makeDoorSwing g).doorObject = g.doorObject
    ∧ (makeDoorSwing g).secondDoorObject = g.secondDoorObject
    ∧ makeDoorSwing g
      = { g with swingType := (makeDoorSwing g).swingType,
                 doorHeight := (makeDoorSwing g).doorHeight }
    ∧ (∀ (hdr : GarageHeader) (pool : List PlacedInstance) (id : Nat) (coord0 coord1 : Vec3)
        (type : GarageType), Garage.create hdr pool id coord0 coord1 type = Except.ok g →
        (makeDoorSwing g).step = hdr.step / g.doorHeight) := by
  have hm : makeDoorSwing g
      = { g with swingType := true, doorHeight := g.doorHeight / 2 - 1 / 10 } := by
    simp [makeDoorSwing, hs]
  refine ⟨by rw [hm], by rw [hm], by rw [hm], by rw [hm], by rw [hm], by rw [hm], by rw [hm],
    by rw [hm], ?_⟩
  intro hdr pool id coord0 coord1 type hc
  rw [hm]
  exact (create_step hdr pool id coord0 coord1 type g hc).1

/-- C32, at the example garage, built from a door `41 / 10` high with initial
rate 1: the upgrade takes the door height from 4 to `19 / 10` and leaves the
travel rate at `1 / 4`. -/
theorem makeDoorSwing_first_call_witness :
    exampleGarage.swingType = false
    ∧ (makeDoorSwing exampleGarage).swingType = true
    ∧ (makeDoorSwing exampleGarage).doorHeight = 19 / 10
    ∧ (makeDoorSwing exampleGarage).step = 1 / 4
    ∧ (makeDoorSwing exampleGarage).step = exampleHeader.step / 4 := by
  have h := makeDoorSwing_first_call exampleGarage rfl
  obtain ⟨h1, h2, h3, _, _, _, _, _, h9⟩ := h
  refine ⟨rfl, h1, ?_, ?_, ?_⟩
  · rw [h2]; norm_num [exampleGarage]
  · rw [h3]; rfl
  · exact h9 exampleHeader [exampleDoor (41 / 10)] 0 ⟨0, 0, 0⟩ ⟨10, 10, 5⟩
      GarageType.Hideout1 create_exampleGarage

/-- C33: the box of a constructed garage has the componentwise minimum of the
two corners as `min` and their componentwise maximum as `max`, so `min <= max`
on every axis; and the constructor called with the corners swapped gives the
same result (the same garage, hence the same box). -/
theorem create_box_spec (hdr : GarageHeader) (pool : List PlacedInstance) (id : Nat)
    (coord0 coord1 : Vec3) (type : GarageType) (g0 : Garage)
    (h : Garage.create hdr pool id coord0 coord1 type = Except.ok g0) :
    g0.min = ⟨Min.min coord0.x coord1.x, Min.min coord0.y coord1.y, Min.min coord0.z coord1.z⟩
    ∧ g0.max
      = ⟨Max.max coord0.x coord1.x, Max.max coord0.y coord1.y, Max.max coord0.z coord1.z⟩
    ∧ (g0.min.x ≤ g0.max.x ∧ g0.min.y ≤ g0.max.y ∧ g0.min.z ≤ g0.max.z)
    ∧ Garage.create hdr pool id coord1 coord0 type = Except.ok g0 := by
  obtain ⟨hmin, hmax⟩ := create_box hdr pool id coord0 coord1 type g0 h
  refine ⟨hmin, hmax, create_box_ordered hdr pool id coord0 coord1 type g0 h, ?_⟩
  rw [← h]
  unfold Garage.create
  simp only [min_comm coord1.x, min_comm coord1.y, min_comm coord1.z, max_comm coord1.x,
    max_comm coord1.y, max_comm coord1.z]

/-- C33, with the corners of the example garage given the other way round and
mixed: `(10, 0, 5)` and `(0, 10, 0)` give the box `(0,0,0)`..`(10,10,5)`. -/
theorem create_box_spec_witness :
    Garage.create exampleHeader [exampleDoor (41 / 10)] 0 ⟨10, 0, 5⟩ ⟨0, 10, 0⟩
        GarageType.Hideout1 = Except.ok exampleGarage
    ∧ exampleGarage.min = ⟨0, 0, 0⟩ ∧ exampleGarage.max = ⟨10, 10, 5⟩
    ∧ Garage.create exampleHeader [exampleDoor (41 / 10)] 0 ⟨0, 10, 0⟩ ⟨10, 0, 5⟩
        GarageType.Hideout1 = Except.ok exampleGarage := by
  have hc : Garage.create exampleHeader [exampleDoor (41 / 10)] 0 ⟨10, 0, 5⟩ ⟨0, 10, 0⟩
      GarageType.Hideout1 = Except.ok exampleGarage := by
    simp [Garage.create, findDoors, exampleHeader, exampleDoor, exampleGarage, initialState,
      updateDoor, Vec3.add]
    norm_num
  have h := create_box_spec exampleHeader [exampleDoor (41 / 10)] 0 ⟨10, 0, 5⟩ ⟨0, 10, 0⟩
    GarageType.Hideout1 exampleGarage hc
  exact ⟨hc, rfl, rfl, h.2.2.2⟩

/-- C38: `Garage::open` sets the state to `Opening` when it is `Closed` or
`Closing` and leaves the garage as it is otherwise, so the state changes
exactly in those two states; `Garage::close` sets the state to `Closing` when
it is `Opened` or `Opening` and leaves the garage as it is otherwise. Neither
writes any member but `state`: the fraction, the active flag, the transforms
of the doors and the members the trigger events write (`garageTimer`,
`resprayDone`) keep their values; the world, which the trigger events write,
is not touched by either method. -/
theorem open_close_spec (g : Garage) :
    (g.state = GarageState.Closed ∨ g.state = GarageState.Closing →
      (Garage.open g).state = GarageState.Opening)
    ∧ (g.state = GarageState.Opened ∨ g.state = GarageState.Opening → Garage.open g = g)
    ∧ ((Garage.open g).state ≠ g.state
      ↔ g.state = GarageState.Closed ∨ g.state = GarageState.Closing)
    ∧ Garage.open g = { g with state := (Garage.open g).state }
    ∧ (g.state = GarageState.Opened ∨ g.state = GarageState.Opening →
      (Garage.close g).state = GarageState.Closing)
    ∧ (g.state = GarageState.Closed ∨ g.state = GarageState.Closing → Garage.close g = g)
    ∧ ((Garage.close g).state ≠ g.state
      ↔ g.state = GarageState.Opened ∨ g.state = GarageState.Opening)
    ∧ Garage.close g = { g with state := (Garage.close g).state }
    ∧ ((Garage.open g).fraction = g.fraction ∧ (Garage.open g).active = g.active
      ∧ (Garage.open g).doorObject = g.doorObject
      ∧ (Garage.open g).secondDoorObject = g.secondDoorObject
      ∧ (Garage.open g).garageTimer = g.garageTimer
      ∧ (Garage.open g).resprayDone = g.resprayDone)
    ∧ ((Garage.close g).fraction = g.fraction ∧ (Garage.close g).active = g.active
      ∧ (Garage.close g).doorObject = g.doorObject
      ∧ (Garage.close g).secondDoorObject = g.secondDoorObject
      ∧ (Garage.close g).garageTimer = g.garageTimer
      ∧ (Garage.close g).resprayDone = g.resprayDone) := by
  unfold Garage.open Garage.close
  cases hst : g.state <;> simp [hst] <;> (cases g; simp only at hst; subst hst; rfl)

/-! ## Trigger predicates of hideouts and resprays -/

/-- C35: for a `Hideout1/2/3` garage and every world state, `shouldClose`
returns the negation of `shouldOpen` (and leaves the garage as it is),
`shouldStopOpening` returns what `shouldClose` returns and `shouldStopClosing`
what `shouldOpen` returns, so exactly one of `shouldOpen` and `shouldClose`
holds. -/
theorem hideout_predicates_consistent (w : World) (g : Garage)
    (ht : g.type = GarageType.Hideout1 ∨ g.type = GarageType.Hideout2
      ∨ g.type = GarageType.Hideout3) :
    ∃ b, shouldClose w g = Except.ok (b, g)
      ∧ b = !shouldOpen w g
      ∧ shouldStopOpening w g = b
      ∧ shouldStopClosing w g = shouldOpen w g
      ∧ ((shouldOpen w g = true ∧ b = false) ∨ (shouldOpen w g = false ∧ b = true)) := by
  rcases ht with ht | ht | ht <;>
    simp only [shouldClose, shouldOpen, shouldStopOpening, shouldStopClosing, ht] <;>
    cases w.currentVehicle.isSome <;>
    cases distanceAtLeast g w.playerCharacter.position 5 <;>
    cases distanceAtLeast g w.playerCharacter.position 10 <;>
    simp

/-- C35, at the scenario of the spec (`Hideout1`, player on foot at distance
10): `shouldOpen` and `shouldStopClosing` are false, `shouldClose` and
`shouldStopOpening` are true. -/
theorem hideout_predicates_consistent_witness :
    shouldOpen (footWorld ⟨20, 0, 1⟩) exampleGarage = false
    ∧ shouldClose (footWorld ⟨20, 0, 1⟩) exampleGarage = Except.ok (true, exampleGarage)
    ∧ shouldStopOpening (footWorld ⟨20, 0, 1⟩) exampleGarage = true
    ∧ shouldStopClosing (footWorld ⟨20, 0, 1⟩) exampleGarage = false := by
  have ho : shouldOpen (footWorld ⟨20, 0, 1⟩) exampleGarage = false := by
    norm_num [shouldOpen, distanceAtLeast, getDistanceToGarageSq, exampleGarage, footWorld]
  obtain ⟨b, hc, hb, hso, hsc, _⟩ :=
    hideout_predicates_consistent (footWorld ⟨20, 0, 1⟩) exampleGarage (Or.inl rfl)
  rw [ho] at hb hsc
  simp only [Bool.not_false] at hb
  rw [hb] at hc hso
  exact ⟨ho, hc, hso, hsc⟩

/-- The method `shouldClose` writes no member but `resprayDone`. -/
theorem shouldClose_only_resprayDone (w : World) (g g1 : Garage) (b : Bool)
    (h : shouldClose w g = Except.ok (b, g1)) :
    g1 = { g with resprayDone := g1.resprayDone } := by
  unfold shouldClose at h
  cases ht : g.type <;> simp only [ht] at h <;> (repeat' split at h) <;> cases h <;>
    (cases g; simp only at ht; subst ht; rfl)

/-- The result of `shouldClose` on a `Respray` garage and the value it leaves
in `resprayDone`. -/
theorem respray_shouldClose_value (w : World) (g : Garage)
    (ht : g.type = GarageType.Respray) :
    ∃ g1, shouldClose w g = Except.ok
        (match w.currentVehicle with
          | some v => isObjectInsideGarage g v.object && v.stopped && !g.resprayDone
          | none => false, g1)
      ∧ g1.resprayDone = (match w.currentVehicle with
          | some v => g.resprayDone
              && !(!isObjectInsideGarage g v.object && distanceAtLeast g v.object.position 2)
          | none => g.resprayDone) := by
  unfold shouldClose
  simp only [ht]
  cases hv : w.currentVehicle with
  | none => exact ⟨_, rfl, rfl⟩
  | some v =>
    simp only
    cases hin : isObjectInsideGarage g v.object <;> cases hst : v.stopped <;>
      cases hd : g.resprayDone <;>
      cases hdist : distanceAtLeast g v.object.position 2 <;>
      simp [hd]

/-- C37: for a `Respray` garage, `shouldClose` returns true exactly when the
player is in a vehicle that is inside the box and stopped and `resprayDone`
is false; while `resprayDone` is true it returns false. It writes no member
but `resprayDone`; a set `resprayDone` is cleared exactly when the player is
in a vehicle that is not inside the box and whose distance to the box is at
least 2, and a clear `resprayDone` stays clear. -/
theorem respray_shouldClose_spec (w : World) (g : Garage)
    (ht : g.type = GarageType.Respray) :
    ∃ b g1, shouldClose w g = Except.ok (b, g1)
      ∧ (b = true ↔ ∃ v, w.currentVehicle = some v
          ∧ isObjectInsideGarage g v.object = true ∧ v.stopped = true
          ∧ g.resprayDone = false)
      ∧ (g.resprayDone = true → b = false)
      ∧ g1 = { g with resprayDone := g1.resprayDone }
      ∧ (g.resprayDone = true →
          (g1.resprayDone = false ↔ ∃ v, w.currentVehicle = some v
            ∧ isObjectInsideGarage g v.object = false
            ∧ 2 ≤ getDistanceToGarage g v.object.position))
      ∧ (g.resprayDone = false → g1.resprayDone = false) := by
  obtain ⟨g1, h, hr⟩ := respray_shouldClose_value w g ht
  refine ⟨_, g1, h, ?_, ?_, shouldClose_only_resprayDone w g g1 _ h, ?_, ?_⟩
  · cases hv : w.currentVehicle with
    | none => simp
    | some v => simp [Bool.and_eq_true, and_assoc]
  · intro hd
    cases hv : w.currentVehicle with
    | none => rfl
    | some v => simp [hd]
  · intro hd
    rw [hr]
    cases hv : w.currentVehicle with
    | none => simp [hd]
    | some v =>
      have h2 := distanceAtLeast_iff g v.object.position 2 (by norm_num)
      push_cast at h2
      simp [hd, ← h2]
  · intro hd
    rw [hr]
    cases hv : w.currentVehicle with
    | none => simp [hd]
    | some v => simp [hd]

/-- C37, at the example respray with the player's stopped car inside the box:
`shouldClose` returns true and leaves the garage as it is. -/
theorem respray_shouldClose_spec_witness :
    exampleRespray.type = GarageType.Respray
    ∧ shouldClose carWorld exampleRespray = Except.ok (true, exampleRespray) := by
  obtain ⟨b, g1, hc, hb, _, hg, _, hr⟩ := respray_shouldClose_spec carWorld exampleRespray rfl
  have hbt : b = true :=
    hb.mpr ⟨⟨⟨2, ObjectType.Vehicle, ⟨5, 5, 1⟩, none, none⟩, true, false, 300, true⟩, rfl,
      by norm_num [isObjectInsideGarage, exampleRespray, exampleGarage], rfl, rfl⟩
  have hg1 : g1 = exampleRespray := by
    rw [hg, hr rfl]
    rfl
  rw [hbt, hg1] at hc
  exact ⟨rfl, hc⟩

/-! ## Rest positions, the start-closing trigger and the collection garages -/

/-- One `tick` keeps the rest positions: a garage that is `Closed` only at
fraction 0 and `Opened` only at fraction 1 is so after the tick. -/
theorem tick_rest (w w1 : World) (dt : ℚ) (g g1 : Garage)
    (h : tick w dt g = Except.ok (g1, w1))
    (hinv : (g.state = GarageState.Closed → g.fraction = 0)
      ∧ (g.state = GarageState.Opened → g.fraction = 1)) :
    (g1.state = GarageState.Closed → g1.fraction = 0)
    ∧ (g1.state = GarageState.Opened → g1.fraction = 1) := by
  obtain ⟨_, hc⟩ := tick_cases w w1 dt g g1 h
  rcases hc with ⟨hs, hf⟩ | ⟨_, hs, _⟩ | ⟨_, hs, _⟩ | ⟨_, hs, _⟩ | ⟨_, hs, _, hf⟩ |
    ⟨_, hs, _, _⟩ | ⟨_, hs, _⟩ | ⟨_, hs, _, hf⟩ | ⟨_, hs, _, _⟩
  · rw [hs, hf]
    exact hinv
  all_goals
    rw [hs]
    simp [*]

/-- Every operation keeps the rest positions. -/
theorem applyOperation_rest (op : Operation) (g g1 : Garage)
    (h : applyOperation op g = Except.ok g1)
    (hinv : (g.state = GarageState.Closed → g.fraction = 0)
      ∧ (g.state = GarageState.Opened → g.fraction = 1)) :
    (g1.state = GarageState.Closed → g1.fraction = 0)
    ∧ (g1.state = GarageState.Opened → g1.fraction = 1) := by
  cases op with
  | tick w dt =>
    unfold applyOperation at h
    cases ht : tick w dt g with
    | error e => simp [ht] at h
    | ok p =>
      obtain ⟨g2, w2⟩ := p
      simp only [ht, Except.ok.injEq] at h
      rw [← h]
      exact tick_rest w w2 dt g g2 ht hinv
  | «open» =>
    simp only [applyOperation, Except.ok.injEq] at h
    rw [← h]
    unfold Garage.open
    split
    · simp
    · exact hinv
  | close =>
    simp only [applyOperation, Except.ok.injEq] at h
    rw [← h]
    unfold Garage.close
    split
    · simp
    · exact hinv
  | activate =>
    simp only [applyOperation, Except.ok.injEq] at h
    rw [← h]
    unfold activate
    simp only
    split
    · simp
    · exact hinv
  | deactivate =>
    simp only [applyOperation, Except.ok.injEq] at h
    rw [← h]
    exact hinv
  | makeDoorSwing =>
    simp only [applyOperation, Except.ok.injEq] at h
    rw [← h]
    unfold makeDoorSwing
    split
    · exact hinv
    · exact hinv

/-- A run of operations keeps the rest positions. -/
theorem runOperations_rest (ops : List Operation) :
    ∀ g g1 : Garage, runOperations ops g = Except.ok g1 →
      (g.state = GarageState.Closed → g.fraction = 0)
        ∧ (g.state = GarageState.Opened → g.fraction = 1) →
      (g1.state = GarageState.Closed → g1.fraction = 0)
        ∧ (g1.state = GarageState.Opened → g1.fraction = 1) := by
  induction ops with
  | nil =>
    intro g g1 hr hinv
    simp only [runOperations, Except.ok.injEq] at hr
    rw [← hr]
    exact hinv
  | cons op rest ih =>
    intro g g1 hr hinv
    unfold runOperations at hr
    cases ha : applyOperation op g with
    | error e => simp [ha] at hr
    | ok g2 =>
      simp only [ha] at hr
      exact ih g2 g1 hr (applyOperation_rest op g g2 ha hinv)

/-- C34: in every garage state reached from construction by a run of `tick`
(with any `dt`, negative ones included), `open`, `close`, `activate`,
`deactivate` and `makeDoorSwing`, the state `Closed` comes with fraction 0 and
the state `Opened` with fraction 1. -/
theorem rest_states_fix_fraction (hdr : GarageHeader) (pool : List PlacedInstance)
    (id : Nat) (coord0 coord1 : Vec3) (type : GarageType) (g0 g : Garage)
    (ops : List Operation)
    (hc : Garage.create hdr pool id coord0 coord1 type = Except.ok g0)
    (hr : runOperations ops g0 = Except.ok g) :
    (g.state = GarageState.Closed → g.fraction = 0)
    ∧ (g.state = GarageState.Opened → g.fraction = 1) := by
  obtain ⟨_, hs, hf⟩ := create_state hdr pool id coord0 coord1 type g0 hc
  refine runOperations_rest ops g0 g hr ⟨?_, ?_⟩
  · intro h0
    rw [hf, ← hs, h0]
    simp
  · intro h0
    rw [hf, ← hs, h0]
    simp

/-- C34, at the example garage: `open`, a tick with `dt = -1` that takes the
fraction to `-1 / 4` while the state stays `Opening`, and a tick with `dt = 5`
that completes the opening: the garage is `Opened` at fraction 1. -/
theorem rest_states_fix_fraction_witness :
    runOperations [Operation.open, Operation.tick (footWorld ⟨5, 5, 1⟩) (-1),
        Operation.tick (footWorld ⟨5, 5, 1⟩) 5] exampleGarage = Except.ok openedHideout
    ∧ openedHideout.state = GarageState.Opened
    ∧ openedHideout.fraction = 1 := by
  have hr : runOperations [Operation.open, Operation.tick (footWorld ⟨5, 5, 1⟩) (-1),
      Operation.tick (footWorld ⟨5, 5, 1⟩) 5] exampleGarage = Except.ok openedHideout := by
    norm_num [runOperations, applyOperation, Garage.open, tick, tickSwitch,
      shouldStopOpening, doOnOpenEvent, updateDoor, distanceAtLeast,
      getDistanceToGarageSq, exampleGarage, openedHideout, footWorld, Vec3.add]
  have h := rest_states_fix_fraction exampleHeader [exampleDoor (41 / 10)] 0 ⟨0, 0, 0⟩
    ⟨10, 10, 5⟩ GarageType.Hideout1 exampleGarage openedHideout _ create_exampleGarage hr
  exact ⟨hr, rfl, h.2 rfl⟩

/-- The garage kinds for which `shouldClose` can return true, and the kind of
the garage it returns. -/
theorem shouldClose_true_kinds (w : World) (g g1 : Garage)
    (h : shouldClose w g = Except.ok (true, g1)) :
    g1.type = g.type
    ∧ (g.type = GarageType.Mission ∨ g.type = GarageType.BombShop1
      ∨ g.type = GarageType.BombShop2 ∨ g.type = GarageType.BombShop3
      ∨ g.type = GarageType.Respray ∨ g.type = GarageType.CollectCars1
      ∨ g.type = GarageType.CollectCars2 ∨ g.type = GarageType.Hideout1
      ∨ g.type = GarageType.Hideout2 ∨ g.type = GarageType.Hideout3) := by
  have hg := shouldClose_only_resprayDone w g g1 true h
  refine ⟨by rw [hg], ?_⟩
  unfold shouldClose at h
  cases ht : g.type <;> simp only [ht] at h <;>
    first
    | (simp; done)
    | simp at h

/-- What `doOnStartClosingEvent` does to the world: for `Mission`,
`BombShop1/2/3`, `Respray` and `CollectCars1/2` player input is disabled
afterwards; for every other kind the world is as it was. -/
theorem doOnStartClosingEvent_world (w w1 : World) (g g1 : Garage)
    (h : doOnStartClosingEvent w g = Except.ok (g1, w1)) :
    (g.type = GarageType.Mission ∨ g.type = GarageType.BombShop1
      ∨ g.type = GarageType.BombShop2 ∨ g.type = GarageType.BombShop3
      ∨ g.type = GarageType.Respray ∨ g.type = GarageType.CollectCars1
      ∨ g.type = GarageType.CollectCars2 → w1.inputEnabled = false)
    ∧ (¬(g.type = GarageType.Mission ∨ g.type = GarageType.BombShop1
      ∨ g.type = GarageType.BombShop2 ∨ g.type = GarageType.BombShop3
      ∨ g.type = GarageType.Respray ∨ g.type = GarageType.CollectCars1
      ∨ g.type = GarageType.CollectCars2) → w1 = w) := by
  unfold doOnStartClosingEvent setHandbraking at h
  cases hv : w.currentVehicle <;> cases ht : g.type <;> simp only [hv, ht] at h <;>
    cases h <;> simp

/-- A pass through the `switch (state)` of `tick` that takes the garage from
`Opened` to `Closing` has seen `shouldClose` return true and has run
`doOnStartClosingEvent`. -/
theorem tickSwitch_start_closing (w w1 : World) (dt : ℚ) (g g1 : Garage)
    (h : tickSwitch w dt g = Except.ok (g1, w1)) (hs : g.state = GarageState.Opened)
    (hc : g1.state = GarageState.Closing) :
    ∃ g2, shouldClose w g = Except.ok (true, g2)
      ∧ doOnStartClosingEvent w { g2 with state := GarageState.Closing }
        = Except.ok (g1, w1) := by
  unfold tickSwitch at h
  simp only [hs] at h
  split at h
  · simp at h
  · rename_i g2 heq
    exact ⟨g2, heq, h⟩
  · rename_i g2 heq
    simp only [Except.ok.injEq, Prod.mk.injEq] at h
    have hf := (shouldClose_frame w g g2 false heq).1
    rw [h.1, hc, hs] at hf
    cases hf

/-- C31 (as stated, refuted): the example `Hideout1`, opened, with the player
on foot at distance 10 and player input enabled: `tick` moves the garage from
`Opened` to `Closing` and player input is still enabled afterwards. -/
theorem hideout_start_closing_keeps_input :
    openedHideout.state = GarageState.Opened
    ∧ shouldClose (footWorld ⟨20, 0, 1⟩) { openedHideout with needsToUpdate := false }
        = Except.ok (true, { openedHideout with needsToUpdate := false })
    ∧ tick (footWorld ⟨20, 0, 1⟩) 1 openedHideout
        = Except.ok ({ openedHideout with state := GarageState.Closing, needsToUpdate := false },
            footWorld ⟨20, 0, 1⟩)
    ∧ (footWorld ⟨20, 0, 1⟩).inputEnabled = true := by
  refine ⟨rfl, ?_, ?_, rfl⟩
  · norm_num [shouldClose, distanceAtLeast, getDistanceToGarageSq, openedHideout,
      exampleGarage, footWorld]
  · norm_num [tick, tickSwitch, shouldClose, doOnStartClosingEvent, distanceAtLeast,
      getDistanceToGarageSq, openedHideout, exampleGarage, footWorld]

/-- C31 (amended): whenever `tick` moves a garage from `Opened` to `Closing`,
the garage is of a kind for which `shouldClose` can hold (`Mission`,
`BombShop1/2/3`, `Respray`, `CollectCars1/2`, `Hideout1/2/3`); for `Mission`,
`BombShop1/2/3`, `Respray` and `CollectCars1/2` player input is disabled at
the end of that tick; for `Hideout1/2/3` the start-closing trigger does
nothing and the world, player input included, is as it was. -/
theorem start_closing_disables_input (w w1 : World) (dt : ℚ) (g g1 : Garage)
    (h : tick w dt g = Except.ok (g1, w1)) (hs : g.state = GarageState.Opened)
    (hc : g1.state = GarageState.Closing) :
    (g.type = GarageType.Mission ∨ g.type = GarageType.BombShop1
      ∨ g.type = GarageType.BombShop2 ∨ g.type = GarageType.BombShop3
      ∨ g.type = GarageType.Respray ∨ g.type = GarageType.CollectCars1
      ∨ g.type = GarageType.CollectCars2 ∨ g.type = GarageType.Hideout1
      ∨ g.type = GarageType.Hideout2 ∨ g.type = GarageType.Hideout3)
    ∧ (g.type = GarageType.Mission ∨ g.type = GarageType.BombShop1
      ∨ g.type = GarageType.BombShop2 ∨ g.type = GarageType.BombShop3
      ∨ g.type = GarageType.Respray ∨ g.type = GarageType.CollectCars1
      ∨ g.type = GarageType.CollectCars2 → w1.inputEnabled = false)
    ∧ (g.type = GarageType.Hideout1 ∨ g.type = GarageType.Hideout2
      ∨ g.type = GarageType.Hideout3 → w1 = w) := by
  unfold tick at h
  by_cases hd : g.doorObject.isNone = true
  · simp only [hd, if_true, Except.ok.injEq, Prod.mk.injEq] at h
    rw [← h.1, hs] at hc
    cases hc
  · by_cases ha : (!g.active) = true
    · simp only [hd, ha, if_true, if_false, Except.ok.injEq, Prod.mk.injEq,
        Bool.false_eq_true] at h
      rw [← h.1, hs] at hc
      cases hc
    · simp only [hd, ha, if_false, Bool.false_eq_true] at h
      split at h
      · simp at h
      · rename_i g2 w2 hsw
        simp only [Except.ok.injEq, Prod.mk.injEq] at h
        obtain ⟨hg, hw⟩ := h
        have e1 : g1.state = g2.state := by rw [← hg]; split <;> rfl
        obtain ⟨g3, hsc, hev⟩ := tickSwitch_start_closing w w2 dt _ g2 hsw hs (e1 ▸ hc)
        obtain ⟨ht3, hk⟩ := shouldClose_true_kinds w _ g3 hsc
        have ht3 : g3.type = g.type := ht3
        have hk : g.type = GarageType.Mission ∨ g.type = GarageType.BombShop1
            ∨ g.type = GarageType.BombShop2 ∨ g.type = GarageType.BombShop3
            ∨ g.type = GarageType.Respray ∨ g.type = GarageType.CollectCars1
            ∨ g.type = GarageType.CollectCars2 ∨ g.type = GarageType.Hideout1
            ∨ g.type = GarageType.Hideout2 ∨ g.type = GarageType.Hideout3 := hk
        obtain ⟨hin, hout⟩ := doOnStartClosingEvent_world w w2 _ g2 hev
        have hin2 : g.type = GarageType.Mission ∨ g.type = GarageType.BombShop1
            ∨ g.type = GarageType.BombShop2 ∨ g.type = GarageType.BombShop3
            ∨ g.type = GarageType.Respray ∨ g.type = GarageType.CollectCars1
            ∨ g.type = GarageType.CollectCars2 → w2.inputEnabled = false := by
          intro hty
          apply hin
          show g3.type = _ ∨ g3.type = _ ∨ g3.type = _ ∨ g3.type = _ ∨ g3.type = _
            ∨ g3.type = _ ∨ g3.type = _
          rw [ht3]
          exact hty
        have hout2 : g.type = GarageType.Hideout1 ∨ g.type = GarageType.Hideout2
            ∨ g.type = GarageType.Hideout3 → w2 = w := by
          intro hty
          apply hout
          show ¬(g3.type = _ ∨ g3.type = _ ∨ g3.type = _ ∨ g3.type = _ ∨ g3.type = _
            ∨ g3.type = _ ∨ g3.type = _)
          rw [ht3]
          rcases hty with hty | hty | hty <;> rw [hty] <;> simp
        rw [← hw]
        exact ⟨hk, hin2, hout2⟩

/-- C31 (amended), at the example respray with the player's stopped car inside
the box and player input enabled: `tick` starts the closing and player input
is disabled afterwards. -/
theorem start_closing_disables_input_witness :
    exampleRespray.state = GarageState.Opened
    ∧ drivingWorld.inputEnabled = true
    ∧ tick drivingWorld 1 exampleRespray
        = Except.ok ({ exampleRespray with state := GarageState.Closing },
            { drivingWorld with inputEnabled := false })
    ∧ ({ drivingWorld with inputEnabled := false } : World).inputEnabled = false := by
  have ht : tick drivingWorld 1 exampleRespray
      = Except.ok ({ exampleRespray with state := GarageState.Closing },
          { drivingWorld with inputEnabled := false }) := by
    norm_num [tick, tickSwitch, shouldClose, doOnStartClosingEvent, setHandbraking,
      isObjectInsideGarage, exampleRespray, exampleGarage, drivingWorld, carWorld]
  exact ⟨rfl, rfl, ht,
    (start_closing_disables_input _ _ _ _ _ ht rfl rfl).2.1 (Or.inr (Or.inr (Or.inr (Or.inr
      (Or.inl rfl)))))⟩

/-- On a `CollectCars1/2` garage `shouldClose` completes and leaves the garage
as it is. -/
theorem collectCars_shouldClose (w : World) (g : Garage)
    (ht : g.type = GarageType.CollectCars1 ∨ g.type = GarageType.CollectCars2) :
    ∃ b, shouldClose w g = Except.ok (b, g) := by
  unfold shouldClose
  rcases ht with ht | ht <;> simp only [ht] <;> (repeat' split) <;> exact ⟨_, rfl⟩

/-- On a `CollectCars1/2` garage `doOnStartClosingEvent` disables player input
and does nothing else. -/
theorem collectCars_startClosing (w : World) (g : Garage)
    (ht : g.type = GarageType.CollectCars1 ∨ g.type = GarageType.CollectCars2) :
    doOnStartClosingEvent w g = Except.ok (g, { w with inputEnabled := false }) := by
  unfold doOnStartClosingEvent
  rcases ht with ht | ht <;> simp only [ht]

/-- On a `CollectCars1/2` garage `doOnCloseEvent` does nothing. -/
theorem collectCars_closeEvent (w : World) (g : Garage)
    (ht : g.type = GarageType.CollectCars1 ∨ g.type = GarageType.CollectCars2) :
    doOnCloseEvent w g = Except.ok (g, w) := by
  unfold doOnCloseEvent
  rcases ht with ht | ht <;> simp only [ht]

/-- One pass through the `switch (state)` of `tick` on a `CollectCars1/2`
garage: it completes, keeps the kind, leaves a `Closed` garage and its world
as they are, and writes nothing to the world but `inputEnabled = false`. -/
theorem collectCars_tickSwitch (w : World) (dt : ℚ) (g : Garage)
    (ht : g.type = GarageType.CollectCars1 ∨ g.type = GarageType.CollectCars2) :
    ∃ g1 w1, tickSwitch w dt g = Except.ok (g1, w1)
      ∧ g1.type = g.type
      ∧ (g.state = GarageState.Closed → g1.state = GarageState.Closed ∧ w1 = w)
      ∧ (w1 = w ∨ w1 = { w with inputEnabled := false }) := by
  have ho : shouldOpen w g = false := by
    rcases ht with ht | ht <;> simp [shouldOpen, ht]
  have hso : shouldStopOpening w g = false := by
    rcases ht with ht | ht <;> simp [shouldStopOpening, ht]
  have hsc : shouldStopClosing w g = false := by
    rcases ht with ht | ht <;> simp [shouldStopClosing, ht]
  obtain ⟨b, hb⟩ := collectCars_shouldClose w g ht
  unfold tickSwitch
  cases hst : g.state with
  | Closed =>
    simp only [ho]
    exact ⟨g, w, rfl, rfl, fun _ => ⟨hst, rfl⟩, Or.inl rfl⟩
  | Opened =>
    simp only [hb]
    cases b with
    | false =>
      refine ⟨g, w, rfl, rfl, ?_, Or.inl rfl⟩
      intro h
      cases h
    | true =>
      simp only [collectCars_startClosing w { g with state := GarageState.Closing } ht]
      refine ⟨_, _, rfl, rfl, ?_, Or.inr rfl⟩
      intro h
      cases h
  | Opening =>
    simp only [hso, doOnOpenEvent, Bool.false_eq_true, if_false]
    split
    · refine ⟨_, _, rfl, rfl, ?_, Or.inl rfl⟩
      intro h
      cases h
    · refine ⟨_, _, rfl, rfl, ?_, Or.inl rfl⟩
      intro h
      cases h
  | Closing =>
    simp only [hsc, Bool.false_eq_true, if_false]
    split
    · simp only [collectCars_closeEvent w
        { g with fraction := 0, state := GarageState.Closed } ht]
      refine ⟨_, _, rfl, rfl, ?_, Or.inl rfl⟩
      intro h
      cases h
    · refine ⟨_, _, rfl, rfl, ?_, Or.inl rfl⟩
      intro h
      cases h

/-- One `tick` of a `CollectCars1/2` garage: it completes, keeps the kind,
leaves a `Closed` garage closed and its world as it is, and writes nothing to
the world but `inputEnabled = false`. -/
theorem collectCars_tick (w : World) (dt : ℚ) (g : Garage)
    (ht : g.type = GarageType.CollectCars1 ∨ g.type = GarageType.CollectCars2) :
    ∃ g1 w1, tick w dt g = Except.ok (g1, w1)
      ∧ g1.type = g.type
      ∧ (g.state = GarageState.Closed → g1.state = GarageState.Closed ∧ w1 = w)
      ∧ (w1 = w ∨ w1 = { w with inputEnabled := false }) := by
  unfold tick
  by_cases hd : g.doorObject.isNone = true
  · simp only [hd, if_true]
    exact ⟨g, w, rfl, rfl, fun h => ⟨h, rfl⟩, Or.inl rfl⟩
  · by_cases ha : (!g.active) = true
    · simp only [hd, ha, if_true, if_false, Bool.false_eq_true]
      exact ⟨g, w, rfl, rfl, fun h => ⟨h, rfl⟩, Or.inl rfl⟩
    · simp only [hd, ha, if_false, Bool.false_eq_true]
      obtain ⟨g2, w2, hsw, hty, hcl, hw⟩ :=
        collectCars_tickSwitch w dt { g with needsToUpdate := false } ht
      rw [hsw]
      refine ⟨_, _, rfl, ?_, ?_, hw⟩
      · rw [← show g2.type = g.type from hty]
        split <;> rfl
      · intro hs
        obtain ⟨h1, h2⟩ := hcl hs
        refine ⟨?_, h2⟩
        rw [← h1]
        split <;> rfl

/-- Along a run of ticks a `CollectCars1/2` garage keeps its kind, and stays
`Closed` when it starts `Closed`. -/
theorem collectCars_trace (ticks : List (World × ℚ)) :
    ∀ g : Garage, g.type = GarageType.CollectCars1 ∨ g.type = GarageType.CollectCars2 →
      ∀ g1 ∈ tickTrace ticks g,
        g1.type = g.type ∧ (g.state = GarageState.Closed → g1.state = GarageState.Closed) := by
  induction ticks with
  | nil =>
    intro g _ g1 hg
    simp only [tickTrace, List.mem_singleton] at hg
    rw [hg]
    exact ⟨rfl, id⟩
  | cons p rest ih =>
    intro g ht g1 hg
    obtain ⟨w, dt⟩ := p
    obtain ⟨g2, w2, htick, hty, hcl, _⟩ := collectCars_tick w dt g ht
    simp only [tickTrace, htick, List.mem_cons] at hg
    rcases hg with hg | hg
    · rw [hg]
      exact ⟨rfl, id⟩
    · obtain ⟨h1, h2⟩ := ih g2 (by rw [hty]; exact ht) g1 hg
      exact ⟨h1.trans hty, fun hs => h2 (hcl hs).1⟩

/-- C36: for a `CollectCars1/2` garage `shouldOpen` and `shouldStopClosing`
are false in every world state. Along every run of ticks the garage keeps its
kind and, once `Closed`, stays `Closed`; every further tick completes, leaves
a `Closed` garage `Closed` with the world untouched (the start-opening trigger
has not run), and in any state leaves player input disabled when it was
disabled before the tick. -/
theorem collectCars_input_stays_disabled (g : Garage)
    (ht : g.type = GarageType.CollectCars1 ∨ g.type = GarageType.CollectCars2) :
    (∀ w : World, shouldOpen w g = false ∧ shouldStopClosing w g = false)
    ∧ (∀ ticks : List (World × ℚ), ∀ g1 ∈ tickTrace ticks g,
        g1.type = g.type
        ∧ (g.state = GarageState.Closed → g1.state = GarageState.Closed)
        ∧ ∀ (w : World) (dt : ℚ), ∃ g2 w2, tick w dt g1 = Except.ok (g2, w2)
            ∧ (g1.state = GarageState.Closed → g2.state = GarageState.Closed ∧ w2 = w)
            ∧ (w.inputEnabled = false → w2.inputEnabled = false)) := by
  constructor
  · intro w
    rcases ht with ht | ht <;> simp [shouldOpen, shouldStopClosing, ht]
  · intro ticks g1 hg1
    obtain ⟨hty, hcl⟩ := collectCars_trace ticks g ht g1 hg1
    refine ⟨hty, hcl, ?_⟩
    intro w dt
    obtain ⟨g2, w2, htick, _, hc2, hw⟩ := collectCars_tick w dt g1 (by rw [hty]; exact ht)
    refine ⟨g2, w2, htick, hc2, ?_⟩
    intro hin
    rcases hw with hw | hw
    · rw [hw]
      exact hin
    · rw [hw]

/-- C36, at a closed `CollectCars1` garage with the player's stopped car
inside the box and player input disabled: `shouldOpen` is false and a tick
leaves the garage `Closed` and player input disabled. -/
theorem collectCars_input_stays_disabled_witness :
    closedCollectCars.type = GarageType.CollectCars1
    ∧ shouldOpen carWorld closedCollectCars = false
    ∧ carWorld.inputEnabled = false
    ∧ ∃ g2 w2, tick carWorld 1 closedCollectCars = Except.ok (g2, w2)
        ∧ g2.state = GarageState.Closed ∧ w2.inputEnabled = false := by
  have h := collectCars_input_stays_disabled closedCollectCars (Or.inl rfl)
  obtain ⟨_, _, hrun⟩ := h.2 [] closedCollectCars (by simp [tickTrace])
  obtain ⟨g2, w2, htick, hcl, hin⟩ := hrun carWorld 1
  exact ⟨rfl, (h.1 carWorld).1, rfl, g2, w2, htick, (hcl rfl).1, hin rfl⟩

end OpenRW
